import Mathlib

/-!
# Far Horizons: the JSON export of the turn state (`src/data.c`)

A shallow embedding of `exportData` (the builder of the export graph) and of the
`marshal*` functions (the producers of the document tree), followed by the
properties of the export that are established on it.

Conventions of the embedding.

* C `int` fields are `Int`; a C truth test `if (v)` is `v != 0`; `TRUE` is `1`
  and `FALSE` is `0`.
* A C array together with its element count (`star_base`/`num_stars`, the planets
  of a star, `spec_data`/`galaxy.num_species`, the namplas and the ships of a
  species) is a `List`; a NULL-terminated array of pointers is a `List` as well.
* A fixed-size array inside a record (`item_quantity`, `gas`, the bit words of a
  relation set, the `int [MAX_SPECIES + 1]` flag arrays) is a function of its
  index.
* A pointer that may be NULL is an `Option`.
* Behaviour the C standard leaves undefined and that the contents of the store can
  trigger (a store through an index past the end of a flag array, a read of a
  colony slot that holds no colony, a read through a NULL system pointer) makes the
  builder return `none`.
* `char` buffers are `String`; the test `buf[0] == 0` is `buf = ""`.
-/

namespace FarHorizons

/-! ## The document tree (`json.h`) -/

/-- Document node of `json.h`: number, string, boolean, list or map.  A map keeps its
members in the order in which they were added. -/
inductive json_value_t where
  | number : Int → json_value_t
  | string : String → json_value_t
  | boolean : Bool → json_value_t
  | list : List json_value_t → json_value_t
  | map : List (String × json_value_t) → json_value_t

/-- Modelled from the spec: `json_number` of `json.h` (not under `src/`), which
creates a number leaf; numbers of the document are always integers. -/
def json_number (n : Int) : json_value_t := json_value_t.number n

/-- Modelled from the spec: `json_string` of `json.h`, which creates a string leaf. -/
def json_string (s : String) : json_value_t := json_value_t.string s

/-- Modelled from the spec: `json_boolean` of `json.h`, which creates a boolean leaf
from a C truth value. -/
def json_boolean (v : Int) : json_value_t := json_value_t.boolean (v != 0)

/-- Modelled from the spec: the members that `json_add(j, k, v)` of `json.h` adds to
the map `j` under construction: one member, placed after those already there. -/
def json_add (k : String) (v : json_value_t) : List (String × json_value_t) := [(k, v)]

/-- Members added by a guarded `if (c) json_add(j, k, v);`. -/
def json_add_if (c : Bool) (k : String) (v : json_value_t) : List (String × json_value_t) :=
  if c then json_add k v else []

/-- Members added by `if (v != NULL) json_add(j, k, v);` for a value `v` that a loop
may have left NULL. -/
def json_add_opt (k : String) (v : Option json_value_t) : List (String × json_value_t) :=
  match v with
  | none => []
  | some x => json_add k x

/-- Modelled from the spec: `json_append(v, x)` of `json.h`, which appends an element
to a list node. -/
def json_append (v : json_value_t) (x : json_value_t) : json_value_t :=
  match v with
  | json_value_t.list xs => json_value_t.list (xs ++ [x])
  | other => other

/-- The body `if (v == NULL) v = json_list(); json_append(v, x);` of the loops that
build an optional list. -/
def appendCreating (v : Option json_value_t) (x : json_value_t) : Option json_value_t :=
  match v with
  | none => some (json_append (json_value_t.list []) x)
  | some l => some (json_append l x)

/-- First member of a member list that carries the key `k`. -/
def lookupKey (k : String) : List (String × json_value_t) → Option json_value_t
  | [] => none
  | (k', v) :: rest => if k' = k then some v else lookupKey k rest

/-- Member `k` of a node: `none` when the node is not a map or has no such member. -/
def json_value_t.member (k : String) : json_value_t → Option json_value_t
  | json_value_t.map ms => lookupKey k ms
  | _ => none

/-- Keys of a map node in emission order (empty for the other nodes). -/
def json_value_t.keys : json_value_t → List String
  | json_value_t.map ms => ms.map Prod.fst
  | _ => []

/-- Members of a map node in emission order (empty for the other nodes). -/
def json_value_t.members : json_value_t → List (String × json_value_t)
  | json_value_t.map ms => ms
  | _ => []

/-- Elements of a list node (empty for the other nodes). -/
def json_value_t.elements : json_value_t → List json_value_t
  | json_value_t.list xs => xs
  | _ => []

/-! ## Constants and tables of the engine headers -/

/-- Record `ship_data_t` of the store, restricted to the fields that `exportData`
reads. -/
structure ship_data where
  name : String
  age : Int
  arrived_via_wormhole : Int
  item_quantity : Nat → Int
  just_jumped : Int
  loading_point : Int
  unloading_point : Int
  x : Int
  y : Int
  z : Int
  pn : Int
  status : Int
  dest_x : Int
  dest_y : Int
  dest_z : Int
  remaining_cost : Int
  special : Int
  ship_class : Int
  tonnage : Int

/-- Constants, tables and helpers that `data.c` takes from headers outside `src/`;
they are parameters of the embedding. -/
structure Engine where
  MAX_SPECIES : Nat
  MAX_ITEMS : Nat
  item_abbr : Nat → String
  gas_string : Int → String
  tech_abbr : Nat → String
  tech_name : Nat → String
  UNDER_CONSTRUCTION : Int
  ON_SURFACE : Int
  IN_ORBIT : Int
  IN_DEEP_SPACE : Int
  JUMPED_IN_COMBAT : Int
  FORCED_JUMP : Int
  BA : Int
  shipDisplayName : ship_data → String

/-! ## The simulation store -/

/-- Record `planet_data_t` of the store. -/
structure planet_data where
  id : Int
  orbit : Int
  diameter : Int
  econ_efficiency : Int
  gas : Nat → Int
  gas_percent : Nat → Int
  gravity : Int
  special : Int
  md_increase : Int
  message : Int
  mining_difficulty : Int
  pressure_class : Int
  temperature_class : Int

/-- Record `star_data_t` of the store.  `visited_by` maps a word index to a bit word,
`wormholeExit` is the id of the star the pointer designates (`none` for NULL), and
`planets` is the slice of `planet_base` that starts at `planet_index` and holds
`num_planets` records. -/
structure star_data where
  id : Int
  x : Int
  y : Int
  z : Int
  color : Int
  home_system : Int
  size : Int
  type : Int
  message : Int
  visited_by : Nat → Nat
  wormholeExit : Option Int
  planets : List planet_data

/-- Record `nampla_data_t` of the store; `system` and `planet` are the records its two
pointers designate. -/
structure nampla_data where
  id : Int
  name : String
  hidden : Int
  hiding_ : Int
  ma_base : Int
  message : Int
  mi_base : Int
  pop_units : Int
  siege_eff : Int
  special : Int
  use_on_ambush : Int
  system : star_data
  planet : planet_data
  item_quantity : Nat → Int
  auto_AUs : Int
  AUs_needed : Int
  AUs_to_install : Int
  auto_IUs : Int
  IUs_needed : Int
  IUs_to_install : Int

/-- Record `species_data_t` of the store.  `namplas` is `namp_data[index]` with its
`num_namplas` records and `ships` is `ship_data[index]` with its `num_ships` records;
`contact`, `ally` and `enemy` map a word index to a bit word. -/
structure species_data where
  id : Int
  name : String
  govt_name : String
  govt_type : String
  auto_orders : Int
  econ_units : Int
  hp_original_base : Int
  init_tech_level : Nat → Int
  tech_level : Nat → Int
  tech_knowledge : Nat → Int
  tech_eps : Nat → Int
  required_gas : Int
  required_gas_max : Int
  required_gas_min : Int
  neutral_gas : Nat → Int
  poison_gas : Nat → Int
  contact : Nat → Nat
  ally : Nat → Nat
  enemy : Nat → Nat
  namplas : List nampla_data
  ships : List ship_data

/-- Record `galaxy` of the store; `num_species` is the length of the roster. -/
structure galaxy_data where
  turn_number : Int
  radius : Int
  d_num_species : Int

/-- The simulation store that `exportData` reads: the galaxy record, the stars
(`star_base`, `num_stars`) and the species roster (`spec_data`). -/
structure Store where
  galaxy : galaxy_data
  star_base : List star_data
  spec_data : List species_data

/-- Value of `galaxy.num_species`: the number of species of the roster. -/
def Store.num_species (st : Store) : Nat := st.spec_data.length

/-! ## The export graph (`global_*_t`) -/

structure global_gas where
  code : String
  atmos_pct : Int
  min_pct : Int
  max_pct : Int
  required : Int

structure global_item where
  code : String
  quantity : Int

structure global_develop where
  code : String
  auto_install : Int
  units_needed : Int
  units_to_install : Int

structure global_planet where
  id : Int
  orbit : Int
  diameter : Int
  econ_efficiency : Int
  gases : List global_gas
  gravity : Int
  idealHomePlanet : Int
  idealColonyPlanet : Int
  md_increase : Int
  message : Int
  mining_difficulty : Int
  pressure_class : Int
  radioactiveHellHole : Int
  temperature_class : Int

structure global_system where
  id : Int
  x : Int
  y : Int
  z : Int
  color : Int
  home_system : Int
  message : Int
  size : Int
  type : Int
  wormholeExit : Int
  planets : List global_planet
  visited_by : Nat → Int

structure global_location where
  x : Int
  y : Int
  z : Int
  orbit : Int
  colony : String
  deep_space : Int
  in_orbit : Int
  on_surface : Int
  system : Option global_system
  planet : Option global_planet

structure global_colony where
  id : Int
  name : String
  homeworld : Int
  location : global_location
  develop : List global_develop
  hiding_ : Int
  hidden : Int
  inventory : List global_item
  ma_base : Int
  message : Int
  mi_base : Int
  pop_units : Int
  shipyards : Int
  siege_eff : Int
  special : Int
  status : Int
  use_on_ambush : Int

structure global_ship where
  id : Int
  name : String
  age : Int
  arrived_via_wormhole : Int
  inventory : List global_item
  location : global_location
  destination : global_location
  just_jumped : Int
  loading_point : String
  remaining_cost : Int
  special : Int
  status : Int
  tonnage : Int
  unloading_point : String

structure global_skill where
  code : String
  name : String
  init_level : Int
  current_level : Int
  knowledge_level : Int
  xps : Int

structure global_species where
  id : Int
  name : String
  govt_name : String
  govt_type : String
  skills : List global_skill
  auto_orders : Int
  econ_units : Int
  hp_original_base : Int
  required_gases : List global_gas
  neutral_gases : List global_gas
  poison_gases : List global_gas
  colonies : List global_colony
  ships : List global_ship
  contacts : Nat → Int
  allies : Nat → Int
  enemies : Nat → Int

structure global_cluster where
  radius : Int
  d_num_species : Int
  num_species : Int
  systems : List global_system

structure global_data where
  turn : Int
  cluster : global_cluster
  species : List global_species

/-! ## `exportData`: building the export graph -/

/-- The test `(words[b / 32] & (1 << (b % 32))) != 0` of lines 236, 317, 320 and 323,
on 32-bit words. -/
def bit_test (words : Nat → Nat) (b : Nat) : Bool :=
  (words (b / 32) % 2 ^ 32 &&& (1 <<< (b % 32)) % 2 ^ 32) != 0

/-- The store `a[k] = TRUE` into an `int [MAX_SPECIES + 1]` array; it is undefined
when `k` lies past the end of the array. -/
def set_flag (env : Engine) (a : Nat → Int) (k : Nat) : Option (Nat → Int) :=
  if k ≤ env.MAX_SPECIES then some (fun j => if j = k then 1 else a j) else none

/-- The guarded store `if (c) a[k] = TRUE;`. -/
def set_flag_if (env : Engine) (c : Bool) (a : Nat → Int) (k : Nat) : Option (Nat → Int) :=
  if c then set_flag env a k else some a

/-- The same function applied to every element of a list by a loop whose body may be
undefined: the result is `none` as soon as one application is. -/
def mapOpt {α β : Type} (f : α → Option β) : List α → Option (List β)
  | [] => some []
  | a :: rest =>
    match f a with
    | none => none
    | some b =>
      match mapOpt f rest with
      | none => none
      | some bs => some (b :: bs)

/-- Lines 250-258: one gas entry per non-empty gas slot of a planet, in slot order. -/
def exportPlanetGases (env : Engine) (planet : planet_data) : List global_gas :=
  (List.range 4).filterMap fun g =>
    if planet.gas g != 0 then
      some { code := env.gas_string (planet.gas g), atmos_pct := planet.gas_percent g,
             min_pct := 0, max_pct := 0, required := 0 }
    else none

/-- Lines 243-267: the planet of the export graph built from a planet record. -/
def exportPlanet (env : Engine) (planet : planet_data) : global_planet :=
  { id := planet.id
    orbit := planet.orbit
    diameter := planet.diameter
    econ_efficiency := planet.econ_efficiency
    gases := exportPlanetGases env planet
    gravity := planet.gravity
    idealHomePlanet := if planet.special = 1 then 1 else 0
    idealColonyPlanet := if planet.special = 2 then 1 else 0
    md_increase := planet.md_increase
    message := planet.message
    mining_difficulty := planet.mining_difficulty
    pressure_class := planet.pressure_class
    radioactiveHellHole := if planet.special = 3 then 1 else 0
    temperature_class := planet.temperature_class }

/-- Lines 236-238: the body of the loop that decodes the `visited_by` bit set. -/
def visitedStep (env : Engine) (star : star_data) (s : global_system) (i : Nat) :
    Option global_system :=
  match set_flag_if env (bit_test star.visited_by i) s.visited_by (i + 1) with
  | none => none
  | some a => some { s with visited_by := a }

/-- Lines 224-268: the system of the export graph built from a star record;
`num_species` is `galaxy.num_species`. -/
def exportSystem (env : Engine) (num_species : Nat) (star : star_data) : Option global_system :=
  let s : global_system :=
    { id := star.id, x := star.x, y := star.y, z := star.z, color := star.color,
      home_system := star.home_system, message := 0, size := star.size, type := star.type,
      wormholeExit := 0, planets := [], visited_by := fun _ => 0 }
  match (List.range num_species).foldlM (visitedStep env star) s with
  | none => none
  | some s =>
    some { s with
      wormholeExit := (match star.wormholeExit with
        | some id => id
        | none => 0)
      planets := star.planets.map (exportPlanet env) }

/-- Lines 283-291: the six skills of a species. -/
def exportSkills (env : Engine) (species : species_data) : List global_skill :=
  (List.range 6).map fun l =>
    { code := env.tech_abbr l, name := env.tech_name l,
      init_level := species.init_tech_level l, current_level := species.tech_level l,
      knowledge_level := species.tech_knowledge l, xps := species.tech_eps l }

/-- Lines 296-313: a gas list read from six slots up to the first empty slot. -/
def exportGasList (env : Engine) (slots : Nat → Int) : List global_gas :=
  ((List.range 6).takeWhile fun g => slots g != 0).map fun g =>
    { code := env.gas_string (slots g), atmos_pct := 0, min_pct := 0, max_pct := 0,
      required := 0 }

/-- Lines 316-326: the body of the loop that decodes the three relation sets of the
species at roster position `i`. -/
def relationStep (env : Engine) (i : Nat) (species : species_data) (s : global_species)
    (b : Nat) : Option global_species :=
  if b != i then
    match set_flag_if env (bit_test species.ally b) s.allies (b + 1) with
    | none => none
    | some allies =>
      match set_flag_if env (bit_test species.contact b) s.contacts (b + 1) with
      | none => none
      | some contacts =>
        match set_flag_if env (bit_test species.enemy b) s.enemies (b + 1) with
        | none => none
        | some enemies =>
          some { s with allies := allies, contacts := contacts, enemies := enemies }
  else some s

/-- Lines 346-358: the first system of the cluster at the coordinates of the colony. -/
def findSystem (systems : List global_system) (x y z : Int) : Option global_system :=
  systems.find? fun system => x == system.x && y == system.y && z == system.z

/-- Lines 350-355: the first planet of a system at the orbit of the colony. -/
def findPlanet (planets : List global_planet) (orbit : Int) : Option global_planet :=
  planets.find? fun planet => orbit == planet.orbit

/-- Lines 359-374 and 407-422: the inventory built from the item quantities of a
colony or of a ship: one item per non-zero quantity, in index order. -/
def exportInventory (env : Engine) (item_quantity : Nat → Int) : List global_item :=
  (List.range env.MAX_ITEMS).filterMap fun k =>
    if item_quantity k != 0 then
      some { code := env.item_abbr k, quantity := item_quantity k }
    else none

/-- Lines 375-391: the development orders of a colony. -/
def exportDevelop (nampla : nampla_data) : List global_develop :=
  (if nampla.auto_AUs != 0 || nampla.AUs_needed != 0 || nampla.AUs_to_install != 0 then
    [{ code := "AU", auto_install := nampla.auto_AUs,
       units_needed := nampla.AUs_needed, units_to_install := nampla.AUs_to_install }]
   else []) ++
  (if nampla.auto_IUs != 0 || nampla.IUs_needed != 0 || nampla.IUs_to_install != 0 then
    [{ code := "IU", auto_install := nampla.auto_IUs,
       units_needed := nampla.IUs_needed, units_to_install := nampla.IUs_to_install }]
   else [])

/-- Lines 331-391: the colony of the export graph built from the nampla record at
position `n` of its species. -/
def exportColony (env : Engine) (systems : List global_system) (n : Nat)
    (nampla : nampla_data) : global_colony :=
  let system := findSystem systems nampla.system.x nampla.system.y nampla.system.z
  let planet :=
    match system with
    | none => none
    | some sys => findPlanet sys.planets nampla.planet.orbit
  { id := nampla.id
    name := nampla.name
    homeworld := if n = 0 then 1 else 0
    location :=
      { x := 0, y := 0, z := 0, orbit := 0, colony := "", deep_space := 0, in_orbit := 0,
        on_surface := 0, system := system, planet := planet }
    develop := exportDevelop nampla
    hiding_ := nampla.hiding_
    hidden := nampla.hidden
    inventory := exportInventory env nampla.item_quantity
    ma_base := nampla.ma_base
    message := nampla.message
    mi_base := nampla.mi_base
    pop_units := nampla.pop_units
    shipyards := 0
    siege_eff := nampla.siege_eff
    special := nampla.special
    status := 0
    use_on_ambush := nampla.use_on_ambush }

/-- Lines 330-392: the colonies of a species; `n` is the position of the first record of
the list. -/
def exportColonies (env : Engine) (systems : List global_system) :
    Nat → List nampla_data → List global_colony
  | _, [] => []
  | n, nampla :: rest => exportColony env systems n nampla :: exportColonies env systems (n + 1) rest

/-- Lines 425-429 and 457-461: the name a loading or unloading point resolves to; the
buffer stays empty for a value that is neither 9999 nor positive, and the read of a
colony slot that holds no colony is undefined. -/
def resolvePoint (colonies : List global_colony) (point : Int) : Option String :=
  if point = 9999 then
    match colonies[0]? with
    | none => none
    | some c => some c.name
  else if point > 0 then
    match colonies[point.toNat]? with
    | none => none
    | some c => some c.name
  else some ""

/-- Lines 431-437: the name of the first colony whose system has the coordinates of the
ship, or the empty buffer when there is none; the read through the system pointer of
a colony that has no system is undefined. -/
def findColonyName : List global_colony → Int → Int → Int → Option String
  | [], _, _, _ => some ""
  | c :: rest, x, y, z =>
    match c.location.system with
    | none => none
    | some system =>
      if system.x == x && system.y == y && system.z == z then some c.name
      else findColonyName rest x y z

/-- Lines 401-461: the ship of the export graph built from a ship record, given the
colonies already built for its species. -/
def exportShip (env : Engine) (colonies : List global_colony) (ship : ship_data) :
    Option global_ship :=
  match resolvePoint colonies ship.loading_point with
  | none => none
  | some loading_point =>
    match findColonyName colonies ship.x ship.y ship.z with
    | none => none
    | some colony =>
      match resolvePoint colonies ship.unloading_point with
      | none => none
      | some unloading_point =>
        some
          { id := 0
            name := env.shipDisplayName ship
            age := ship.age
            arrived_via_wormhole := ship.arrived_via_wormhole
            inventory := exportInventory env ship.item_quantity
            location :=
              { x := ship.x, y := ship.y, z := ship.z, orbit := ship.pn, colony := colony,
                deep_space := if ship.status = env.IN_DEEP_SPACE then 1 else 0,
                in_orbit := if ship.status = env.IN_ORBIT then 1 else 0,
                on_surface := if ship.status = env.ON_SURFACE then 1 else 0,
                system := none, planet := none }
            destination :=
              { x := ship.dest_x, y := ship.dest_y, z := ship.dest_z, orbit := 0,
                colony := "", deep_space := 0, in_orbit := 0, on_surface := 0,
                system := none, planet := none }
            just_jumped := ship.just_jumped
            loading_point := loading_point
            remaining_cost := ship.remaining_cost
            special := ship.special
            status := ship.status
            tonnage := if ship.ship_class = env.BA then ship.tonnage else 0
            unloading_point := unloading_point }

/-- Lines 272-462: the species of the export graph built from the record at roster
position `i`; `num_species` is `galaxy.num_species`. -/
def exportSpecies (env : Engine) (systems : List global_system) (num_species : Nat) (i : Nat)
    (species : species_data) : Option global_species :=
  let s : global_species :=
    { id := species.id
      name := species.name
      govt_name := species.govt_name
      govt_type := species.govt_type
      skills := exportSkills env species
      auto_orders := species.auto_orders
      econ_units := species.econ_units
      hp_original_base := species.hp_original_base
      required_gases :=
        [{ code := env.gas_string species.required_gas, atmos_pct := 0,
           min_pct := species.required_gas_min, max_pct := species.required_gas_max,
           required := 0 }]
      neutral_gases := exportGasList env species.neutral_gas
      poison_gases := exportGasList env species.poison_gas
      colonies := []
      ships := []
      contacts := fun _ => 0
      allies := fun _ => 0
      enemies := fun _ => 0 }
  match (List.range num_species).foldlM (relationStep env i species) s with
  | none => none
  | some s =>
    let colonies := exportColonies env systems 0 species.namplas
    match mapOpt (exportShip env colonies) (species.ships.filter fun ship => ship.name != "Unused") with
    | none => none
    | some ships => some { s with colonies := colonies, ships := ships }

/-- Lines 271-463: the species of the roster from position `i` on. -/
def exportRoster (env : Engine) (systems : List global_system) (num_species : Nat) :
    Nat → List species_data → Option (List global_species)
  | _, [] => some []
  | i, species :: rest =>
    match exportSpecies env systems num_species i species with
    | none => none
    | some s =>
      match exportRoster env systems num_species (i + 1) rest with
      | none => none
      | some ss => some (s :: ss)

/-- Lines 215-463 of `exportData`: the export graph of a store, `none` when building
it runs into undefined behaviour. -/
def exportData (env : Engine) (st : Store) : Option global_data :=
  match mapOpt (exportSystem env st.num_species) st.star_base with
  | none => none
  | some systems =>
    match exportRoster env systems st.num_species 0 st.spec_data with
    | none => none
    | some species =>
      some
        { turn := st.galaxy.turn_number
          cluster :=
            { radius := st.galaxy.radius, d_num_species := st.galaxy.d_num_species,
              num_species := st.num_species, systems := systems }
          species := species }

/-! ## The `marshal*` functions: from the export graph to the document tree -/

/-- Lines 546-559. -/
def marshalDevelop (d : global_develop) : json_value_t :=
  json_value_t.map (
    json_add "code" (json_string d.code) ++
    json_add_if (d.auto_install != 0) "auto_install" (json_number d.auto_install) ++
    json_add_if (d.units_needed != 0) "units_needed" (json_number d.units_needed) ++
    json_add_if (d.units_to_install != 0) "units_to_install" (json_number d.units_to_install))

/-- Lines 562-576. -/
def marshalGas (g : global_gas) : json_value_t :=
  json_value_t.map (
    json_add "code" (json_string g.code) ++
    json_add_if (g.atmos_pct != 0) "atmos_pct" (json_number g.atmos_pct) ++
    (if g.min_pct != 0 || g.max_pct != 0 then
      json_add "min_pct" (json_number g.min_pct) ++ json_add "max_pct" (json_number g.max_pct)
     else []) ++
    json_add_if (g.required != 0) "required" (json_boolean 1))

/-- Lines 579-587. -/
def marshalGases (g : List global_gas) : json_value_t :=
  json_value_t.list (g.map marshalGas)

/-- Lines 599-607: one member per item, keyed by the item code. -/
def marshalInventory (i : List global_item) : json_value_t :=
  json_value_t.map (i.map fun item => (item.code, json_number item.quantity))

/-- Lines 610-632. -/
def marshalLocation (l : global_location) : json_value_t :=
  json_value_t.map (
    (if l.colony = "" then
      json_add "x" (json_number l.x) ++
      json_add "y" (json_number l.y) ++
      json_add "z" (json_number l.z) ++
      json_add_if (l.orbit != 0) "z" (json_number l.orbit)
     else json_add "colony" (json_string l.colony)) ++
    json_add_if (l.deep_space != 0) "deep_space" (json_boolean 1) ++
    json_add_if (l.in_orbit != 0) "in_orbit" (json_boolean 1) ++
    json_add_if (l.on_surface != 0) "on_surface" (json_boolean 1))

/-- Lines 504-510: the value of `develop` after the loop over the development orders
(`none` is NULL). -/
def marshalDevelopList (ds : List global_develop) : Option json_value_t :=
  ds.foldl (fun v d => appendCreating v (marshalDevelop d)) none

/-- Lines 482-532. -/
def marshalColony (c : global_colony) : json_value_t :=
  json_value_t.map (
    json_add "name" (json_string c.name) ++
    (match c.location.system with
     | none => []
     | some system =>
       json_add "system" (json_number system.id) ++
       (match c.location.planet with
        | none => []
        | some planet => json_add "orbit" (json_number planet.orbit))) ++
    json_add_if (c.homeworld != 0) "homeworld" (json_boolean 1) ++
    json_add_if (c.hidden != 0) "hidden" (json_boolean 1) ++
    json_add_if (c.hiding_ != 0) "hiding" (json_boolean 1) ++
    json_add_if (!c.inventory.isEmpty) "inventory" (marshalInventory c.inventory) ++
    json_add_opt "develop" (marshalDevelopList c.develop) ++
    json_add "ma_base" (json_number c.ma_base) ++
    json_add_if (c.message != 0) "message" (json_number c.message) ++
    json_add "mi_base" (json_number c.mi_base) ++
    json_add_if (c.pop_units != 0) "pop_units" (json_number c.pop_units) ++
    json_add_if (c.siege_eff != 0) "siege_eff" (json_boolean 1) ++
    json_add_if (c.special != 0) "special" (json_number c.special) ++
    json_add_if (c.use_on_ambush != 0) "use_on_ambush" (json_boolean 1))

/-- Lines 535-543. -/
def marshalColonies (c : List global_colony) : json_value_t :=
  json_value_t.list (c.map marshalColony)

/-- Lines 635-662. -/
def marshalPlanet (p : global_planet) : json_value_t :=
  json_value_t.map (
    json_add "id" (json_number p.id) ++
    json_add "orbit" (json_number p.orbit) ++
    json_add "diameter" (json_number p.diameter) ++
    json_add "econ_efficiency" (json_number p.econ_efficiency) ++
    json_add "gases" (marshalGases p.gases) ++
    json_add "gravity" (json_number p.gravity) ++
    json_add_if (p.idealHomePlanet != 0) "ideal_home_planet" (json_boolean 1) ++
    json_add_if (p.idealColonyPlanet != 0) "ideal_colony_planet" (json_boolean 1) ++
    json_add "md_increase" (json_number p.md_increase) ++
    json_add_if (p.message != 0) "message" (json_number p.message) ++
    json_add_if (p.mining_difficulty != 0) "mining_difficulty" (json_number p.mining_difficulty) ++
    json_add "pressure_class" (json_number p.pressure_class) ++
    json_add_if (p.radioactiveHellHole != 0) "radioactive_hell_hole" (json_boolean 1) ++
    json_add "temperature_class" (json_number p.temperature_class))

/-- Lines 665-673. -/
def marshalPlanets (p : List global_planet) : json_value_t :=
  json_value_t.list (p.map marshalPlanet)

/-- Lines 676-720. -/
def marshalShip (env : Engine) (s : global_ship) : json_value_t :=
  json_value_t.map (
    json_add "name" (json_string s.name) ++
    json_add_if (s.age != 0) "age" (json_number s.age) ++
    json_add_if (s.arrived_via_wormhole != 0) "arrived_via_wormhole" (json_boolean 1) ++
    json_add_if (s.status == env.FORCED_JUMP) "forced_jump" (json_boolean 1) ++
    json_add_if (!s.inventory.isEmpty) "inventory" (marshalInventory s.inventory) ++
    json_add "location" (marshalLocation s.location) ++
    json_add_if (s.destination.x != 0) "destination" (marshalLocation s.destination) ++
    json_add_if (s.status == env.JUMPED_IN_COMBAT) "jumped_in_combat" (json_boolean 1) ++
    json_add_if (s.just_jumped != 0) "just_jumped" (json_boolean 1) ++
    json_add_if (s.loading_point != "") "loading_point" (json_string s.loading_point) ++
    json_add_if (s.remaining_cost != 0) "remaining_cost" (json_number s.remaining_cost) ++
    json_add_if (s.tonnage != 0) "tonnage" (json_number s.tonnage) ++
    json_add_if (s.status == env.UNDER_CONSTRUCTION) "under_construction" (json_boolean 1) ++
    json_add_if (s.special != 0) "special" (json_number s.special) ++
    json_add_if (s.unloading_point != "") "unloading_point" (json_string s.unloading_point))

/-- Lines 723-731. -/
def marshalShips (env : Engine) (s : List global_ship) : json_value_t :=
  json_value_t.list (s.map (marshalShip env))

/-- Lines 734-747. -/
def marshalSkill (s : global_skill) : json_value_t :=
  json_value_t.map (
    json_add "code" (json_string s.code) ++
    json_add_if (s.init_level != 0) "init_level" (json_number s.init_level) ++
    json_add "current_level" (json_number s.current_level) ++
    json_add_if (s.knowledge_level != 0) "knowledge_level" (json_number s.knowledge_level) ++
    json_add "xps" (json_number s.xps))

/-- Lines 750-758. -/
def marshalSkills (s : List global_skill) : json_value_t :=
  json_value_t.list (s.map marshalSkill)

/-- Lines 782-790, 794-802, 806-814 and 851-859: the value of `v` after the loop over
`sp = 0 .. MAX_SPECIES` that lists the indices at which a flag array is set (`none` is
NULL). -/
def marshalFlags (env : Engine) (flags : Nat → Int) : Option json_value_t :=
  (List.range (env.MAX_SPECIES + 1)).foldl
    (fun v sp => if flags sp != 0 then appendCreating v (json_number (sp : Int)) else v) none

/-- Lines 761-822. -/
def marshalSpecie (env : Engine) (s : global_species) : json_value_t :=
  json_value_t.map (
    json_add "sp" (json_number s.id) ++
    json_add "name" (json_string s.name) ++
    json_add "govt_name" (json_string s.govt_name) ++
    json_add "govt_type" (json_string s.govt_type) ++
    json_add_if (s.auto_orders != 0) "auto_orders" (json_boolean 1) ++
    json_add "econ_units" (json_number s.econ_units) ++
    json_add_if (s.hp_original_base != 0) "hp_original_base" (json_number s.hp_original_base) ++
    json_add "skills" (marshalSkills s.skills) ++
    json_add "required_gases" (marshalGases s.required_gases) ++
    json_add "neutral_gases" (marshalGases s.neutral_gases) ++
    json_add "poison_gases" (marshalGases s.poison_gases) ++
    json_add_opt "contacts" (marshalFlags env s.contacts) ++
    json_add_opt "allies" (marshalFlags env s.allies) ++
    json_add_opt "enemies" (marshalFlags env s.enemies) ++
    json_add "colonies" (marshalColonies s.colonies) ++
    json_add "ships" (marshalShips env s.ships))

/-- Lines 825-833. -/
def marshalSpecies (env : Engine) (s : List global_species) : json_value_t :=
  json_value_t.list (s.map (marshalSpecie env))

/-- Lines 836-865; the location of line 839 has the coordinates of the system and
zeroes elsewhere. -/
def marshalSystem (env : Engine) (s : global_system) : json_value_t :=
  let l : global_location :=
    { x := s.x, y := s.y, z := s.z, orbit := 0, colony := "", deep_space := 0, in_orbit := 0,
      on_surface := 0, system := none, planet := none }
  json_value_t.map (
    json_add "id" (json_number s.id) ++
    json_add "coords" (marshalLocation l) ++
    json_add "type" (json_number s.type) ++
    json_add "color" (json_number s.color) ++
    json_add "size" (json_number s.size) ++
    json_add_if (s.home_system != 0) "home_system" (json_boolean 1) ++
    json_add "message" (json_number s.id) ++
    json_add_if (s.wormholeExit != 0) "wormhole_exit" (json_number s.wormholeExit) ++
    json_add_opt "visited_by" (marshalFlags env s.visited_by) ++
    json_add "planets" (marshalPlanets s.planets))

/-- Lines 868-876. -/
def marshalSystems (env : Engine) (s : List global_system) : json_value_t :=
  json_value_t.list (s.map (marshalSystem env))

/-- Lines 472-479. -/
def marshalCluster (env : Engine) (c : global_cluster) : json_value_t :=
  json_value_t.map (
    json_add "radius" (json_number c.radius) ++
    json_add "d_num_species" (json_number c.d_num_species) ++
    json_add "num_species" (json_number c.num_species) ++
    json_add "systems" (marshalSystems env c.systems))

/-- Lines 590-596. -/
def marshalGlobals (env : Engine) (g : global_data) : json_value_t :=
  json_value_t.map (
    json_add "turn" (json_number g.turn) ++
    json_add "cluster" (marshalCluster env g.cluster) ++
    json_add "species" (marshalSpecies env g.species))

/-- Lines 465-466 of `exportData`: the document tree handed to `json_write`, `none`
when building the export graph is undefined. -/
def exportDocument (env : Engine) (st : Store) : Option json_value_t :=
  (exportData env st).map (marshalGlobals env)

/-! ## Vocabulary of the properties -/

/-- The list node that holds the given ids as numbers. -/
def idList (ids : List Nat) : json_value_t :=
  json_value_t.list (ids.map fun (sp : Nat) => json_number (sp : Int))

/-- The decoded sequence of a flag array: the indices `0 .. MAX_SPECIES` at which the
array is set, in the order of the marshalling loop. -/
def decodedIds (env : Engine) (flags : Nat → Int) : List Nat :=
  (List.range (env.MAX_SPECIES + 1)).filter fun sp => flags sp != 0

/-- Whether a node is the number 0. -/
def json_value_t.isZero : json_value_t → Bool
  | json_value_t.number n => n == 0
  | _ => false

mutual
/-- Whether every member `(k, v)` of every map node of a tree satisfies `P k v`. -/
def json_value_t.forallMembers (P : String → json_value_t → Bool) : json_value_t → Bool
  | json_value_t.map ms => forallMembersIn P ms
  | json_value_t.list xs => forallMembersAmong P xs
  | _ => true
/-- The members of a member list, and of the trees below them, satisfy `P`. -/
def forallMembersIn (P : String → json_value_t → Bool) : List (String × json_value_t) → Bool
  | [] => true
  | (k, v) :: rest => P k v && v.forallMembers P && forallMembersIn P rest
/-- The members of the trees of a list satisfy `P`. -/
def forallMembersAmong (P : String → json_value_t → Bool) : List json_value_t → Bool
  | [] => true
  | x :: xs => x.forallMembers P && forallMembersAmong P xs
end

/-- The presence rule for counters as a property of one member: its value is not the
number 0. -/
def nonZeroMember (_k : String) (v : json_value_t) : Bool := !v.isZero

/-- The keys under which a marshal function adds a number without a guard on its
value. -/
def unguardedKeys : List String :=
  ["turn", "radius", "d_num_species", "num_species", "id", "x", "y", "z", "type", "color",
   "size", "message", "orbit", "diameter", "econ_efficiency", "gravity", "md_increase",
   "pressure_class", "temperature_class", "sp", "econ_units", "current_level", "xps",
   "min_pct", "max_pct", "system", "ma_base", "mi_base"]

/-- The presence rule for counters that the marshaller follows, as a property of one
member: its value is not the number 0, or its key is one of the unguarded keys. -/
def zeroRule (k : String) (v : json_value_t) : Bool := !v.isZero || unguardedKeys.contains k

/-- The species nodes of a document: the elements of the member `species` of the root. -/
def speciesNodes (doc : json_value_t) : List json_value_t :=
  match doc.member "species" with
  | some l => l.elements
  | none => []

/-- The system nodes of a document: the elements of the member `systems` of the member
`cluster` of the root. -/
def systemNodes (doc : json_value_t) : List json_value_t :=
  match doc.member "cluster" with
  | some c =>
    match c.member "systems" with
    | some l => l.elements
    | none => []
  | none => []

/-- The elements of the relation list `key` of a node; empty when the member is
absent. -/
def relationList (key : String) (node : json_value_t) : List json_value_t :=
  match node.member key with
  | some l => l.elements
  | none => []

/-- The colony nodes of a species node: the elements of its member `colonies`. -/
def colonyNodes (node : json_value_t) : List json_value_t :=
  match node.member "colonies" with
  | some l => l.elements
  | none => []

/-- The ship nodes of a species node: the elements of its member `ships`. -/
def shipNodes (node : json_value_t) : List json_value_t :=
  match node.member "ships" with
  | some l => l.elements
  | none => []

/-- The planet nodes of a system node: the elements of its member `planets`. -/
def planetNodes (node : json_value_t) : List json_value_t :=
  match node.member "planets" with
  | some l => l.elements
  | none => []

/-- The ship records of a species that `exportData` exports: those whose name is not
"Unused", in store order. -/
def exportedShips (species : species_data) : List ship_data :=
  species.ships.filter fun ship => ship.name != "Unused"

/-- Whether the system that a colony of the export graph was resolved to has the
coordinates `(x, y, z)`; false for a colony without a system. -/
def global_colony.isAt (c : global_colony) (x y z : Int) : Bool :=
  match c.location.system with
  | some system => system.x == x && system.y == y && system.z == z
  | none => false

/-- Whether a colony record resolves to a system with the coordinates `(x, y, z)`: some
star of the store has the coordinates of the system of the record, and these
coordinates are `(x, y, z)`. -/
def nampla_data.resolvesAt (nampla : nampla_data) (stars : List star_data) (x y z : Int) :
    Bool :=
  (stars.any fun star =>
    nampla.system.x == star.x && nampla.system.y == star.y && nampla.system.z == star.z) &&
  (nampla.system.x == x && nampla.system.y == y && nampla.system.z == z)

/-! ## An engine and a small store for the examples -/

/-- An instance of the engine constants: room for 100 species and 38 item classes, the
six technologies, a few gas and item codes, the ship status codes, and a display name
that is the stored name of the ship. -/
def sampleEngine : Engine :=
  { MAX_SPECIES := 100
    MAX_ITEMS := 38
    item_abbr := fun k =>
      match k with
      | 0 => "RM"
      | 1 => "PD"
      | 2 => "SU"
      | 3 => "DR"
      | 4 => "CU"
      | 5 => "IU"
      | 6 => "AU"
      | _ => "FS"
    gas_string := fun g =>
      match g with
      | 1 => "H2"
      | 2 => "CH4"
      | 3 => "HE"
      | 4 => "NH3"
      | 5 => "N2"
      | 6 => "CO2"
      | 7 => "O2"
      | _ => "   "
    tech_abbr := fun l =>
      match l with
      | 0 => "MI"
      | 1 => "MA"
      | 2 => "ML"
      | 3 => "GV"
      | 4 => "LS"
      | _ => "BI"
    tech_name := fun l =>
      match l with
      | 0 => "Mining"
      | 1 => "Manufacturing"
      | 2 => "Military"
      | 3 => "Gravitics"
      | 4 => "Life Support"
      | _ => "Biology"
    UNDER_CONSTRUCTION := 0
    ON_SURFACE := 1
    IN_ORBIT := 2
    IN_DEEP_SPACE := 3
    JUMPED_IN_COMBAT := 4
    FORCED_JUMP := 5
    BA := 2
    shipDisplayName := fun ship => ship.name }

/-- A planet record at the given orbit, every other field zero. -/
def samplePlanet (id orbit : Int) : planet_data :=
  { id := id, orbit := orbit, diameter := 0, econ_efficiency := 0, gas := fun _ => 0,
    gas_percent := fun _ => 0, gravity := 0, special := 0, md_increase := 0, message := 0,
    mining_difficulty := 0, pressure_class := 0, temperature_class := 0 }

/-- The second planet of the star of the examples: at orbit 2, with special code 3. -/
def sampleHellPlanet : planet_data :=
  { samplePlanet 2 2 with special := 3 }

/-- The star of the examples: id 7 at (10, 20, 30), planets at orbits 1 and 2, visited by
species 1 and 2 (bits 0 and 1 of word 0; bit 4, past the roster, is set as well). -/
def sampleStar : star_data :=
  { id := 7, x := 10, y := 20, z := 30, color := 0, home_system := 1, size := 0, type := 0,
    message := 0, visited_by := fun w => if w = 0 then 19 else 0, wormholeExit := none,
    planets := [samplePlanet 1 1, sampleHellPlanet] }

/-- A colony record on the given planet of the given star, every other field zero. -/
def sampleNampla (name : String) (system : star_data) (planet : planet_data) : nampla_data :=
  { id := 0, name := name, hidden := 0, hiding_ := 0, ma_base := 0, message := 0, mi_base := 0,
    pop_units := 0, siege_eff := 0, special := 0, use_on_ambush := 0, system := system,
    planet := planet, item_quantity := fun _ => 0, auto_AUs := 0, AUs_needed := 0,
    AUs_to_install := 0, auto_IUs := 0, IUs_needed := 0, IUs_to_install := 0 }

/-- A ship record in deep space at (10, 20, 30), orbit 0, every other field zero. -/
def sampleShip (name : String) : ship_data :=
  { name := name, age := 0, arrived_via_wormhole := 0, item_quantity := fun _ => 0,
    just_jumped := 0, loading_point := 0, unloading_point := 0, x := 10, y := 20, z := 30,
    pn := 0, status := 3, dest_x := 0, dest_y := 0, dest_z := 0, remaining_cost := 0,
    special := 0, ship_class := 0, tonnage := 0 }

/-- A species record without colonies, ships or relations, every other field zero. -/
def sampleSpeciesRecord (id : Int) (name : String) : species_data :=
  { id := id, name := name, govt_name := "", govt_type := "", auto_orders := 0,
    econ_units := 0, hp_original_base := 0, init_tech_level := fun _ => 0,
    tech_level := fun _ => 0, tech_knowledge := fun _ => 0, tech_eps := fun _ => 0,
    required_gas := 7, required_gas_max := 0, required_gas_min := 0,
    neutral_gas := fun _ => 0, poison_gas := fun _ => 0, contact := fun _ => 0,
    ally := fun _ => 0, enemy := fun _ => 0, namplas := [], ships := [] }

/-- The colony record of the first species of the examples: "Homeworld" at orbit 1 of the
star, holding 5 units of item 0 and 7 units of item 3. -/
def sampleHomeworld : nampla_data :=
  { sampleNampla "Homeworld" sampleStar (samplePlanet 1 1) with
    item_quantity := fun k => if k = 0 then 5 else if k = 3 then 7 else 0 }

/-- The ship record of the first species of the examples: in deep space at the star, with
loading point 9999. -/
def sampleScout : ship_data :=
  { sampleShip "Scout" with loading_point := 9999 }

/-- The first species of the examples: the colony `sampleHomeworld` and the ship
`sampleScout`.  Its contact word has bits 0 (itself), 1 and 4 set, its ally word
bit 1. -/
def sampleSpecies1 : species_data :=
  { sampleSpeciesRecord 1 "Alpha" with
    contact := fun w => if w = 0 then 19 else 0
    ally := fun w => if w = 0 then 2 else 0
    namplas := [sampleHomeworld]
    ships := [sampleScout] }

/-- The ship record of the second species of the examples: in deep space at the star. -/
def sampleDrifter : ship_data := sampleShip "Drifter"

/-- The second species of the examples: no colony, the ship `sampleDrifter`, and bit 0 of
its enemy word set. -/
def sampleSpecies2 : species_data :=
  { sampleSpeciesRecord 2 "Beta" with
    enemy := fun w => if w = 0 then 1 else 0
    ships := [sampleDrifter] }

/-- The store of the examples: turn 3, one star, two species. -/
def sampleStore : Store :=
  { galaxy := { turn_number := 3, radius := 20, d_num_species := 2 }
    star_base := [sampleStar]
    spec_data := [sampleSpecies1, sampleSpecies2] }

/-- The skill nodes of a species of the examples: every level and experience is zero. -/
def sampleSkillNodes : List json_value_t :=
  ["MI", "MA", "ML", "GV", "LS", "BI"].map fun code =>
    json_value_t.map
      [("code", json_string code), ("current_level", json_number 0), ("xps", json_number 0)]

/-- The planet node expected for `samplePlanet id orbit`. -/
def samplePlanetNode (id orbit : Int) : json_value_t :=
  json_value_t.map
    [("id", json_number id), ("orbit", json_number orbit), ("diameter", json_number 0),
     ("econ_efficiency", json_number 0), ("gases", json_value_t.list []),
     ("gravity", json_number 0), ("md_increase", json_number 0),
     ("pressure_class", json_number 0), ("temperature_class", json_number 0)]

/-- The planet node expected for `sampleHellPlanet`. -/
def sampleHellPlanetNode : json_value_t :=
  json_value_t.map
    [("id", json_number 2), ("orbit", json_number 2), ("diameter", json_number 0),
     ("econ_efficiency", json_number 0), ("gases", json_value_t.list []),
     ("gravity", json_number 0), ("md_increase", json_number 0),
     ("pressure_class", json_number 0),
     ("radioactive_hell_hole", json_value_t.boolean true),
     ("temperature_class", json_number 0)]

/-- The system node expected for `sampleStar`. -/
def sampleSystemNode : json_value_t :=
  json_value_t.map
    [("id", json_number 7),
     ("coords", json_value_t.map [("x", json_number 10), ("y", json_number 20),
       ("z", json_number 30)]),
     ("type", json_number 0), ("color", json_number 0), ("size", json_number 0),
     ("home_system", json_value_t.boolean true), ("message", json_number 7),
     ("visited_by", json_value_t.list [json_number 1, json_number 2]),
     ("planets", json_value_t.list [samplePlanetNode 1 1, sampleHellPlanetNode])]

/-- The colony node expected for the colony "Homeworld" of the first species. -/
def sampleColonyNode : json_value_t :=
  json_value_t.map
    [("name", json_string "Homeworld"), ("system", json_number 7), ("orbit", json_number 1),
     ("homeworld", json_value_t.boolean true),
     ("inventory", json_value_t.map [("RM", json_number 5), ("DR", json_number 7)]),
     ("ma_base", json_number 0), ("mi_base", json_number 0)]

/-- The ship node expected for the ship of the first species. -/
def sampleShipNode1 : json_value_t :=
  json_value_t.map
    [("name", json_string "Scout"),
     ("location", json_value_t.map
       [("colony", json_string "Homeworld"), ("deep_space", json_value_t.boolean true)]),
     ("loading_point", json_string "Homeworld")]

/-- The ship node expected for the ship of the second species. -/
def sampleShipNode2 : json_value_t :=
  json_value_t.map
    [("name", json_string "Drifter"),
     ("location", json_value_t.map
       [("x", json_number 10), ("y", json_number 20), ("z", json_number 30),
        ("deep_space", json_value_t.boolean true)])]

/-- The species node expected for the first species of the examples. -/
def sampleSpeciesNode1 : json_value_t :=
  json_value_t.map
    [("sp", json_number 1), ("name", json_string "Alpha"), ("govt_name", json_string ""),
     ("govt_type", json_string ""), ("econ_units", json_number 0),
     ("skills", json_value_t.list sampleSkillNodes),
     ("required_gases", json_value_t.list [json_value_t.map [("code", json_string "O2")]]),
     ("neutral_gases", json_value_t.list []), ("poison_gases", json_value_t.list []),
     ("contacts", json_value_t.list [json_number 2]),
     ("allies", json_value_t.list [json_number 2]),
     ("colonies", json_value_t.list [sampleColonyNode]),
     ("ships", json_value_t.list [sampleShipNode1])]

/-- The species node expected for the second species of the examples. -/
def sampleSpeciesNode2 : json_value_t :=
  json_value_t.map
    [("sp", json_number 2), ("name", json_string "Beta"), ("govt_name", json_string ""),
     ("govt_type", json_string ""), ("econ_units", json_number 0),
     ("skills", json_value_t.list sampleSkillNodes),
     ("required_gases", json_value_t.list [json_value_t.map [("code", json_string "O2")]]),
     ("neutral_gases", json_value_t.list []), ("poison_gases", json_value_t.list []),
     ("enemies", json_value_t.list [json_number 1]),
     ("colonies", json_value_t.list []),
     ("ships", json_value_t.list [sampleShipNode2])]

/-- The document expected for the store of the examples. -/
def sampleDocument : json_value_t :=
  json_value_t.map
    [("turn", json_number 3),
     ("cluster", json_value_t.map
       [("radius", json_number 20), ("d_num_species", json_number 2),
        ("num_species", json_number 2), ("systems", json_value_t.list [sampleSystemNode])]),
     ("species", json_value_t.list [sampleSpeciesNode1, sampleSpeciesNode2])]

/-- A ship record of the second store of the examples: in deep space at (10, 20, 30),
with loading and unloading point 9999. -/
def namelessShip : ship_data :=
  { sampleShip "Probe" with loading_point := 9999, unloading_point := 9999 }

/-- A species whose single colony, at orbit 1 of the star of the examples, has an empty
name, and that owns `namelessShip`. -/
def namelessSpecies : species_data :=
  { sampleSpeciesRecord 1 "Gamma" with
    namplas := [sampleNampla "" sampleStar (samplePlanet 1 1)]
    ships := [namelessShip] }

/-- The second store of the examples: the star of the examples and `namelessSpecies`. -/
def namelessStore : Store :=
  { galaxy := { turn_number := 3, radius := 20, d_num_species := 1 }
    star_base := [sampleStar]
    spec_data := [namelessSpecies] }

/-- The ship node expected for `namelessShip`. -/
def namelessShipNode : json_value_t :=
  json_value_t.map
    [("name", json_string "Probe"),
     ("location", json_value_t.map
       [("x", json_number 10), ("y", json_number 20), ("z", json_number 30),
        ("deep_space", json_value_t.boolean true)])]

/-- The species node expected for `namelessSpecies`. -/
def namelessSpeciesNode : json_value_t :=
  json_value_t.map
    [("sp", json_number 1), ("name", json_string "Gamma"), ("govt_name", json_string ""),
     ("govt_type", json_string ""), ("econ_units", json_number 0),
     ("skills", json_value_t.list sampleSkillNodes),
     ("required_gases", json_value_t.list [json_value_t.map [("code", json_string "O2")]]),
     ("neutral_gases", json_value_t.list []), ("poison_gases", json_value_t.list []),
     ("colonies", json_value_t.list
       [json_value_t.map
         [("name", json_string ""), ("system", json_number 7), ("orbit", json_number 1),
          ("homeworld", json_value_t.boolean true), ("ma_base", json_number 0),
          ("mi_base", json_number 0)]]),
     ("ships", json_value_t.list [namelessShipNode])]

/-- The system node expected for the star of the examples in a store with one
species. -/
def namelessSystemNode : json_value_t :=
  json_value_t.map
    [("id", json_number 7),
     ("coords", json_value_t.map [("x", json_number 10), ("y", json_number 20),
       ("z", json_number 30)]),
     ("type", json_number 0), ("color", json_number 0), ("size", json_number 0),
     ("home_system", json_value_t.boolean true), ("message", json_number 7),
     ("visited_by", json_value_t.list [json_number 1]),
     ("planets", json_value_t.list [samplePlanetNode 1 1, sampleHellPlanetNode])]

/-- The document expected for the second store of the examples. -/
def namelessDocument : json_value_t :=
  json_value_t.map
    [("turn", json_number 3),
     ("cluster", json_value_t.map
       [("radius", json_number 20), ("d_num_species", json_number 1),
        ("num_species", json_number 1), ("systems", json_value_t.list [namelessSystemNode])]),
     ("species", json_value_t.list [namelessSpeciesNode])]

/-! ## Vocabulary of the properties, continued -/

mutual
/-- Whether every node of a tree (the root, the values of the members of its maps and
the elements of its lists, at any depth) satisfies `P`. -/
def json_value_t.forallNodes (P : json_value_t → Bool) : json_value_t → Bool
  | json_value_t.map ms => P (json_value_t.map ms) && forallNodesIn P ms
  | json_value_t.list xs => P (json_value_t.list xs) && forallNodesAmong P xs
  | json_value_t.number n => P (json_value_t.number n)
  | json_value_t.string x => P (json_value_t.string x)
  | json_value_t.boolean b => P (json_value_t.boolean b)
/-- The values of a member list, and the nodes below them, satisfy `P`. -/
def forallNodesIn (P : json_value_t → Bool) : List (String × json_value_t) → Bool
  | [] => true
  | (_, v) :: rest => v.forallNodes P && forallNodesIn P rest
/-- The trees of a list satisfy `P` at every node. -/
def forallNodesAmong (P : json_value_t → Bool) : List json_value_t → Bool
  | [] => true
  | x :: xs => x.forallNodes P && forallNodesAmong P xs
end

/-- The presence rule for flags as a property of one node: it is not the boolean
false. -/
def notFalse : json_value_t → Bool
  | json_value_t.boolean b => b
  | _ => true

/-- The precondition of `json_add` as a property of one node: the keys of a map node are
pairwise distinct. -/
def distinctKeys (v : json_value_t) : Bool := decide v.keys.Nodup

/-- The member that a guarded `if (c) json_add(j, k, json_boolean(1));` leaves under `k`:
the boolean true when the guard holds, no member otherwise. -/
def flagMember (c : Bool) : Option json_value_t :=
  if c then some (json_value_t.boolean true) else none

/-! ## Further stores for the examples -/

/-- A star at (1, 2, 3) without planets, never visited. -/
def bareStar : star_data :=
  { id := 9, x := 1, y := 2, z := 3, color := 0, home_system := 0, size := 0, type := 0,
    message := 0, visited_by := fun _ => 0, wormholeExit := none, planets := [] }

/-- A species without colonies, ships, neutral or poison gases. -/
def bareSpecies : species_data := sampleSpeciesRecord 1 "Delta"

/-- The third store of the examples: a star without planets and a species without
colonies and ships. -/
def bareStore : Store :=
  { galaxy := { turn_number := 1, radius := 5, d_num_species := 1 }
    star_base := [bareStar]
    spec_data := [bareSpecies] }

/-- A ship record in orbit 3 of the star of the examples. -/
def orbitShip : ship_data :=
  { sampleShip "Orbiter" with pn := 3, status := 2 }

/-- A species without colonies that owns `orbitShip`. -/
def orbitSpecies : species_data :=
  { sampleSpeciesRecord 1 "Epsilon" with ships := [orbitShip] }

/-- The fourth store of the examples: the star of the examples and `orbitSpecies`. -/
def orbitStore : Store :=
  { galaxy := { turn_number := 1, radius := 20, d_num_species := 1 }
    star_base := [sampleStar]
    spec_data := [orbitSpecies] }

/-- A colony record whose system, at (1, 2, 3), is not a star of the store it is used
in. -/
def strandedNampla : nampla_data :=
  sampleNampla "Outpost" bareStar (samplePlanet 1 1)

/-- A species whose single colony is `strandedNampla` and that owns one ship, in deep
space at (10, 20, 30). -/
def strandedSpecies : species_data :=
  { sampleSpeciesRecord 1 "Zeta" with
    namplas := [strandedNampla]
    ships := [sampleDrifter] }

/-- The fifth store of the examples: the star of the examples, at (10, 20, 30), and
`strandedSpecies`, whose colony matches no star. -/
def strandedStore : Store :=
  { galaxy := { turn_number := 1, radius := 20, d_num_species := 1 }
    star_base := [sampleStar]
    spec_data := [strandedSpecies] }

/-- The store `strandedStore` without the ship of its species. -/
def strandedStoreNoShips : Store :=
  { strandedStore with spec_data := [{ strandedSpecies with ships := [] }] }

/-- The system node expected for `bareStar`. -/
def bareSystemNode : json_value_t :=
  json_value_t.map
    [("id", json_number 9),
     ("coords", json_value_t.map [("x", json_number 1), ("y", json_number 2),
       ("z", json_number 3)]),
     ("type", json_number 0), ("color", json_number 0), ("size", json_number 0),
     ("message", json_number 9), ("planets", json_value_t.list [])]

/-- The species node expected for `bareSpecies`. -/
def bareSpeciesNode : json_value_t :=
  json_value_t.map
    [("sp", json_number 1), ("name", json_string "Delta"), ("govt_name", json_string ""),
     ("govt_type", json_string ""), ("econ_units", json_number 0),
     ("skills", json_value_t.list sampleSkillNodes),
     ("required_gases", json_value_t.list [json_value_t.map [("code", json_string "O2")]]),
     ("neutral_gases", json_value_t.list []), ("poison_gases", json_value_t.list []),
     ("colonies", json_value_t.list []), ("ships", json_value_t.list [])]

/-- The document expected for the third store of the examples. -/
def bareDocument : json_value_t :=
  json_value_t.map
    [("turn", json_number 1),
     ("cluster", json_value_t.map
       [("radius", json_number 5), ("d_num_species", json_number 1),
        ("num_species", json_number 1), ("systems", json_value_t.list [bareSystemNode])]),
     ("species", json_value_t.list [bareSpeciesNode])]

/-- The location node expected for `orbitShip`: the key `z` occurs twice. -/
def orbitLocationNode : json_value_t :=
  json_value_t.map
    [("x", json_number 10), ("y", json_number 20), ("z", json_number 30),
     ("z", json_number 3), ("in_orbit", json_value_t.boolean true)]

/-- The ship node expected for `orbitShip`. -/
def orbitShipNode : json_value_t :=
  json_value_t.map [("name", json_string "Orbiter"), ("location", orbitLocationNode)]

/-- The species node expected for `orbitSpecies`. -/
def orbitSpeciesNode : json_value_t :=
  json_value_t.map
    [("sp", json_number 1), ("name", json_string "Epsilon"), ("govt_name", json_string ""),
     ("govt_type", json_string ""), ("econ_units", json_number 0),
     ("skills", json_value_t.list sampleSkillNodes),
     ("required_gases", json_value_t.list [json_value_t.map [("code", json_string "O2")]]),
     ("neutral_gases", json_value_t.list []), ("poison_gases", json_value_t.list []),
     ("colonies", json_value_t.list []), ("ships", json_value_t.list [orbitShipNode])]

/-- The document expected for the fourth store of the examples. -/
def orbitDocument : json_value_t :=
  json_value_t.map
    [("turn", json_number 1),
     ("cluster", json_value_t.map
       [("radius", json_number 20), ("d_num_species", json_number 1),
        ("num_species", json_number 1), ("systems", json_value_t.list [namelessSystemNode])]),
     ("species", json_value_t.list [orbitSpeciesNode])]

/-! ## `set.c`: the command that edits a species record -/

/-- What `set.c` takes from outside `src/`: `atoi` of the C library and the six
technology codes of the engine headers; they are parameters of the embedding. -/
structure SetEnv where
  atoi : String → Int
  MI : Nat
  MA : Nat
  ML : Nat
  GV : Nat
  LS : Nat
  BI : Nat

/-- The globals that `setSpecies` reads and writes, as they are once `get_galaxy_data`
and `get_species_data` have loaded them: `galaxy.num_species`, the roster `spec_data`,
the arrays `data_in_memory` and `data_modified`, and the number of calls of
`save_species_data` made so far. -/
structure set_store where
  num_species : Int
  spec_data : Nat → species_data
  data_in_memory : Nat → Int
  data_modified : Nat → Int
  saves : Nat

/-- The record `spec_data[idx]` replaced by `f` of itself (a store through `sp`). -/
def set_store.update (st : set_store) (idx : Nat) (f : species_data → species_data) :
    set_store :=
  { st with spec_data := fun j => if j = idx then f (st.spec_data j) else st.spec_data j }

/-- The store `data_modified[spidx] = TRUE`. -/
def set_store.markModified (st : set_store) (spidx : Int) : set_store :=
  { st with data_modified := fun j => if j = spidx.toNat then 1 else st.data_modified j }

/-- Lines 172-178 of `setSpecies`: after the loop, `save_species_data` is called unless
`sp` is NULL or `data_modified[spidx]` is FALSE; the function returns 0. -/
def setSpeciesFinish (sp : Option Nat) (spidx : Int) (st : set_store) : Int × set_store :=
  match sp with
  | none => (0, st)
  | some _ =>
    if st.data_modified spidx.toNat = 0 then (0, st)
    else (0, { st with saves := st.saves + 1 })

/-- The function `strlen` of the C library on an argument of the command line.  C holds
the argument as bytes, and a string of the embedding stands for the bytes of its UTF-8
encoding, so the result is the number of these bytes (for the arguments made of ASCII
characters only, the number of characters). -/
def strlen (s : String) : Nat := s.utf8ByteSize

/-- Lines 105-118: the technology code that a technology word selects. -/
def techCode (ext : SetEnv) (tech : String) : Nat :=
  if tech = "bi" then ext.BI
  else if tech = "gv" then ext.GV
  else if tech = "ls" then ext.LS
  else if tech = "ma" then ext.MA
  else if tech = "mi" then ext.MI
  else ext.ML

/-- Lines 72-171 of `setSpecies`: the loop over `argv[i]`, `i = 1 .. argc - 1`, given the
arguments not yet read and the locals `spno`, `spidx` and `sp` (the index of the record
`sp` points to, `none` for NULL).  The result is the value returned and the globals
afterwards; it is `none` when a field is stored through `sp` while `sp` is NULL. -/
def setSpeciesLoop (ext : SetEnv) :
    List String → Int → Int → Option Nat → set_store → Option (Int × set_store)
  | [], _, spidx, sp, st => some (setSpeciesFinish sp spidx st)
  | arg :: rest, spno, spidx, sp, st =>
    if arg = "--help" || arg = "-h" || arg = "-?" then some (2, st)
    else if spno = 0 then
      if ext.atoi arg < 1 || ext.atoi arg > st.num_species then some (2, st)
      else if st.data_in_memory (ext.atoi arg).toNat = 0 then some (2, st)
      else
        setSpeciesLoop ext rest (ext.atoi arg) (ext.atoi arg - 1)
          (some (ext.atoi arg - 1).toNat) st
    else if arg = "bi" || arg = "gv" || arg = "ls" || arg = "ma" || arg = "mi" ||
        arg = "ml" then
      match rest with
      | [] => some (2, st)
      | v :: rest' =>
        if strlen v = 0 then some (2, st)
        else if ext.atoi v < 0 then some (2, st)
        else
          match sp with
          | none => none
          | some idx =>
            setSpeciesLoop ext rest' spno spidx sp
              ((st.update idx fun r =>
                  { r with tech_level := fun l =>
                      if l = techCode ext arg then ext.atoi v else r.tech_level l }).markModified
                spidx)
    else if arg = "eu" then
      match rest with
      | [] => some (2, st)
      | v :: rest' =>
        if strlen v = 0 then some (2, st)
        else if ext.atoi v < 0 then some (2, st)
        else
          match sp with
          | none => none
          | some idx =>
            setSpeciesLoop ext rest' spno spidx sp
              ((st.update idx fun r => { r with econ_units := ext.atoi v }).markModified spidx)
    else if arg = "govt-type" then
      match rest with
      | [] => some (2, st)
      | v :: rest' =>
        if strlen v = 0 then some (2, st)
        else if !(decide (strlen v < 32)) then some (2, st)
        else
          match sp with
          | none => none
          | some idx =>
            setSpeciesLoop ext rest' spno spidx sp
              ((st.update idx fun r => { r with govt_type := v }).markModified spidx)
    else if arg = "hp" then
      match rest with
      | [] => some (2, st)
      | v :: rest' =>
        if strlen v = 0 then some (2, st)
        else if ext.atoi v < 0 then some (2, st)
        else
          match sp with
          | none => none
          | some idx =>
            setSpeciesLoop ext rest' spno spidx sp
              ((st.update idx fun r => { r with hp_original_base := ext.atoi v }).markModified
                spidx)
    else some (2, st)

/-- Lines 64-179: `setSpecies(argc, argv)` on the globals `st`; `argv[0]` is the word
"species" and is not read. -/
def setSpecies (ext : SetEnv) (argv : List String) (st : set_store) :
    Option (Int × set_store) :=
  setSpeciesLoop ext (argv.drop 1) 0 (-1) none st

/-- Lines 58-61: `setPlanet` does nothing and returns 0. -/
def setPlanet (_argv : List String) : Int := 0

/-- Lines 182-185: `setStar` does nothing and returns 0. -/
def setStar (_argv : List String) : Int := 0

/-- Lines 37-55: `setCommand(argc, argv)` on the globals as `get_galaxy_data` loaded
them; the first iteration of its loop returns, so only `argv[1]` selects the branch. -/
def setCommand (ext : SetEnv) (argv : List String) (st : set_store) :
    Option (Int × set_store) :=
  match argv.drop 1 with
  | [] => some (0, st)
  | arg :: rest =>
    if arg = "planet" then some (setPlanet (arg :: rest), st)
    else if arg = "species" then setSpecies ext (arg :: rest) st
    else if arg = "star" then some (setStar (arg :: rest), st)
    else some (2, st)

/-- An instance of the parameters of `set.c`: the technology codes 0 to 5 and an `atoi`
that reads the decimal numerals "1" and "2" (and gives 0 for every other string). -/
def sampleSetEnv : SetEnv :=
  { atoi := fun s => if s = "1" then 1 else if s = "2" then 2 else 0
    MI := 0, MA := 1, ML := 2, GV := 3, LS := 4, BI := 5 }

/-- The globals of the examples for `set.c`: two species, both loaded and not
modified, no save so far. -/
def sampleSetStore : set_store :=
  { num_species := 2
    spec_data := fun j => if j = 0 then sampleSpecies1 else sampleSpecies2
    data_in_memory := fun _ => 1
    data_modified := fun _ => 0
    saves := 0 }

/-! ## Further values for the examples -/

/-- A location without colony name, in orbit 3 at (10, 20, 30): the location that
`exportData` builds for `orbitShip`. -/
def orbitLocation : global_location :=
  { x := 10, y := 20, z := 30, orbit := 3, colony := "", deep_space := 0, in_orbit := 1,
    on_surface := 0, system := none, planet := none }

/-- The engine of the examples restricted to its first seven items, whose codes are
pairwise distinct. -/
def compactEngine : Engine := { sampleEngine with MAX_ITEMS := 7 }

/-- The colony node expected for `strandedNampla` when its species owns no ship. -/
def strandedColonyNode : json_value_t :=
  json_value_t.map
    [("name", json_string "Outpost"), ("homeworld", json_value_t.boolean true),
     ("ma_base", json_number 0), ("mi_base", json_number 0)]

/-! ## Vocabulary of the resolutions -/

/-- The first star, in store order, at the coordinates `(x, y, z)`.  The systems of the
cluster are built from the stars one by one in store order, so this is the first system
in cluster order at these coordinates. -/
def firstStarAt (stars : List star_data) (x y z : Int) : Option star_data :=
  stars.find? fun star => x == star.x && y == star.y && z == star.z

/-- The first planet of a planet sequence at the orbit `orbit`. -/
def firstPlanetAt (planets : List planet_data) (orbit : Int) : Option planet_data :=
  planets.find? fun planet => orbit == planet.orbit

/-- The colony name that a location node shows: the string under `colony`, the empty
string when the node has no such member. -/
def locationColony (loc : json_value_t) : String :=
  match loc.member "colony" with
  | some (json_value_t.string name) => name
  | _ => ""

/-- A second colony record of the star of the examples, on its second planet. -/
def sampleMoonbase : nampla_data := sampleNampla "Moonbase" sampleStar sampleHellPlanet

/-- A species with two colonies in the system of the examples, `sampleHomeworld` on the
planet at orbit 1 and `sampleMoonbase` on the planet at orbit 2, and two ships there:
`sampleDrifter` in deep space (orbit 0) and a ship in orbit 2. -/
def twinSpecies : species_data :=
  { sampleSpeciesRecord 1 "Eta" with
    namplas := [sampleHomeworld, sampleMoonbase]
    ships := [sampleDrifter, { sampleShip "Lander" with pn := 2, status := 2 }] }

/-- The sixth store of the examples: the star of the examples and `twinSpecies`. -/
def twinStore : Store :=
  { galaxy := { turn_number := 1, radius := 20, d_num_species := 1 }
    star_base := [sampleStar]
    spec_data := [twinSpecies] }

/-! ## A store for the gas lists of the examples -/

/-- A planet whose gas slots are sparse: slot 0 holds gas 7 with a stored percentage of
zero, slot 1 is empty, slot 2 holds gas 5 at 30 percent, slot 3 is empty. -/
def thinPlanet : planet_data :=
  { samplePlanet 4 1 with
    gas := fun g => if g = 0 then 7 else if g = 2 then 5 else 0
    gas_percent := fun g => if g = 2 then 30 else 0 }

/-- A star at (4, 5, 6) whose only planet is `thinPlanet`. -/
def thinStar : star_data :=
  { bareStar with id := 4, x := 4, y := 5, z := 6, planets := [thinPlanet] }

/-- The seventh store of the examples: the star `thinStar` and an empty roster. -/
def thinStore : Store :=
  { galaxy := { turn_number := 1, radius := 5, d_num_species := 0 }
    star_base := [thinStar]
    spec_data := [] }

/-- A species whose neutral gas slots are 1, 2, 0, 3, 0, 0 (a gap at slot 2) and whose
poison gas slots are all empty. -/
def gapSpecies : species_data :=
  { sampleSpeciesRecord 1 "Theta" with
    neutral_gas := fun g => if g = 0 then 1 else if g = 1 then 2 else if g = 3 then 3 else 0 }

/-- The eighth store of the examples: the star of the examples and `gapSpecies`. -/
def gapStore : Store :=
  { galaxy := { turn_number := 1, radius := 20, d_num_species := 1 }
    star_base := [sampleStar]
    spec_data := [gapSpecies] }

/-- A colony record of the star of the examples with 3 units needed for "AU" and
automatic installation switched on for "IU". -/
def builderNampla : nampla_data :=
  { sampleNampla "Foundry" sampleStar (samplePlanet 1 1) with AUs_needed := 3, auto_IUs := 1 }

/-- A species whose single colony is `builderNampla`. -/
def builderSpecies : species_data :=
  { sampleSpeciesRecord 1 "Iota" with namplas := [builderNampla] }

/-- The ninth store of the examples: the star of the examples and `builderSpecies`. -/
def builderStore : Store :=
  { galaxy := { turn_number := 1, radius := 20, d_num_species := 1 }
    star_base := [sampleStar]
    spec_data := [builderSpecies] }

/-- A ship record with the destination (7, 0, 9), in deep space at the star of the
examples. -/
def boundShip : ship_data := { sampleShip "Bound" with dest_x := 7, dest_y := 0, dest_z := 9 }

/-- A ship record whose stored `dest_x` is zero while `dest_y` and `dest_z` are not. -/
def driftShip : ship_data := { sampleShip "Adrift" with dest_x := 0, dest_y := 8, dest_z := 9 }

/-- A species without colonies that owns `boundShip`, a record named "Unused", and
`driftShip`, in this order. -/
def fleetSpecies : species_data :=
  { sampleSpeciesRecord 1 "Kappa" with
    ships := [boundShip, sampleShip "Unused", driftShip] }

/-- The tenth store of the examples: the star of the examples and `fleetSpecies`. -/
def fleetStore : Store :=
  { galaxy := { turn_number := 1, radius := 20, d_num_species := 1 }
    star_base := [sampleStar]
    spec_data := [fleetSpecies] }

/-- The globals of the examples as a load of two species leaves them: the slots 0 and 1
of `data_in_memory`, those of species 1 and 2, are set and every other slot is clear;
no species is marked as modified. -/
def loadedSetStore : set_store :=
  { sampleSetStore with data_in_memory := fun j => if j < 2 then 1 else 0 }

/-! ## Lemmas on the document tree -/

theorem lookupKey_add (k k' : String) (v : json_value_t) (rest : List (String × json_value_t)) :
    lookupKey k (json_add k' v ++ rest) = if k' = k then some v else lookupKey k rest := by
  simp [json_add, lookupKey]

theorem lookupKey_add_last (k k' : String) (v : json_value_t) :
    lookupKey k (json_add k' v) = if k' = k then some v else none := by
  simp [json_add, lookupKey]

theorem lookupKey_add_if (k k' : String) (c : Bool) (v : json_value_t)
    (rest : List (String × json_value_t)) :
    lookupKey k (json_add_if c k' v ++ rest)
      = if c = true ∧ k' = k then some v else lookupKey k rest := by
  cases c <;> simp [json_add_if, json_add, lookupKey]

theorem lookupKey_add_if_last (k k' : String) (c : Bool) (v : json_value_t) :
    lookupKey k (json_add_if c k' v) = if c = true ∧ k' = k then some v else none := by
  cases c <;> simp [json_add_if, json_add, lookupKey]

theorem lookupKey_add_opt (k k' : String) (o : Option json_value_t)
    (rest : List (String × json_value_t)) :
    lookupKey k (json_add_opt k' o ++ rest)
      = if o.isSome = true ∧ k' = k then o else lookupKey k rest := by
  cases o <;> simp [json_add_opt, json_add, lookupKey]

theorem lookupKey_append (k : String) (a b : List (String × json_value_t)) :
    lookupKey k (a ++ b) = match lookupKey k a with
      | some v => some v
      | none => lookupKey k b := by
  induction a with
  | nil => simp [lookupKey]
  | cons p a ih =>
    obtain ⟨k', v⟩ := p
    by_cases h : k' = k <;> simp [lookupKey, h, ih]

theorem appendCreating_fold (p : Nat → Bool) (l : List Nat) (xs : List json_value_t) :
    l.foldl (fun v sp => if p sp then appendCreating v (json_number (sp : Int)) else v)
        (some (json_value_t.list xs))
      = some (json_value_t.list
          (xs ++ (l.filter p).map fun (sp : Nat) => json_number (sp : Int))) := by
  induction l generalizing xs with
  | nil => simp
  | cons a l ih =>
    rw [List.foldl_cons]
    by_cases h : p a
    · rw [if_pos h]
      have e : appendCreating (some (json_value_t.list xs)) (json_number (a : Int))
          = some (json_value_t.list (xs ++ [json_number (a : Int)])) := rfl
      rw [e, ih, List.filter_cons_of_pos h]
      simp
    · rw [if_neg h, ih, List.filter_cons_of_neg h]

theorem appendCreating_fold_none (p : Nat → Bool) (l : List Nat) :
    l.foldl (fun v sp => if p sp then appendCreating v (json_number (sp : Int)) else v) none
      = if l.filter p = [] then none
        else some (json_value_t.list
          ((l.filter p).map fun (sp : Nat) => json_number (sp : Int))) := by
  induction l with
  | nil => simp
  | cons a l ih =>
    rw [List.foldl_cons]
    by_cases h : p a
    · rw [if_pos h]
      have e : appendCreating none (json_number (a : Int))
          = some (json_value_t.list ([] ++ [json_number (a : Int)])) := rfl
      rw [e, appendCreating_fold, List.filter_cons_of_pos h]
      simp
    · rw [if_neg h, ih, List.filter_cons_of_neg h]

/-- The optional list left by the marshalling loop is NULL when the decoded sequence is
empty and is the list of the decoded ids otherwise. -/
theorem marshalFlags_eq (env : Engine) (flags : Nat → Int) :
    marshalFlags env flags
      = if decodedIds env flags = [] then none else some (idList (decodedIds env flags)) := by
  unfold marshalFlags decodedIds idList
  exact appendCreating_fold_none (fun sp => flags sp != 0) _

theorem decodedIds_pairwise (env : Engine) (flags : Nat → Int) :
    (decodedIds env flags).Pairwise (· < ·) :=
  List.Pairwise.filter _ (List.pairwise_lt_range _)

theorem mem_decodedIds (env : Engine) (flags : Nat → Int) (k : Nat) :
    k ∈ decodedIds env flags ↔ k ≤ env.MAX_SPECIES ∧ flags k ≠ 0 := by
  simp [decodedIds, Nat.lt_succ_iff]

/-! ## Lemmas on the loops of `exportData` -/

theorem land_two_pow_ne_zero (x i n : Nat) (hi : i < n) :
    ((x % 2 ^ n &&& 2 ^ i) != 0) = x.testBit i := by
  have ht : (x % 2 ^ n).testBit i = x.testBit i := by
    rw [Nat.testBit_mod_two_pow]
    simp [hi]
  cases hb : x.testBit i
  · have hz : x % 2 ^ n &&& 2 ^ i = 0 := by
      apply Nat.eq_of_testBit_eq
      intro j
      by_cases hj : i = j
      · subst hj
        rw [Nat.testBit_and, ht, hb]
        simp
      · rw [Nat.testBit_and, Nat.testBit_two_pow_of_ne hj]
        simp
    rw [hz]
    rfl
  · have hne : x % 2 ^ n &&& 2 ^ i ≠ 0 := by
      intro hz
      have h1 : (x % 2 ^ n &&& 2 ^ i).testBit i = true := by
        rw [Nat.testBit_and, ht, hb, Nat.testBit_two_pow_self]
        rfl
      rw [hz] at h1
      simp at h1
    exact bne_iff_ne.mpr hne

/-- The bit test of the decoding loops reads bit `b % 32` of word `b / 32`. -/
theorem bit_test_eq_testBit (words : Nat → Nat) (b : Nat) :
    bit_test words b = (words (b / 32)).testBit (b % 32) := by
  have hlt : b % 32 < 32 := Nat.mod_lt _ (by decide)
  have hpow : 2 ^ (b % 32) < 2 ^ 32 := Nat.pow_lt_pow_right (by decide) hlt
  unfold bit_test
  rw [Nat.one_shiftLeft, Nat.mod_eq_of_lt hpow]
  exact land_two_pow_ne_zero _ _ 32 hlt

/-- A loop over `0 .. m-1` whose body leaves a projection of the state unchanged leaves
it unchanged as a whole. -/
theorem foldlM_range_preserves {σ τ : Type} (F : σ → Nat → Option σ) (q : σ → τ)
    (hstep : ∀ s b s', F s b = some s' → q s' = q s) :
    ∀ (m : Nat) (s0 s1 : σ), (List.range m).foldlM F s0 = some s1 → q s1 = q s0 := by
  intro m
  induction m with
  | zero =>
    intro s0 s1 h
    simp at h
    rw [h]
  | succ m ih =>
    intro s0 s1 h
    rw [List.range_succ, List.foldlM_append] at h
    cases hm : (List.range m).foldlM F s0 with
    | none => simp [hm] at h
    | some sm =>
      simp [hm] at h
      rw [hstep sm m s1 h, ih s0 sm hm]

/-- A loop over `b = 0 .. m-1` whose body stores `TRUE` at index `b + 1` of a flag array
exactly when `c b` holds: when the loop is defined, every store was inside the array
and the array is set afterwards exactly where it was set before or where the loop
stored. -/
theorem foldlM_range_flags {σ : Type} (F : σ → Nat → Option σ) (proj : σ → Nat → Int)
    (c : Nat → Bool) (MAX : Nat)
    (hstep : ∀ s b s', F s b = some s' →
      if c b = true then (b + 1 ≤ MAX ∧ proj s' = fun j => if j = b + 1 then 1 else proj s j)
      else proj s' = proj s) :
    ∀ (m : Nat) (s0 s1 : σ), (List.range m).foldlM F s0 = some s1 →
      (∀ b, b < m → c b = true → b + 1 ≤ MAX) ∧
      (∀ k, proj s1 k ≠ 0 ↔ (proj s0 k ≠ 0 ∨ ∃ b, b < m ∧ c b = true ∧ k = b + 1)) := by
  intro m
  induction m with
  | zero =>
    intro s0 s1 h
    simp at h
    subst h
    simp
  | succ m ih =>
    intro s0 s1 h
    rw [List.range_succ, List.foldlM_append] at h
    cases hm : (List.range m).foldlM F s0 with
    | none => simp [hm] at h
    | some sm =>
      simp [hm] at h
      obtain ⟨ih1, ih2⟩ := ih s0 sm hm
      have hs := hstep sm m s1 h
      by_cases hc : c m = true
      · rw [if_pos hc] at hs
        obtain ⟨hle, hproj⟩ := hs
        refine ⟨?_, ?_⟩
        · intro b hb hcb
          rcases Nat.lt_succ_iff_lt_or_eq.mp hb with hlt | heq
          · exact ih1 b hlt hcb
          · rw [heq]; exact hle
        · intro k
          rw [hproj]
          by_cases hk : k = m + 1
          · subst hk
            simp only [if_true]
            constructor
            · intro _
              exact Or.inr ⟨m, Nat.lt_succ_self m, hc, rfl⟩
            · intro _
              decide
          · simp only [if_neg hk]
            rw [ih2 k]
            constructor
            · rintro (h0 | ⟨b, hb, hcb, hkb⟩)
              · exact Or.inl h0
              · exact Or.inr ⟨b, Nat.lt_succ_of_lt hb, hcb, hkb⟩
            · rintro (h0 | ⟨b, hb, hcb, hkb⟩)
              · exact Or.inl h0
              · rcases Nat.lt_succ_iff_lt_or_eq.mp hb with hlt | heq
                · exact Or.inr ⟨b, hlt, hcb, hkb⟩
                · subst heq
                  exact absurd hkb hk
      · rw [if_neg hc] at hs
        refine ⟨?_, ?_⟩
        · intro b hb hcb
          rcases Nat.lt_succ_iff_lt_or_eq.mp hb with hlt | heq
          · exact ih1 b hlt hcb
          · subst heq
            exact absurd hcb hc
        · intro k
          rw [hs, ih2 k]
          constructor
          · rintro (h0 | ⟨b, hb, hcb, hkb⟩)
            · exact Or.inl h0
            · exact Or.inr ⟨b, Nat.lt_succ_of_lt hb, hcb, hkb⟩
          · rintro (h0 | ⟨b, hb, hcb, hkb⟩)
            · exact Or.inl h0
            · rcases Nat.lt_succ_iff_lt_or_eq.mp hb with hlt | heq
              · exact Or.inr ⟨b, hlt, hcb, hkb⟩
              · subst heq
                exact absurd hcb hc

theorem set_flag_if_some (env : Engine) (c : Bool) (a a' : Nat → Int) (k : Nat)
    (h : set_flag_if env c a k = some a') :
    if c = true then (k ≤ env.MAX_SPECIES ∧ a' = fun j => if j = k then 1 else a j)
    else a' = a := by
  unfold set_flag_if set_flag at h
  cases c with
  | false =>
    simp at h
    simp [h]
  | true =>
    by_cases hk : k ≤ env.MAX_SPECIES
    · simp [hk] at h
      simp [hk, ← h]
    · simp [hk] at h

/-- What one turn of the relation loop does to the three flag arrays and to the other
fields of the species. -/
theorem relationStep_some (env : Engine) (i : Nat) (species : species_data)
    (s s' : global_species) (b : Nat) (h : relationStep env i species s b = some s') :
    (if (b != i && bit_test species.ally b) = true then
        (b + 1 ≤ env.MAX_SPECIES ∧ s'.allies = fun j => if j = b + 1 then 1 else s.allies j)
      else s'.allies = s.allies) ∧
    (if (b != i && bit_test species.contact b) = true then
        (b + 1 ≤ env.MAX_SPECIES ∧ s'.contacts = fun j => if j = b + 1 then 1 else s.contacts j)
      else s'.contacts = s.contacts) ∧
    (if (b != i && bit_test species.enemy b) = true then
        (b + 1 ≤ env.MAX_SPECIES ∧ s'.enemies = fun j => if j = b + 1 then 1 else s.enemies j)
      else s'.enemies = s.enemies) ∧
    s' = { s with allies := s'.allies, contacts := s'.contacts, enemies := s'.enemies } := by
  unfold relationStep at h
  by_cases hb : (b != i) = true
  · rw [if_pos hb] at h
    cases h1 : set_flag_if env (bit_test species.ally b) s.allies (b + 1) with
    | none => simp [h1] at h
    | some al =>
      cases h2 : set_flag_if env (bit_test species.contact b) s.contacts (b + 1) with
      | none => simp [h1, h2] at h
      | some co =>
        cases h3 : set_flag_if env (bit_test species.enemy b) s.enemies (b + 1) with
        | none => simp [h1, h2, h3] at h
        | some en =>
          simp [h1, h2, h3] at h
          subst h
          have e1 := set_flag_if_some env _ _ _ _ h1
          have e2 := set_flag_if_some env _ _ _ _ h2
          have e3 := set_flag_if_some env _ _ _ _ h3
          simp only [hb, Bool.true_and]
          exact ⟨e1, e2, e3, trivial⟩
  · rw [if_neg hb] at h
    simp at h
    subst h
    simp at hb
    simp [hb]

/-- What one turn of the `visited_by` loop does to the flag array and to the other
fields of the system. -/
theorem visitedStep_some (env : Engine) (star : star_data) (s s' : global_system) (i : Nat)
    (h : visitedStep env star s i = some s') :
    (if bit_test star.visited_by i = true then
        (i + 1 ≤ env.MAX_SPECIES ∧
          s'.visited_by = fun j => if j = i + 1 then 1 else s.visited_by j)
      else s'.visited_by = s.visited_by) ∧
    s' = { s with visited_by := s'.visited_by } := by
  unfold visitedStep at h
  cases h1 : set_flag_if env (bit_test star.visited_by i) s.visited_by (i + 1) with
  | none => simp [h1] at h
  | some a =>
    simp [h1] at h
    subst h
    exact ⟨set_flag_if_some env _ _ _ _ h1, rfl⟩

/-- The system built from a star record: its scalar fields and planets are copied from
the record, every store of the `visited_by` loop was inside the array, and the array
is set exactly at the indices `b + 1` of the bits `b < num_species` that are set. -/
theorem exportSystem_some (env : Engine) (n : Nat) (star : star_data) (s : global_system)
    (h : exportSystem env n star = some s) :
    s = { id := star.id, x := star.x, y := star.y, z := star.z, color := star.color,
          home_system := star.home_system, message := 0, size := star.size,
          type := star.type,
          wormholeExit := (match star.wormholeExit with
            | some id => id
            | none => 0),
          planets := star.planets.map (exportPlanet env),
          visited_by := s.visited_by } ∧
    (∀ b, b < n → bit_test star.visited_by b = true → b + 1 ≤ env.MAX_SPECIES) ∧
    (∀ k, s.visited_by k ≠ 0 ↔ ∃ b, b < n ∧ bit_test star.visited_by b = true ∧ k = b + 1) := by
  unfold exportSystem at h
  simp only at h
  cases hf : (List.range n).foldlM (visitedStep env star)
      { id := star.id, x := star.x, y := star.y, z := star.z, color := star.color,
        home_system := star.home_system, message := 0, size := star.size, type := star.type,
        wormholeExit := 0, planets := [], visited_by := fun _ => 0 } with
  | none => simp [hf] at h
  | some s1 =>
    simp [hf] at h
    have hp := foldlM_range_preserves (visitedStep env star)
      (fun t : global_system => ({ t with visited_by := fun _ => 0 } : global_system))
      (fun t b t' ht => by
        have := (visitedStep_some env star t t' b ht).2
        rw [this]) n _ s1 hf
    have hfl := foldlM_range_flags (visitedStep env star) (fun t => t.visited_by)
      (fun b => bit_test star.visited_by b) env.MAX_SPECIES
      (fun t b t' ht => (visitedStep_some env star t t' b ht).1) n _ s1 hf
    subst h
    simp only at hp
    refine ⟨?_, hfl.1, ?_⟩
    · have e := congrArg (fun t : global_system =>
        ({ t with visited_by := s1.visited_by,
                  wormholeExit := (match star.wormholeExit with
                    | some id => id
                    | none => 0),
                  planets := star.planets.map (exportPlanet env) } : global_system)) hp
      simpa using e
    · intro k
      have := hfl.2 k
      simpa using this

/-- The species built from the roster record at position `i`: its scalar fields, skills
and gas lists are copied from the record, its colonies and ships are those built from
the namplas and from the ships that are not named "Unused", every store of the
relation loop was inside its array, and each relation array is set exactly at the
indices `b + 1` of the bits `b < num_species`, `b ≠ i`, that are set. -/
theorem exportSpecies_some (env : Engine) (systems : List global_system) (n i : Nat)
    (species : species_data) (s : global_species)
    (h : exportSpecies env systems n i species = some s) :
    s = { id := species.id, name := species.name, govt_name := species.govt_name,
          govt_type := species.govt_type, skills := exportSkills env species,
          auto_orders := species.auto_orders, econ_units := species.econ_units,
          hp_original_base := species.hp_original_base,
          required_gases :=
            [{ code := env.gas_string species.required_gas, atmos_pct := 0,
               min_pct := species.required_gas_min, max_pct := species.required_gas_max,
               required := 0 }],
          neutral_gases := exportGasList env species.neutral_gas,
          poison_gases := exportGasList env species.poison_gas,
          colonies := exportColonies env systems 0 species.namplas,
          ships := s.ships, contacts := s.contacts, allies := s.allies,
          enemies := s.enemies } ∧
    mapOpt (exportShip env (exportColonies env systems 0 species.namplas))
        (species.ships.filter fun ship => ship.name != "Unused") = some s.ships ∧
    (∀ b, b < n → b ≠ i →
      (bit_test species.contact b = true ∨ bit_test species.ally b = true ∨
        bit_test species.enemy b = true) → b + 1 ≤ env.MAX_SPECIES) ∧
    (∀ k, s.contacts k ≠ 0 ↔
      ∃ b, b < n ∧ (b ≠ i ∧ bit_test species.contact b = true) ∧ k = b + 1) ∧
    (∀ k, s.allies k ≠ 0 ↔
      ∃ b, b < n ∧ (b ≠ i ∧ bit_test species.ally b = true) ∧ k = b + 1) ∧
    (∀ k, s.enemies k ≠ 0 ↔
      ∃ b, b < n ∧ (b ≠ i ∧ bit_test species.enemy b = true) ∧ k = b + 1) := by
  unfold exportSpecies at h
  simp only at h
  generalize hs0 : (
      { id := species.id, name := species.name, govt_name := species.govt_name,
        govt_type := species.govt_type, skills := exportSkills env species,
        auto_orders := species.auto_orders, econ_units := species.econ_units,
        hp_original_base := species.hp_original_base,
        required_gases :=
          [{ code := env.gas_string species.required_gas, atmos_pct := 0,
             min_pct := species.required_gas_min, max_pct := species.required_gas_max,
             required := 0 }],
        neutral_gases := exportGasList env species.neutral_gas,
        poison_gases := exportGasList env species.poison_gas,
        colonies := [], ships := [], contacts := fun _ => 0, allies := fun _ => 0,
        enemies := fun _ => 0 } : global_species) = s0 at h
  cases hf : (List.range n).foldlM (relationStep env i species) s0 with
  | none => simp [hf] at h
  | some s1 =>
    rw [hf] at h
    simp only at h
    cases hsh : mapOpt (exportShip env (exportColonies env systems 0 species.namplas))
        (species.ships.filter fun ship => ship.name != "Unused") with
    | none => simp [hsh] at h
    | some ships =>
      rw [hsh] at h
      simp only [Option.some.injEq] at h
      have hp := foldlM_range_preserves (relationStep env i species)
        (fun t : global_species =>
          ({ t with allies := fun _ => 0, contacts := fun _ => 0, enemies := fun _ => 0 }
            : global_species))
        (fun t b t' ht => by
          have := (relationStep_some env i species t t' b ht).2.2.2
          rw [this]) n s0 s1 hf
      have hal := foldlM_range_flags (relationStep env i species) (fun t => t.allies)
        (fun b => (b != i && bit_test species.ally b)) env.MAX_SPECIES
        (fun t b t' ht => (relationStep_some env i species t t' b ht).1) n s0 s1 hf
      have hco := foldlM_range_flags (relationStep env i species) (fun t => t.contacts)
        (fun b => (b != i && bit_test species.contact b)) env.MAX_SPECIES
        (fun t b t' ht => (relationStep_some env i species t t' b ht).2.1) n s0 s1 hf
      have hen := foldlM_range_flags (relationStep env i species) (fun t => t.enemies)
        (fun b => (b != i && bit_test species.enemy b)) env.MAX_SPECIES
        (fun t b t' ht => (relationStep_some env i species t t' b ht).2.2.1) n s0 s1 hf
      subst h
      subst hs0
      simp only at hp
      refine ⟨?_, rfl, ?_, ?_, ?_, ?_⟩
      · have e := congrArg (fun t : global_species =>
          ({ t with allies := s1.allies, contacts := s1.contacts, enemies := s1.enemies,
                    colonies := exportColonies env systems 0 species.namplas,
                    ships := ships } : global_species)) hp
        simpa using e
      · intro b hb hbi hbit
        rcases hbit with hc | ha | he
        · exact hco.1 b hb (by simp [hbi, hc])
        · exact hal.1 b hb (by simp [hbi, ha])
        · exact hen.1 b hb (by simp [hbi, he])
      · intro k
        have := hco.2 k
        simpa using this
      · intro k
        have := hal.2 k
        simpa using this
      · intro k
        have := hen.2 k
        simpa using this

theorem mapOpt_some {α β : Type} (f : α → Option β) :
    ∀ (l : List α) (r : List β), mapOpt f l = some r →
      r.length = l.length ∧
      ∀ (j : Nat) (a : α), l[j]? = some a → ∃ b : β, r[j]? = some b ∧ f a = some b := by
  intro l
  induction l with
  | nil =>
    intro r h
    simp [mapOpt] at h
    subst h
    simp
  | cons a l ih =>
    intro r h
    unfold mapOpt at h
    cases hfa : f a with
    | none => simp [hfa] at h
    | some b =>
      cases hrest : mapOpt f l with
      | none => simp [hfa, hrest] at h
      | some bs =>
        simp [hfa, hrest] at h
        subst h
        obtain ⟨hl, hidx⟩ := ih bs hrest
        refine ⟨by simp [hl], ?_⟩
        intro j x hx
        cases j with
        | zero =>
          simp at hx
          subst hx
          exact ⟨b, by simp, hfa⟩
        | succ j =>
          simp at hx
          obtain ⟨y, hy, hfy⟩ := hidx j x hx
          exact ⟨y, by simpa using hy, hfy⟩

theorem exportRoster_some (env : Engine) (systems : List global_system) (n : Nat) :
    ∀ (l : List species_data) (i : Nat) (r : List global_species),
      exportRoster env systems n i l = some r →
      r.length = l.length ∧
      ∀ (j : Nat) (sp : species_data), l[j]? = some sp →
        ∃ s : global_species,
          r[j]? = some s ∧ exportSpecies env systems n (i + j) sp = some s := by
  intro l
  induction l with
  | nil =>
    intro i r h
    simp [exportRoster] at h
    subst h
    simp
  | cons a l ih =>
    intro i r h
    unfold exportRoster at h
    cases hfa : exportSpecies env systems n i a with
    | none => simp [hfa] at h
    | some b =>
      cases hrest : exportRoster env systems n (i + 1) l with
      | none => simp [hfa, hrest] at h
      | some bs =>
        simp [hfa, hrest] at h
        subst h
        obtain ⟨hl, hidx⟩ := ih (i + 1) bs hrest
        refine ⟨by simp [hl], ?_⟩
        intro j x hx
        cases j with
        | zero =>
          simp at hx
          subst hx
          exact ⟨b, by simp, by simpa using hfa⟩
        | succ j =>
          simp at hx
          obtain ⟨y, hy, hfy⟩ := hidx j x hx
          refine ⟨y, by simpa using hy, ?_⟩
          have e : i + (j + 1) = i + 1 + j := by omega
          rw [e]
          exact hfy

/-- The export graph of a store, when it is defined: the scalars of the galaxy record,
the systems built from the stars and the species built from the roster. -/
theorem exportData_some (env : Engine) (st : Store) (g : global_data)
    (h : exportData env st = some g) :
    g.turn = st.galaxy.turn_number ∧
    g.cluster.radius = st.galaxy.radius ∧
    g.cluster.d_num_species = st.galaxy.d_num_species ∧
    g.cluster.num_species = st.num_species ∧
    mapOpt (exportSystem env st.num_species) st.star_base = some g.cluster.systems ∧
    exportRoster env g.cluster.systems st.num_species 0 st.spec_data = some g.species := by
  unfold exportData at h
  cases h1 : mapOpt (exportSystem env st.num_species) st.star_base with
  | none => simp [h1] at h
  | some systems =>
    cases h2 : exportRoster env systems st.num_species 0 st.spec_data with
    | none => simp [h1, h2] at h
    | some species =>
      simp [h1, h2] at h
      subst h
      simp [h2]

/-! ## Lemmas on the members of the marshalled nodes -/

theorem speciesNodes_marshalGlobals (env : Engine) (g : global_data) :
    speciesNodes (marshalGlobals env g) = g.species.map (marshalSpecie env) := by
  simp [speciesNodes, marshalGlobals, json_value_t.member, lookupKey, json_add, marshalSpecies,
    json_value_t.elements]

theorem systemNodes_marshalGlobals (env : Engine) (g : global_data) :
    systemNodes (marshalGlobals env g) = g.cluster.systems.map (marshalSystem env) := by
  simp [systemNodes, marshalGlobals, marshalCluster, json_value_t.member, lookupKey, json_add,
    marshalSystems, json_value_t.elements]

theorem member_sp (env : Engine) (s : global_species) :
    (marshalSpecie env s).member "sp" = some (json_number s.id) := by
  simp [marshalSpecie, json_value_t.member, lookupKey_add]

theorem member_contacts (env : Engine) (s : global_species) :
    (marshalSpecie env s).member "contacts" = marshalFlags env s.contacts := by
  simp only [marshalSpecie, json_value_t.member, List.append_assoc, lookupKey_add,
    lookupKey_add_if, lookupKey_add_opt]
  cases marshalFlags env s.contacts <;> cases marshalFlags env s.allies <;>
    cases marshalFlags env s.enemies <;> simp [lookupKey_add_last]

theorem member_allies (env : Engine) (s : global_species) :
    (marshalSpecie env s).member "allies" = marshalFlags env s.allies := by
  simp only [marshalSpecie, json_value_t.member, List.append_assoc, lookupKey_add,
    lookupKey_add_if, lookupKey_add_opt]
  cases marshalFlags env s.contacts <;> cases marshalFlags env s.allies <;>
    cases marshalFlags env s.enemies <;> simp [lookupKey_add_last]

theorem member_enemies (env : Engine) (s : global_species) :
    (marshalSpecie env s).member "enemies" = marshalFlags env s.enemies := by
  simp only [marshalSpecie, json_value_t.member, List.append_assoc, lookupKey_add,
    lookupKey_add_if, lookupKey_add_opt]
  cases marshalFlags env s.contacts <;> cases marshalFlags env s.allies <;>
    cases marshalFlags env s.enemies <;> simp [lookupKey_add_last]

theorem member_visited_by (env : Engine) (s : global_system) :
    (marshalSystem env s).member "visited_by" = marshalFlags env s.visited_by := by
  simp only [marshalSystem, json_value_t.member, List.append_assoc, lookupKey_add,
    lookupKey_add_if, lookupKey_add_opt]
  cases marshalFlags env s.visited_by <;> simp [lookupKey_add_last]

theorem relationList_of_flags (env : Engine) (key : String) (node : json_value_t)
    (flags : Nat → Int) (h : node.member key = marshalFlags env flags) :
    relationList key node
      = (decodedIds env flags).map fun (sp : Nat) => json_number (sp : Int) := by
  unfold relationList
  rw [h, marshalFlags_eq]
  by_cases he : decodedIds env flags = []
  · simp [he]
  · simp [he, idList, json_value_t.elements]

theorem json_number_cast_inj (a b : Nat) (h : json_number (a : Int) = json_number (b : Int)) :
    a = b := by
  unfold json_number at h
  injection h with h
  exact Int.ofNat.inj h

/-! ## From the document back to the store -/

theorem exportDocument_some (env : Engine) (st : Store) (doc : json_value_t)
    (h : exportDocument env st = some doc) :
    ∃ g, exportData env st = some g ∧ doc = marshalGlobals env g := by
  unfold exportDocument at h
  cases hg : exportData env st with
  | none => simp [hg] at h
  | some g =>
    simp [hg] at h
    exact ⟨g, rfl, h.symm⟩

/-- The species node at position `i` of the document is the marshalled species built
from the roster record at position `i`. -/
theorem speciesNodes_at (env : Engine) (st : Store) (g : global_data)
    (hg : exportData env st = some g) (i : Nat) (sp : species_data)
    (hsp : st.spec_data[i]? = some sp) :
    ∃ s : global_species,
      exportSpecies env g.cluster.systems st.num_species i sp = some s ∧
      g.species[i]? = some s ∧
      (speciesNodes (marshalGlobals env g))[i]? = some (marshalSpecie env s) := by
  have hr := (exportData_some env st g hg).2.2.2.2.2
  obtain ⟨_, hidx⟩ := exportRoster_some env g.cluster.systems st.num_species st.spec_data 0
    g.species hr
  obtain ⟨s, hs, hes⟩ := hidx i sp hsp
  refine ⟨s, by simpa using hes, hs, ?_⟩
  rw [speciesNodes_marshalGlobals]
  simp [hs]

/-- Every species node of the document is the marshalled species built from some
roster record, at the position of that record. -/
theorem speciesNodes_mem (env : Engine) (st : Store) (g : global_data)
    (hg : exportData env st = some g) (node : json_value_t)
    (hn : node ∈ speciesNodes (marshalGlobals env g)) :
    ∃ (i : Nat) (sp : species_data) (s : global_species),
      st.spec_data[i]? = some sp ∧
      exportSpecies env g.cluster.systems st.num_species i sp = some s ∧
      node = marshalSpecie env s := by
  have hr := (exportData_some env st g hg).2.2.2.2.2
  obtain ⟨hlen, _⟩ := exportRoster_some env g.cluster.systems st.num_species st.spec_data 0
    g.species hr
  rw [speciesNodes_marshalGlobals] at hn
  obtain ⟨s, hs, rfl⟩ := List.mem_map.mp hn
  obtain ⟨i, hi, hget⟩ := List.getElem_of_mem hs
  have hi2 : i < st.spec_data.length := by rw [← hlen]; exact hi
  obtain ⟨s2, h1, h2, _⟩ := speciesNodes_at env st g hg i (st.spec_data[i])
    (List.getElem?_eq_getElem hi2)
  have e : g.species[i]? = some s := by rw [List.getElem?_eq_getElem hi, hget]
  rw [e] at h2
  injection h2 with h2
  subst h2
  exact ⟨i, st.spec_data[i], s, List.getElem?_eq_getElem hi2, h1, rfl⟩

/-- The system node at position `j` of the document is the marshalled system built from
the star record at position `j`. -/
theorem systemNodes_at (env : Engine) (st : Store) (g : global_data)
    (hg : exportData env st = some g) (j : Nat) (star : star_data)
    (hstar : st.star_base[j]? = some star) :
    ∃ s : global_system,
      exportSystem env st.num_species star = some s ∧
      g.cluster.systems[j]? = some s ∧
      (systemNodes (marshalGlobals env g))[j]? = some (marshalSystem env s) := by
  have hr := (exportData_some env st g hg).2.2.2.2.1
  obtain ⟨_, hidx⟩ := mapOpt_some (exportSystem env st.num_species) st.star_base
    g.cluster.systems hr
  obtain ⟨s, hs, hes⟩ := hidx j star hstar
  refine ⟨s, hes, hs, ?_⟩
  rw [systemNodes_marshalGlobals]
  simp [hs]

/-- Every system node of the document is the marshalled system built from some star
record. -/
theorem systemNodes_mem (env : Engine) (st : Store) (g : global_data)
    (hg : exportData env st = some g) (node : json_value_t)
    (hn : node ∈ systemNodes (marshalGlobals env g)) :
    ∃ (j : Nat) (star : star_data) (s : global_system),
      st.star_base[j]? = some star ∧
      exportSystem env st.num_species star = some s ∧
      node = marshalSystem env s := by
  have hr := (exportData_some env st g hg).2.2.2.2.1
  obtain ⟨hlen, _⟩ := mapOpt_some (exportSystem env st.num_species) st.star_base
    g.cluster.systems hr
  rw [systemNodes_marshalGlobals] at hn
  obtain ⟨s, hs, rfl⟩ := List.mem_map.mp hn
  obtain ⟨j, hj, hget⟩ := List.getElem_of_mem hs
  have hj2 : j < st.star_base.length := by rw [← hlen]; exact hj
  obtain ⟨s2, h1, h2, _⟩ := systemNodes_at env st g hg j (st.star_base[j])
    (List.getElem?_eq_getElem hj2)
  have e : g.cluster.systems[j]? = some s := by rw [List.getElem?_eq_getElem hj, hget]
  rw [e] at h2
  injection h2 with h2
  subst h2
  exact ⟨j, st.star_base[j], s, List.getElem?_eq_getElem hj2, h1, rfl⟩

/-! ## Relation lists -/

/-- Membership in a relation list whose member is the optional list left by the
marshalling loop over a flag array. -/
theorem mem_relationList_iff (env : Engine) (key : String) (node : json_value_t)
    (flags : Nat → Int) (h : node.member key = marshalFlags env flags) (x : json_value_t) :
    x ∈ relationList key node ↔
      ∃ k : Nat, x = json_number (k : Int) ∧ k ≤ env.MAX_SPECIES ∧ flags k ≠ 0 := by
  rw [relationList_of_flags env key node flags h, List.mem_map]
  constructor
  · rintro ⟨k, hk, rfl⟩
    exact ⟨k, rfl, (mem_decodedIds env flags k).mp hk⟩
  · rintro ⟨k, rfl, hk⟩
    exact ⟨k, (mem_decodedIds env flags k).mpr hk, rfl⟩

/-- The member `key` of a species node, for the three relation keys, is the optional
list left by the marshalling loop over the matching flag array. -/
theorem member_relation (env : Engine) (s : global_species) (key : String)
    (hkey : key ∈ ["contacts", "allies", "enemies"]) :
    ∃ flags : Nat → Int,
      (marshalSpecie env s).member key = marshalFlags env flags ∧
      ((key = "contacts" ∧ flags = s.contacts) ∨ (key = "allies" ∧ flags = s.allies) ∨
        (key = "enemies" ∧ flags = s.enemies)) := by
  simp only [List.mem_cons, List.mem_singleton, List.not_mem_nil, or_false] at hkey
  rcases hkey with rfl | rfl | rfl
  · exact ⟨s.contacts, member_contacts env s, Or.inl ⟨rfl, rfl⟩⟩
  · exact ⟨s.allies, member_allies env s, Or.inr (Or.inl ⟨rfl, rfl⟩)⟩
  · exact ⟨s.enemies, member_enemies env s, Or.inr (Or.inr ⟨rfl, rfl⟩)⟩

/-- C1: for every store whose species at roster position `i` has id `i + 1` and on which
the export is defined, every element of the `contacts`, `allies` and `enemies` lists of
a species node is a number `k` with `1 ≤ k ≤ galaxy.num_species`, and it is not the value
emitted as `sp` in that node, whatever the bit words hold. -/
theorem relation_ids_in_roster_not_self (env : Engine) (st : Store) (doc : json_value_t)
    (hdoc : exportDocument env st = some doc)
    (hid : ∀ (i : Nat) (sp : species_data), st.spec_data[i]? = some sp → sp.id = (i : Int) + 1)
    (node : json_value_t) (hnode : node ∈ speciesNodes doc)
    (key : String) (hkey : key ∈ ["contacts", "allies", "enemies"])
    (x : json_value_t) (hx : x ∈ relationList key node) :
    ∃ k : Nat, x = json_number (k : Int) ∧ 1 ≤ k ∧ k ≤ st.num_species ∧
      node.member "sp" ≠ some x := by
  obtain ⟨g, hg, rfl⟩ := exportDocument_some env st doc hdoc
  obtain ⟨i, sp, s, hsp, hs, rfl⟩ := speciesNodes_mem env st g hg node hnode
  obtain ⟨hfields, _, _, hco, hal, hen⟩ :=
    exportSpecies_some env g.cluster.systems st.num_species i sp s hs
  obtain ⟨flags, hm, hcase⟩ := member_relation env s key hkey
  obtain ⟨k, rfl, _, hk⟩ := (mem_relationList_iff env key _ flags hm x).mp hx
  have hchar : ∃ b, b < st.num_species ∧ b ≠ i ∧ k = b + 1 := by
    rcases hcase with ⟨_, rfl⟩ | ⟨_, rfl⟩ | ⟨_, rfl⟩
    · obtain ⟨b, hb, ⟨hbi, _⟩, hkb⟩ := (hco k).mp hk
      exact ⟨b, hb, hbi, hkb⟩
    · obtain ⟨b, hb, ⟨hbi, _⟩, hkb⟩ := (hal k).mp hk
      exact ⟨b, hb, hbi, hkb⟩
    · obtain ⟨b, hb, ⟨hbi, _⟩, hkb⟩ := (hen k).mp hk
      exact ⟨b, hb, hbi, hkb⟩
  obtain ⟨b, hb, hbi, rfl⟩ := hchar
  refine ⟨b + 1, rfl, Nat.succ_le_succ (Nat.zero_le b), hb, ?_⟩
  rw [member_sp]
  have hsid : s.id = (i : Int) + 1 := by
    rw [hfields]
    exact hid i sp hsp
  rw [hsid]
  intro heq
  injection heq with heq
  unfold json_number at heq
  injection heq with heq
  apply hbi
  omega

/-- The export of the store of the examples is defined and is the expected document. -/
theorem exportDocument_sampleStore :
    exportDocument sampleEngine sampleStore = some sampleDocument := by
  rfl

theorem sampleStore_ids (i : Nat) (sp : species_data)
    (h : sampleStore.spec_data[i]? = some sp) : sp.id = (i : Int) + 1 := by
  match i with
  | 0 =>
    simp [sampleStore] at h
    subst h
    rfl
  | 1 =>
    simp [sampleStore] at h
    subst h
    rfl
  | j + 2 => simp [sampleStore] at h

/-- Witness of C1 on the store of the examples: the element 2 of the `allies` list of
the first species node. -/
theorem relation_ids_in_roster_not_self_witness :
    ∃ k : Nat, json_number 2 = json_number (k : Int) ∧ 1 ≤ k ∧ k ≤ sampleStore.num_species ∧
      sampleSpeciesNode1.member "sp" ≠ some (json_number 2) :=
  relation_ids_in_roster_not_self sampleEngine sampleStore sampleDocument
    exportDocument_sampleStore sampleStore_ids sampleSpeciesNode1
    (List.mem_cons_self _ _) "allies" (by simp) (json_number 2) (List.mem_cons_self _ _)

/-- C2: for every store on which the export is defined, each relation list emitted
(`contacts`, `allies`, `enemies` of a species node, `visited_by` of a system node) is a
list of numbers in strictly ascending order, hence without a duplicate. -/
theorem relation_lists_strictly_ascending (env : Engine) (st : Store) (doc : json_value_t)
    (hdoc : exportDocument env st = some doc) :
    (∀ node, node ∈ speciesNodes doc → ∀ key, key ∈ ["contacts", "allies", "enemies"] →
      ∀ v, node.member key = some v →
        ∃ ids : List Nat, v = idList ids ∧ ids.Pairwise (· < ·) ∧ ids.Nodup) ∧
    (∀ node, node ∈ systemNodes doc → ∀ v, node.member "visited_by" = some v →
        ∃ ids : List Nat, v = idList ids ∧ ids.Pairwise (· < ·) ∧ ids.Nodup) := by
  obtain ⟨g, hg, rfl⟩ := exportDocument_some env st doc hdoc
  have key_fact : ∀ (flags : Nat → Int) (v : json_value_t), marshalFlags env flags = some v →
      ∃ ids : List Nat, v = idList ids ∧ ids.Pairwise (· < ·) ∧ ids.Nodup := by
    intro flags v hv
    rw [marshalFlags_eq] at hv
    by_cases he : decodedIds env flags = []
    · simp [he] at hv
    · simp [he] at hv
      refine ⟨decodedIds env flags, hv.symm, decodedIds_pairwise env flags, ?_⟩
      exact (decodedIds_pairwise env flags).imp (fun h => Nat.ne_of_lt h)
  constructor
  · intro node hnode key hkey v hv
    obtain ⟨i, sp, s, _, _, rfl⟩ := speciesNodes_mem env st g hg node hnode
    obtain ⟨flags, hm, _⟩ := member_relation env s key hkey
    rw [hm] at hv
    exact key_fact flags v hv
  · intro node hnode v hv
    obtain ⟨j, star, s, _, _, rfl⟩ := systemNodes_mem env st g hg node hnode
    rw [member_visited_by] at hv
    exact key_fact s.visited_by v hv

/-- Witness of C2 on the store of the examples: the `contacts` list of the first species
node and the `visited_by` list of the system node. -/
theorem relation_lists_strictly_ascending_witness :
    (∃ ids : List Nat, json_value_t.list [json_number 2] = idList ids ∧
      ids.Pairwise (· < ·) ∧ ids.Nodup) ∧
    (∃ ids : List Nat, json_value_t.list [json_number 1, json_number 2] = idList ids ∧
      ids.Pairwise (· < ·) ∧ ids.Nodup) :=
  ⟨(relation_lists_strictly_ascending sampleEngine sampleStore sampleDocument
      exportDocument_sampleStore).1 sampleSpeciesNode1 (List.mem_cons_self _ _)
      "contacts" (by simp) (json_value_t.list [json_number 2]) rfl,
   (relation_lists_strictly_ascending sampleEngine sampleStore sampleDocument
      exportDocument_sampleStore).2 sampleSystemNode (List.mem_cons_self _ _)
      (json_value_t.list [json_number 1, json_number 2]) rfl⟩

/-- What the member `key` of a node holds when it is the optional list left by the
marshalling loop over a flag array that a decoding loop has filled: `c b` tells whether
the loop stored at index `b + 1`, for `b < n`. -/
theorem decoded_member_spec (env : Engine) (key : String) (node : json_value_t)
    (flags : Nat → Int) (c : Nat → Bool) (n : Nat)
    (hm : node.member key = marshalFlags env flags)
    (hbound : ∀ b, b < n → c b = true → b + 1 ≤ env.MAX_SPECIES)
    (hchar : ∀ k, flags k ≠ 0 ↔ ∃ b, b < n ∧ c b = true ∧ k = b + 1) :
    (node.member key = none ↔ ∀ b, b < n → c b = false) ∧
    (∀ v, node.member key = some v → ∃ ids : List Nat, ids ≠ [] ∧ v = idList ids) ∧
    (∀ x, x ∈ relationList key node → ∃ k : Nat, x = json_number (k : Int)) ∧
    (∀ k : Nat, json_number (k : Int) ∈ relationList key node ↔
      (1 ≤ k ∧ k ≤ n ∧ c (k - 1) = true)) := by
  have hmem : ∀ k : Nat, k ∈ decodedIds env flags ↔ (1 ≤ k ∧ k ≤ n ∧ c (k - 1) = true) := by
    intro k
    rw [mem_decodedIds, hchar]
    constructor
    · rintro ⟨_, b, hb, hcb, rfl⟩
      exact ⟨Nat.succ_le_succ (Nat.zero_le b), hb, by simpa using hcb⟩
    · rintro ⟨h1, h2, h3⟩
      obtain ⟨b, rfl⟩ : ∃ b, k = b + 1 := ⟨k - 1, by omega⟩
      simp only [Nat.add_sub_cancel] at h3
      exact ⟨hbound b h2 h3, b, h2, h3, rfl⟩
  refine ⟨?_, ?_, ?_, ?_⟩
  · rw [hm, marshalFlags_eq]
    constructor
    · intro h b hb
      by_cases he : decodedIds env flags = []
      · cases hcb : c b with
        | false => rfl
        | true =>
          have : b + 1 ∈ decodedIds env flags :=
            (hmem (b + 1)).mpr ⟨Nat.succ_le_succ (Nat.zero_le b), hb, by simpa using hcb⟩
          rw [he] at this
          exact absurd this (List.not_mem_nil _)
      · simp [he] at h
    · intro h
      have he : decodedIds env flags = [] := by
        apply List.eq_nil_iff_forall_not_mem.mpr
        intro k hk
        obtain ⟨h1, h2, h3⟩ := (hmem k).mp hk
        have := h (k - 1) (by omega)
        rw [h3] at this
        exact absurd this (by decide)
      simp [he]
  · intro v hv
    rw [hm, marshalFlags_eq] at hv
    by_cases he : decodedIds env flags = []
    · simp [he] at hv
    · simp [he] at hv
      exact ⟨decodedIds env flags, he, hv.symm⟩
  · intro x hx
    obtain ⟨k, hk, _⟩ := (mem_relationList_iff env key node flags hm x).mp hx
    exact ⟨k, hk⟩
  · intro k
    rw [mem_relationList_iff env key node flags hm]
    constructor
    · rintro ⟨k', hk', hle, hne⟩
      have : k = k' := json_number_cast_inj k k' hk'
      subst this
      exact (hmem k).mp ((mem_decodedIds env flags k).mpr ⟨hle, hne⟩)
    · intro h
      have := (mem_decodedIds env flags k).mp ((hmem k).mpr h)
      exact ⟨k, rfl, this⟩

/-- The three relation members of the species node built from the roster record at
position `i`, and the `visited_by` member of a system node, in the form that
`decoded_member_spec` expects. -/
theorem species_relations_decoded (env : Engine) (systems : List global_system) (n i : Nat)
    (sp : species_data) (s : global_species)
    (hs : exportSpecies env systems n i sp = some s) (key : String) (words : Nat → Nat)
    (hkey : (key = "contacts" ∧ words = sp.contact) ∨ (key = "allies" ∧ words = sp.ally) ∨
      (key = "enemies" ∧ words = sp.enemy)) :
    ∃ flags : Nat → Int,
      (marshalSpecie env s).member key = marshalFlags env flags ∧
      (∀ b, b < n → (b != i && bit_test words b) = true → b + 1 ≤ env.MAX_SPECIES) ∧
      (∀ k, flags k ≠ 0 ↔ ∃ b, b < n ∧ (b != i && bit_test words b) = true ∧ k = b + 1) := by
  obtain ⟨_, _, hbound, hco, hal, hen⟩ := exportSpecies_some env systems n i sp s hs
  rcases hkey with ⟨rfl, rfl⟩ | ⟨rfl, rfl⟩ | ⟨rfl, rfl⟩
  · refine ⟨s.contacts, member_contacts env s, ?_, ?_⟩
    · intro b hb hc
      simp at hc
      exact hbound b hb hc.1 (Or.inl hc.2)
    · intro k
      rw [hco k]
      simp
  · refine ⟨s.allies, member_allies env s, ?_, ?_⟩
    · intro b hb hc
      simp at hc
      exact hbound b hb hc.1 (Or.inr (Or.inl hc.2))
    · intro k
      rw [hal k]
      simp
  · refine ⟨s.enemies, member_enemies env s, ?_, ?_⟩
    · intro b hb hc
      simp at hc
      exact hbound b hb hc.1 (Or.inr (Or.inr hc.2))
    · intro k
      rw [hen k]
      simp

/-- The relation list `key` of the species node built from the roster record at position
`i` holds numbers only, and holds the id `k` exactly when `1 ≤ k ≤ n`, `k - 1 ≠ i` and bit
`(k - 1) % 32` of word `(k - 1) / 32` is set. -/
theorem species_relation_exact (env : Engine) (systems : List global_system) (n i : Nat)
    (sp : species_data) (s : global_species)
    (hs : exportSpecies env systems n i sp = some s) (key : String) (words : Nat → Nat)
    (hkey : (key = "contacts" ∧ words = sp.contact) ∨ (key = "allies" ∧ words = sp.ally) ∨
      (key = "enemies" ∧ words = sp.enemy)) :
    (∀ x, x ∈ relationList key (marshalSpecie env s) → ∃ k : Nat, x = json_number (k : Int)) ∧
    (∀ k : Nat, json_number (k : Int) ∈ relationList key (marshalSpecie env s) ↔
      (1 ≤ k ∧ k ≤ n ∧ k - 1 ≠ i ∧ (words ((k - 1) / 32)).testBit ((k - 1) % 32) = true)) := by
  obtain ⟨flags, hm, hbound, hchar⟩ := species_relations_decoded env systems n i sp s hs key
    words hkey
  obtain ⟨_, _, hnum, hiff⟩ := decoded_member_spec env key (marshalSpecie env s) flags
    (fun b => (b != i && bit_test words b)) n hm hbound hchar
  refine ⟨hnum, ?_⟩
  intro k
  rw [hiff k]
  simp [bit_test_eq_testBit]

/-- C3: decoding is exact.  For every store on which the export is defined, with
`n = galaxy.num_species`: the `contacts` (resp. `allies`, `enemies`) list of the species
node at roster position `i` holds numbers only, and holds the id `k` if and only if
`1 ≤ k ≤ n`, `k - 1 ≠ i`, and bit `(k - 1) mod 32` of word `(k - 1) div 32` of the stored
contact (resp. ally, enemy) bit set is set; the `visited_by` list of a system node holds
numbers only, and holds `k` if and only if `1 ≤ k ≤ n` and that bit of the `visited_by`
bit set of the star is set.  A bit at an index `≥ n` never produces an id. -/
theorem relation_decoding_exact (env : Engine) (st : Store) (doc : json_value_t)
    (hdoc : exportDocument env st = some doc) :
    (∀ (i : Nat) (sp : species_data), st.spec_data[i]? = some sp →
      ∃ node : json_value_t, (speciesNodes doc)[i]? = some node ∧
        ((∀ x, x ∈ relationList "contacts" node → ∃ k : Nat, x = json_number (k : Int)) ∧
          ∀ k : Nat, json_number (k : Int) ∈ relationList "contacts" node ↔
            (1 ≤ k ∧ k ≤ st.num_species ∧ k - 1 ≠ i ∧
              (sp.contact ((k - 1) / 32)).testBit ((k - 1) % 32) = true)) ∧
        ((∀ x, x ∈ relationList "allies" node → ∃ k : Nat, x = json_number (k : Int)) ∧
          ∀ k : Nat, json_number (k : Int) ∈ relationList "allies" node ↔
            (1 ≤ k ∧ k ≤ st.num_species ∧ k - 1 ≠ i ∧
              (sp.ally ((k - 1) / 32)).testBit ((k - 1) % 32) = true)) ∧
        ((∀ x, x ∈ relationList "enemies" node → ∃ k : Nat, x = json_number (k : Int)) ∧
          ∀ k : Nat, json_number (k : Int) ∈ relationList "enemies" node ↔
            (1 ≤ k ∧ k ≤ st.num_species ∧ k - 1 ≠ i ∧
              (sp.enemy ((k - 1) / 32)).testBit ((k - 1) % 32) = true))) ∧
    (∀ (j : Nat) (star : star_data), st.star_base[j]? = some star →
      ∃ node : json_value_t, (systemNodes doc)[j]? = some node ∧
        (∀ x, x ∈ relationList "visited_by" node → ∃ k : Nat, x = json_number (k : Int)) ∧
        ∀ k : Nat, json_number (k : Int) ∈ relationList "visited_by" node ↔
          (1 ≤ k ∧ k ≤ st.num_species ∧
            (star.visited_by ((k - 1) / 32)).testBit ((k - 1) % 32) = true)) := by
  obtain ⟨g, hg, rfl⟩ := exportDocument_some env st doc hdoc
  constructor
  · intro i sp hsp
    obtain ⟨s, hs, _, hnode⟩ := speciesNodes_at env st g hg i sp hsp
    refine ⟨marshalSpecie env s, hnode, ?_, ?_, ?_⟩
    · exact species_relation_exact env _ _ i sp s hs "contacts" sp.contact
        (Or.inl ⟨rfl, rfl⟩)
    · exact species_relation_exact env _ _ i sp s hs "allies" sp.ally
        (Or.inr (Or.inl ⟨rfl, rfl⟩))
    · exact species_relation_exact env _ _ i sp s hs "enemies" sp.enemy
        (Or.inr (Or.inr ⟨rfl, rfl⟩))
  · intro j star hstar
    obtain ⟨s, hs, _, hnode⟩ := systemNodes_at env st g hg j star hstar
    obtain ⟨_, hbound, hchar⟩ := exportSystem_some env st.num_species star s hs
    obtain ⟨_, _, hnum, hiff⟩ := decoded_member_spec env "visited_by" (marshalSystem env s)
      s.visited_by (fun b => bit_test star.visited_by b) st.num_species
      (member_visited_by env s) hbound hchar
    refine ⟨marshalSystem env s, hnode, hnum, ?_⟩
    intro k
    rw [hiff k]
    simp [bit_test_eq_testBit]

/-- The relation member `key` of the species node built from the roster record at
position `i` is absent exactly when no bit `b < n`, `b ≠ i`, is set, is a non-empty list
of ids otherwise, and is absent in particular when every word is zero. -/
theorem species_relation_presence (env : Engine) (systems : List global_system) (n i : Nat)
    (sp : species_data) (s : global_species)
    (hs : exportSpecies env systems n i sp = some s) (key : String) (words : Nat → Nat)
    (hkey : (key = "contacts" ∧ words = sp.contact) ∨ (key = "allies" ∧ words = sp.ally) ∨
      (key = "enemies" ∧ words = sp.enemy)) :
    ((marshalSpecie env s).member key = none ↔
      ∀ b, b < n → b ≠ i → (words (b / 32)).testBit (b % 32) = false) ∧
    (∀ v, (marshalSpecie env s).member key = some v →
      ∃ ids : List Nat, ids ≠ [] ∧ v = idList ids) ∧
    ((∀ w, words w = 0) → (marshalSpecie env s).member key = none) := by
  obtain ⟨flags, hm, hbound, hchar⟩ := species_relations_decoded env systems n i sp s hs key
    words hkey
  obtain ⟨hnone, hsome, _, _⟩ := decoded_member_spec env key (marshalSpecie env s) flags
    (fun b => (b != i && bit_test words b)) n hm hbound hchar
  have habs : (marshalSpecie env s).member key = none ↔
      ∀ b, b < n → b ≠ i → (words (b / 32)).testBit (b % 32) = false := by
    rw [hnone]
    constructor
    · intro h b hb hbi
      have := h b hb
      simp [bit_test_eq_testBit, hbi] at this
      exact this
    · intro h b hb
      by_cases hbi : b = i
      · simp [hbi]
      · simp [bit_test_eq_testBit, hbi, h b hb hbi]
  refine ⟨habs, hsome, ?_⟩
  intro hz
  rw [habs]
  intro b _ _
  rw [hz]
  exact Nat.zero_testBit _

/-- C4: for every store on which the export is defined, with `n = galaxy.num_species`:
each relation member (`contacts`, `allies`, `enemies` of the species node at roster
position `i`, `visited_by` of a system node) is absent from its node exactly when the
decoded sequence is empty, that is when no bit `b < n` (other than `b = i` for a species)
of the stored bit set is set, and is a non-empty list of numbers otherwise; in particular
an all-zero bit set yields a node without the member, never an empty list. -/
theorem relation_member_absent_iff_empty (env : Engine) (st : Store) (doc : json_value_t)
    (hdoc : exportDocument env st = some doc) :
    (∀ (i : Nat) (sp : species_data), st.spec_data[i]? = some sp →
      ∃ node : json_value_t, (speciesNodes doc)[i]? = some node ∧
        ((node.member "contacts" = none ↔
            ∀ b, b < st.num_species → b ≠ i → (sp.contact (b / 32)).testBit (b % 32) = false) ∧
          (∀ v, node.member "contacts" = some v → ∃ ids : List Nat, ids ≠ [] ∧ v = idList ids) ∧
          ((∀ w, sp.contact w = 0) → node.member "contacts" = none)) ∧
        ((node.member "allies" = none ↔
            ∀ b, b < st.num_species → b ≠ i → (sp.ally (b / 32)).testBit (b % 32) = false) ∧
          (∀ v, node.member "allies" = some v → ∃ ids : List Nat, ids ≠ [] ∧ v = idList ids) ∧
          ((∀ w, sp.ally w = 0) → node.member "allies" = none)) ∧
        ((node.member "enemies" = none ↔
            ∀ b, b < st.num_species → b ≠ i → (sp.enemy (b / 32)).testBit (b % 32) = false) ∧
          (∀ v, node.member "enemies" = some v → ∃ ids : List Nat, ids ≠ [] ∧ v = idList ids) ∧
          ((∀ w, sp.enemy w = 0) → node.member "enemies" = none))) ∧
    (∀ (j : Nat) (star : star_data), st.star_base[j]? = some star →
      ∃ node : json_value_t, (systemNodes doc)[j]? = some node ∧
        (node.member "visited_by" = none ↔
          ∀ b, b < st.num_species → (star.visited_by (b / 32)).testBit (b % 32) = false) ∧
        (∀ v, node.member "visited_by" = some v →
          ∃ ids : List Nat, ids ≠ [] ∧ v = idList ids) ∧
        ((∀ w, star.visited_by w = 0) → node.member "visited_by" = none)) := by
  obtain ⟨g, hg, rfl⟩ := exportDocument_some env st doc hdoc
  constructor
  · intro i sp hsp
    obtain ⟨s, hs, _, hnode⟩ := speciesNodes_at env st g hg i sp hsp
    refine ⟨marshalSpecie env s, hnode, ?_, ?_, ?_⟩
    · exact species_relation_presence env _ _ i sp s hs "contacts" sp.contact
        (Or.inl ⟨rfl, rfl⟩)
    · exact species_relation_presence env _ _ i sp s hs "allies" sp.ally
        (Or.inr (Or.inl ⟨rfl, rfl⟩))
    · exact species_relation_presence env _ _ i sp s hs "enemies" sp.enemy
        (Or.inr (Or.inr ⟨rfl, rfl⟩))
  · intro j star hstar
    obtain ⟨s, hs, _, hnode⟩ := systemNodes_at env st g hg j star hstar
    obtain ⟨_, hbound, hchar⟩ := exportSystem_some env st.num_species star s hs
    obtain ⟨hnone, hsome, _, _⟩ := decoded_member_spec env "visited_by" (marshalSystem env s)
      s.visited_by (fun b => bit_test star.visited_by b) st.num_species
      (member_visited_by env s) hbound hchar
    have habs : (marshalSystem env s).member "visited_by" = none ↔
        ∀ b, b < st.num_species → (star.visited_by (b / 32)).testBit (b % 32) = false := by
      rw [hnone]
      simp [bit_test_eq_testBit]
    refine ⟨marshalSystem env s, hnode, habs, hsome, ?_⟩
    intro hz
    rw [habs]
    intro b _
    rw [hz]
    exact Nat.zero_testBit _

/-- Witness of C3 on the store of the examples: the `visited_by` list of the system
node. -/
theorem relation_decoding_exact_witness :
    ∃ node : json_value_t, (systemNodes sampleDocument)[0]? = some node ∧
      (∀ x, x ∈ relationList "visited_by" node → ∃ k : Nat, x = json_number (k : Int)) ∧
      ∀ k : Nat, json_number (k : Int) ∈ relationList "visited_by" node ↔
        (1 ≤ k ∧ k ≤ sampleStore.num_species ∧
          (sampleStar.visited_by ((k - 1) / 32)).testBit ((k - 1) % 32) = true) :=
  (relation_decoding_exact sampleEngine sampleStore sampleDocument
    exportDocument_sampleStore).2 0 sampleStar rfl

/-- Witness of C4 on the store of the examples: the `visited_by` member of the system
node. -/
theorem relation_member_absent_iff_empty_witness :
    ∃ node : json_value_t, (systemNodes sampleDocument)[0]? = some node ∧
      (node.member "visited_by" = none ↔
        ∀ b, b < sampleStore.num_species →
          (sampleStar.visited_by (b / 32)).testBit (b % 32) = false) ∧
      (∀ v, node.member "visited_by" = some v →
        ∃ ids : List Nat, ids ≠ [] ∧ v = idList ids) ∧
      ((∀ w, sampleStar.visited_by w = 0) → node.member "visited_by" = none) :=
  (relation_member_absent_iff_empty sampleEngine sampleStore sampleDocument
    exportDocument_sampleStore).2 0 sampleStar rfl

/-! ## Colonies and ships of a species node -/

theorem member_colonies (env : Engine) (s : global_species) :
    (marshalSpecie env s).member "colonies" = some (marshalColonies s.colonies) := by
  simp only [marshalSpecie, json_value_t.member, List.append_assoc, lookupKey_add,
    lookupKey_add_if, lookupKey_add_opt]
  cases marshalFlags env s.contacts <;> cases marshalFlags env s.allies <;>
    cases marshalFlags env s.enemies <;> simp [lookupKey_add_last]

theorem member_ships (env : Engine) (s : global_species) :
    (marshalSpecie env s).member "ships" = some (marshalShips env s.ships) := by
  simp only [marshalSpecie, json_value_t.member, List.append_assoc, lookupKey_add,
    lookupKey_add_if, lookupKey_add_opt]
  cases marshalFlags env s.contacts <;> cases marshalFlags env s.allies <;>
    cases marshalFlags env s.enemies <;> simp [lookupKey_add_last]

theorem colonyNodes_marshalSpecie (env : Engine) (s : global_species) :
    colonyNodes (marshalSpecie env s) = s.colonies.map marshalColony := by
  simp [colonyNodes, member_colonies, marshalColonies, json_value_t.elements]

theorem shipNodes_marshalSpecie (env : Engine) (s : global_species) :
    shipNodes (marshalSpecie env s) = s.ships.map (marshalShip env) := by
  simp [shipNodes, member_ships, marshalShips, json_value_t.elements]

theorem exportColonies_getElem? (env : Engine) (systems : List global_system) :
    ∀ (l : List nampla_data) (n c : Nat),
      (exportColonies env systems n l)[c]? = (l[c]?).map (exportColony env systems (n + c)) := by
  intro l
  induction l with
  | nil =>
    intro n c
    simp [exportColonies]
  | cons a l ih =>
    intro n c
    cases c with
    | zero => simp [exportColonies]
    | succ c =>
      simp only [exportColonies, List.getElem?_cons_succ]
      rw [ih (n + 1) c]
      have e : n + 1 + c = n + (c + 1) := by omega
      rw [e]

theorem exportColonies_length (env : Engine) (systems : List global_system) :
    ∀ (l : List nampla_data) (n : Nat), (exportColonies env systems n l).length = l.length := by
  intro l
  induction l with
  | nil =>
    intro n
    simp [exportColonies]
  | cons a l ih =>
    intro n
    simp [exportColonies, ih]

/-- The colony node at position `c` of the species node at roster position `i` is the
marshalled colony built from the nampla record at position `c` of that species. -/
theorem colonyNodes_at (env : Engine) (st : Store) (g : global_data)
    (hg : exportData env st = some g) (i : Nat) (sp : species_data)
    (hsp : st.spec_data[i]? = some sp) (c : Nat) (nampla : nampla_data)
    (hc : sp.namplas[c]? = some nampla) :
    ∃ snode : json_value_t,
      (speciesNodes (marshalGlobals env g))[i]? = some snode ∧
      (colonyNodes snode)[c]?
        = some (marshalColony (exportColony env g.cluster.systems c nampla)) := by
  obtain ⟨s, hs, _, hnode⟩ := speciesNodes_at env st g hg i sp hsp
  obtain ⟨hfields, _⟩ := exportSpecies_some env g.cluster.systems st.num_species i sp s hs
  refine ⟨marshalSpecie env s, hnode, ?_⟩
  rw [colonyNodes_marshalSpecie, hfields]
  simp [exportColonies_getElem?, hc]

/-- The ship node at position `t` of the species node at roster position `i` is the
marshalled ship built from the exported ship record at position `t` of that species,
with the colonies built for that species. -/
theorem shipNodes_at (env : Engine) (st : Store) (g : global_data)
    (hg : exportData env st = some g) (i : Nat) (sp : species_data)
    (hsp : st.spec_data[i]? = some sp) (t : Nat) (ship : ship_data)
    (ht : (exportedShips sp)[t]? = some ship) :
    ∃ (snode : json_value_t) (p : global_ship),
      (speciesNodes (marshalGlobals env g))[i]? = some snode ∧
      exportShip env (exportColonies env g.cluster.systems 0 sp.namplas) ship = some p ∧
      (shipNodes snode)[t]? = some (marshalShip env p) := by
  obtain ⟨s, hs, _, hnode⟩ := speciesNodes_at env st g hg i sp hsp
  obtain ⟨_, hships, _⟩ := exportSpecies_some env g.cluster.systems st.num_species i sp s hs
  obtain ⟨_, hidx⟩ := mapOpt_some _ _ _ hships
  obtain ⟨p, hp, hbuild⟩ := hidx t ship ht
  refine ⟨marshalSpecie env s, p, hnode, hbuild, ?_⟩
  rw [shipNodes_marshalSpecie]
  simp [hp]

/-! ## Inventories -/

theorem filterMap_ite_eq {α β : Type} (p : α → Bool) (f : α → β) (l : List α) :
    l.filterMap (fun a => if p a then some (f a) else none) = (l.filter p).map f := by
  induction l with
  | nil => rfl
  | cons a l ih =>
    by_cases h : p a
    · simp [List.filterMap_cons, h, ih]
    · simp [List.filterMap_cons, h, ih]

/-- The inventory built from item quantities: one item per index with a non-zero
quantity, in increasing index order. -/
theorem exportInventory_eq (env : Engine) (q : Nat → Int) :
    exportInventory env q
      = ((List.range env.MAX_ITEMS).filter fun k => q k != 0).map fun k =>
          ({ code := env.item_abbr k, quantity := q k } : global_item) := by
  unfold exportInventory
  exact filterMap_ite_eq (fun k => q k != 0) _ _

theorem exportInventory_isEmpty (env : Engine) (q : Nat → Int) :
    (exportInventory env q).isEmpty = true ↔ ∀ k, k < env.MAX_ITEMS → q k = 0 := by
  rw [exportInventory_eq]
  simp [List.isEmpty_iff, List.filter_eq_nil_iff]

theorem member_inventory (c : global_colony) :
    (marshalColony c).member "inventory"
      = if c.inventory.isEmpty then none else some (marshalInventory c.inventory) := by
  simp only [marshalColony, json_value_t.member, List.append_assoc, lookupKey_add,
    lookupKey_add_if, lookupKey_add_opt]
  cases c.location.system <;> cases c.location.planet <;>
    cases c.inventory.isEmpty <;>
    simp [lookupKey, lookupKey_add, lookupKey_add_if, lookupKey_add_opt, lookupKey_add_last,
      lookupKey_add_if_last]

/-- C5: for every colony record of a store on which the export is defined: if all
`MAX_ITEMS` stored item quantities are zero, the document node of the colony has no
`inventory` member; otherwise it has an `inventory` map whose members are exactly the
pairs `(item_abbr[k], item_quantity[k])` for the indices `k < MAX_ITEMS` with
`item_quantity[k] != 0`, in increasing `k`; no member of an `inventory` map is the
number 0. -/
theorem colony_inventory_exact (env : Engine) (st : Store) (doc : json_value_t)
    (hdoc : exportDocument env st = some doc) (i : Nat) (sp : species_data)
    (hsp : st.spec_data[i]? = some sp) (c : Nat) (nampla : nampla_data)
    (hc : sp.namplas[c]? = some nampla) :
    ∃ snode cnode : json_value_t,
      (speciesNodes doc)[i]? = some snode ∧ (colonyNodes snode)[c]? = some cnode ∧
      ((∀ k, k < env.MAX_ITEMS → nampla.item_quantity k = 0) →
        cnode.member "inventory" = none) ∧
      (¬ (∀ k, k < env.MAX_ITEMS → nampla.item_quantity k = 0) →
        cnode.member "inventory" = some (json_value_t.map
          (((List.range env.MAX_ITEMS).filter fun k => nampla.item_quantity k != 0).map
            fun k => (env.item_abbr k, json_number (nampla.item_quantity k))))) ∧
      (∀ inv, cnode.member "inventory" = some inv →
        ∀ kv, kv ∈ inv.members → kv.2 ≠ json_number 0) := by
  obtain ⟨g, hg, rfl⟩ := exportDocument_some env st doc hdoc
  obtain ⟨snode, hs, hcn⟩ := colonyNodes_at env st g hg i sp hsp c nampla hc
  have hinv : (exportColony env g.cluster.systems c nampla).inventory
      = exportInventory env nampla.item_quantity := rfl
  have hmem : (marshalColony (exportColony env g.cluster.systems c nampla)).member "inventory"
      = if (exportInventory env nampla.item_quantity).isEmpty then none
        else some (json_value_t.map
          (((List.range env.MAX_ITEMS).filter fun k => nampla.item_quantity k != 0).map
            fun k => (env.item_abbr k, json_number (nampla.item_quantity k)))) := by
    rw [member_inventory, hinv]
    by_cases he : (exportInventory env nampla.item_quantity).isEmpty = true
    · simp [he]
    · simp only [he]
      rw [exportInventory_eq]
      simp [marshalInventory, List.map_map, Function.comp_def]
  refine ⟨snode, _, hs, hcn, ?_, ?_, ?_⟩
  · intro hz
    rw [hmem, if_pos ((exportInventory_isEmpty env _).mpr hz)]
  · intro hnz
    rw [hmem, if_neg (fun he => hnz ((exportInventory_isEmpty env _).mp he))]
  · intro inv hinvm kv hkv
    rw [hmem] at hinvm
    by_cases he : (exportInventory env nampla.item_quantity).isEmpty = true
    · simp [he] at hinvm
    · simp only [he] at hinvm
      simp only [Bool.false_eq_true, if_false, Option.some.injEq] at hinvm
      subst hinvm
      simp only [json_value_t.members, List.mem_map, List.mem_filter] at hkv
      obtain ⟨k, ⟨_, hk⟩, rfl⟩ := hkv
      intro h0
      unfold json_number at h0
      injection h0 with h0
      simp [h0] at hk

/-! ## Ship nodes -/

theorem member_location (env : Engine) (s : global_ship) :
    (marshalShip env s).member "location" = some (marshalLocation s.location) := by
  simp [marshalShip, json_value_t.member, lookupKey_add, lookupKey_add_if]

theorem member_loading_point (env : Engine) (s : global_ship) :
    (marshalShip env s).member "loading_point"
      = if s.loading_point = "" then none else some (json_string s.loading_point) := by
  by_cases h : s.loading_point = "" <;>
    simp [marshalShip, json_value_t.member, lookupKey_add, lookupKey_add_if,
      lookupKey_add_if_last, h]

theorem member_unloading_point (env : Engine) (s : global_ship) :
    (marshalShip env s).member "unloading_point"
      = if s.unloading_point = "" then none else some (json_string s.unloading_point) := by
  by_cases h : s.unloading_point = "" <;>
    simp [marshalShip, json_value_t.member, lookupKey_add, lookupKey_add_if,
      lookupKey_add_if_last, h]

theorem location_member_colony (l : global_location) :
    (marshalLocation l).member "colony"
      = if l.colony = "" then none else some (json_string l.colony) := by
  by_cases h : l.colony = "" <;>
    simp [marshalLocation, json_value_t.member, lookupKey_add, lookupKey_add_if,
      lookupKey_add_if_last, h]

theorem location_member_x (l : global_location) :
    (marshalLocation l).member "x" = if l.colony = "" then some (json_number l.x) else none := by
  by_cases h : l.colony = "" <;>
    simp [marshalLocation, json_value_t.member, lookupKey_add, lookupKey_add_if,
      lookupKey_add_if_last, h]

theorem location_member_y (l : global_location) :
    (marshalLocation l).member "y" = if l.colony = "" then some (json_number l.y) else none := by
  by_cases h : l.colony = "" <;>
    simp [marshalLocation, json_value_t.member, lookupKey_add, lookupKey_add_if,
      lookupKey_add_if_last, h]

theorem location_member_z (l : global_location) :
    (marshalLocation l).member "z" = if l.colony = "" then some (json_number l.z) else none := by
  by_cases h : l.colony = "" <;>
    simp [marshalLocation, json_value_t.member, lookupKey_add, lookupKey_add_if,
      lookupKey_add_if_last, h]

theorem mapOpt_mem {α β : Type} (f : α → Option β) :
    ∀ (l : List α) (r : List β), mapOpt f l = some r →
      (∀ a, a ∈ l → ∃ b, b ∈ r ∧ f a = some b) ∧ (∀ b, b ∈ r → ∃ a, a ∈ l ∧ f a = some b) := by
  intro l
  induction l with
  | nil =>
    intro r h
    simp [mapOpt] at h
    subst h
    simp
  | cons a l ih =>
    intro r h
    unfold mapOpt at h
    cases hfa : f a with
    | none => simp [hfa] at h
    | some b =>
      cases hrest : mapOpt f l with
      | none => simp [hfa, hrest] at h
      | some bs =>
        simp [hfa, hrest] at h
        subst h
        obtain ⟨h1, h2⟩ := ih bs hrest
        constructor
        · intro x hx
          rcases List.mem_cons.mp hx with rfl | hx
          · exact ⟨b, List.mem_cons_self _ _, hfa⟩
          · obtain ⟨y, hy, hfy⟩ := h1 x hx
            exact ⟨y, List.mem_cons_of_mem _ hy, hfy⟩
        · intro y hy
          rcases List.mem_cons.mp hy with rfl | hy
          · exact ⟨a, List.mem_cons_self _ _, hfa⟩
          · obtain ⟨x, hx, hfx⟩ := h2 y hy
            exact ⟨x, List.mem_cons_of_mem _ hx, hfx⟩

/-- A colony built against the systems of the store is at `(x, y, z)` exactly when its
record resolves there. -/
theorem exportColony_isAt (env : Engine) (n : Nat) (stars : List star_data)
    (systems : List global_system) (hsys : mapOpt (exportSystem env n) stars = some systems)
    (c : Nat) (nampla : nampla_data) (x y z : Int) :
    (exportColony env systems c nampla).isAt x y z = nampla.resolvesAt stars x y z := by
  obtain ⟨hfwd, hbwd⟩ := mapOpt_mem _ _ _ hsys
  unfold global_colony.isAt nampla_data.resolvesAt
  have hloc : (exportColony env systems c nampla).location.system
      = findSystem systems nampla.system.x nampla.system.y nampla.system.z := rfl
  rw [hloc]
  cases hf : findSystem systems nampla.system.x nampla.system.y nampla.system.z with
  | none =>
    unfold findSystem at hf
    rw [List.find?_eq_none] at hf
    have hany : (stars.any fun star =>
        nampla.system.x == star.x && nampla.system.y == star.y &&
          nampla.system.z == star.z) = false := by
      rw [Bool.eq_false_iff]
      intro hany
      rw [List.any_eq_true] at hany
      obtain ⟨star, hstar, hp⟩ := hany
      obtain ⟨sys, hsysmem, hbuild⟩ := hfwd star hstar
      obtain ⟨hrec, _⟩ := exportSystem_some env n star sys hbuild
      apply hf sys hsysmem
      rw [hrec]
      exact hp
    simp [hany]
  | some sys =>
    unfold findSystem at hf
    have hp := List.find?_some hf
    have hmem := List.mem_of_find?_eq_some hf
    obtain ⟨star, hstar, hbuild⟩ := hbwd sys hmem
    obtain ⟨hrec, _⟩ := exportSystem_some env n star sys hbuild
    have hany : (stars.any fun star =>
        nampla.system.x == star.x && nampla.system.y == star.y &&
          nampla.system.z == star.z) = true := by
      rw [List.any_eq_true]
      refine ⟨star, hstar, ?_⟩
      rw [hrec] at hp
      exact hp
    simp only [Bool.and_eq_true, beq_iff_eq] at hp
    obtain ⟨⟨hx, hy⟩, hz⟩ := hp
    rw [hany, hx, hy, hz]
    simp

theorem exportColonies_find?_name (env : Engine) (n : Nat) (stars : List star_data)
    (systems : List global_system) (hsys : mapOpt (exportSystem env n) stars = some systems)
    (x y z : Int) :
    ∀ (l : List nampla_data) (c : Nat),
      ((exportColonies env systems c l).find? fun col => col.isAt x y z).map (fun col => col.name)
        = (l.find? fun nampla => nampla.resolvesAt stars x y z).map (fun nampla => nampla.name) := by
  intro l
  induction l with
  | nil =>
    intro c
    simp [exportColonies]
  | cons a l ih =>
    intro c
    simp only [exportColonies, List.find?_cons]
    rw [exportColony_isAt env n stars systems hsys c a x y z]
    cases a.resolvesAt stars x y z with
    | true => rfl
    | false => exact ih (c + 1)

theorem findColonyName_some :
    ∀ (cols : List global_colony) (x y z : Int) (name : String),
      findColonyName cols x y z = some name →
      name = ((cols.find? fun col => col.isAt x y z).map fun col => col.name).getD "" := by
  intro cols
  induction cols with
  | nil =>
    intro x y z name h
    simp [findColonyName] at h
    simp [h]
  | cons c cols ih =>
    intro x y z name h
    unfold findColonyName at h
    cases hsys : c.location.system with
    | none => simp [hsys] at h
    | some sys =>
      simp only [hsys] at h
      by_cases hp : (sys.x == x && sys.y == y && sys.z == z) = true
      · rw [if_pos hp] at h
        injection h with h
        simp [List.find?_cons, global_colony.isAt, hsys, hp, h]
      · rw [if_neg hp] at h
        have := ih x y z name h
        simp only [Bool.not_eq_true] at hp
        simp [List.find?_cons, global_colony.isAt, hsys, hp, this]

theorem exportColonies_name_at (env : Engine) (systems : List global_system)
    (l : List nampla_data) (k : Nat) :
    ((exportColonies env systems 0 l)[k]?).map (fun col => col.name)
      = (l[k]?).map (fun nampla => nampla.name) := by
  rw [exportColonies_getElem?]
  cases l[k]? <;> simp [exportColony]

/-- The name a loading or unloading point resolves to against the colonies built from
the namplas of a species, in terms of the nampla records. -/
theorem resolvePoint_exportColonies (env : Engine) (systems : List global_system)
    (l : List nampla_data) (point : Int) (name : String)
    (h : resolvePoint (exportColonies env systems 0 l) point = some name) :
    (point = 9999 → ∃ nampla, l[0]? = some nampla ∧ name = nampla.name) ∧
    (point ≠ 9999 → 0 < point → ∃ nampla, l[point.toNat]? = some nampla ∧ name = nampla.name) ∧
    (point ≠ 9999 → point ≤ 0 → name = "") := by
  unfold resolvePoint at h
  by_cases h9 : point = 9999
  · rw [if_pos h9] at h
    have hn := exportColonies_name_at env systems l 0
    refine ⟨fun _ => ?_, fun hne => absurd h9 hne, fun hne => absurd h9 hne⟩
    cases hc : (exportColonies env systems 0 l)[0]? with
    | none => simp [hc] at h
    | some c =>
      simp only [hc, Option.some.injEq] at h
      rw [hc] at hn
      cases hl : l[0]? with
      | none => simp [hl] at hn
      | some nampla =>
        rw [hl] at hn
        simp at hn
        exact ⟨nampla, rfl, by rw [← h, hn]⟩
  · rw [if_neg h9] at h
    by_cases hpos : point > 0
    · rw [if_pos hpos] at h
      have hn := exportColonies_name_at env systems l point.toNat
      refine ⟨fun h' => absurd h' h9, fun _ _ => ?_, fun _ hle => absurd hpos (by omega)⟩
      cases hc : (exportColonies env systems 0 l)[point.toNat]? with
      | none => simp [hc] at h
      | some c =>
        simp only [hc, Option.some.injEq] at h
        rw [hc] at hn
        cases hl : l[point.toNat]? with
        | none => simp [hl] at hn
        | some nampla =>
          rw [hl] at hn
          simp at hn
          exact ⟨nampla, rfl, by rw [← h, hn]⟩
    · rw [if_neg hpos] at h
      injection h with h
      exact ⟨fun h' => absurd h' h9, fun _ hp => absurd hp hpos, fun _ _ => h.symm⟩

/-- The ship built from a ship record: what its fields are. -/
theorem exportShip_some (env : Engine) (colonies : List global_colony) (ship : ship_data)
    (p : global_ship) (h : exportShip env colonies ship = some p) :
    resolvePoint colonies ship.loading_point = some p.loading_point ∧
    findColonyName colonies ship.x ship.y ship.z = some p.location.colony ∧
    resolvePoint colonies ship.unloading_point = some p.unloading_point ∧
    p = { id := 0, name := env.shipDisplayName ship, age := ship.age,
          arrived_via_wormhole := ship.arrived_via_wormhole,
          inventory := exportInventory env ship.item_quantity,
          location :=
            { x := ship.x, y := ship.y, z := ship.z, orbit := ship.pn,
              colony := p.location.colony,
              deep_space := if ship.status = env.IN_DEEP_SPACE then 1 else 0,
              in_orbit := if ship.status = env.IN_ORBIT then 1 else 0,
              on_surface := if ship.status = env.ON_SURFACE then 1 else 0,
              system := none, planet := none },
          destination :=
            { x := ship.dest_x, y := ship.dest_y, z := ship.dest_z, orbit := 0,
              colony := "", deep_space := 0, in_orbit := 0, on_surface := 0,
              system := none, planet := none },
          just_jumped := ship.just_jumped, loading_point := p.loading_point,
          remaining_cost := ship.remaining_cost, special := ship.special,
          status := ship.status,
          tonnage := if ship.ship_class = env.BA then ship.tonnage else 0,
          unloading_point := p.unloading_point } := by
  unfold exportShip at h
  cases h1 : resolvePoint colonies ship.loading_point with
  | none => simp [h1] at h
  | some lp =>
    cases h2 : findColonyName colonies ship.x ship.y ship.z with
    | none => simp [h1, h2] at h
    | some col =>
      cases h3 : resolvePoint colonies ship.unloading_point with
      | none => simp [h1, h2, h3] at h
      | some up =>
        simp only [h1, h2, h3, Option.some.injEq] at h
        subst h
        exact ⟨rfl, rfl, rfl, rfl⟩

/-- The export of the second store of the examples is defined and is the expected
document. -/
theorem exportDocument_namelessStore :
    exportDocument sampleEngine namelessStore = some namelessDocument := by
  rfl

/-- Witness of C5 on the store of the examples: the colony "Homeworld" of the first
species, which holds two items. -/
theorem colony_inventory_exact_witness :
    ∃ snode cnode : json_value_t,
      (speciesNodes sampleDocument)[0]? = some snode ∧ (colonyNodes snode)[0]? = some cnode ∧
      ((∀ k, k < sampleEngine.MAX_ITEMS → sampleHomeworld.item_quantity k = 0) →
        cnode.member "inventory" = none) ∧
      (¬ (∀ k, k < sampleEngine.MAX_ITEMS → sampleHomeworld.item_quantity k = 0) →
        cnode.member "inventory" = some (json_value_t.map
          (((List.range sampleEngine.MAX_ITEMS).filter
              fun k => sampleHomeworld.item_quantity k != 0).map
            fun k => (sampleEngine.item_abbr k, json_number (sampleHomeworld.item_quantity k))))) ∧
      (∀ inv, cnode.member "inventory" = some inv →
        ∀ kv, kv ∈ inv.members → kv.2 ≠ json_number 0) :=
  colony_inventory_exact sampleEngine sampleStore sampleDocument exportDocument_sampleStore
    0 sampleSpecies1 rfl 0 sampleHomeworld rfl

/-! ## The location of a ship -/

/-- The colony name placed in the location of a ship, in terms of the records of the
store: the name of the first colony record of the species that resolves at the
coordinates of the ship, the empty string when there is none. -/
theorem ship_location_colony (env : Engine) (st : Store) (g : global_data)
    (hg : exportData env st = some g) (sp : species_data) (ship : ship_data) (p : global_ship)
    (hp : exportShip env (exportColonies env g.cluster.systems 0 sp.namplas) ship = some p) :
    p.location.colony
      = ((sp.namplas.find? fun nampla =>
            nampla.resolvesAt st.star_base ship.x ship.y ship.z).map
          fun nampla => nampla.name).getD "" := by
  obtain ⟨_, hfind, _, _⟩ := exportShip_some env _ ship p hp
  have hsys := (exportData_some env st g hg).2.2.2.2.1
  rw [findColonyName_some _ _ _ _ _ hfind,
    exportColonies_find?_name env st.num_species st.star_base g.cluster.systems hsys]

/-- C6 fails as stated: in the second store of the examples the colony of the species
resolves at the coordinates (10, 20, 30) of the ship, yet the location node of the ship
has no `colony` member, because the name of that colony is empty. -/
theorem ship_colony_iff_match_counterexample :
    exportedShips namelessSpecies = [namelessShip] ∧
    (namelessSpecies.namplas.any fun nampla =>
      nampla.resolvesAt namelessStore.star_base namelessShip.x namelessShip.y namelessShip.z)
      = true ∧
    ∃ doc snode shnode loc : json_value_t,
      exportDocument sampleEngine namelessStore = some doc ∧
      (speciesNodes doc)[0]? = some snode ∧ (shipNodes snode)[0]? = some shnode ∧
      shnode.member "location" = some loc ∧ loc.member "colony" = none :=
  ⟨rfl, rfl, namelessDocument, namelessSpeciesNode, namelessShipNode, _,
    exportDocument_namelessStore, rfl, rfl, rfl, rfl⟩

/-- C6, amended: for every exported ship of a store on which the export is defined, the
`location` node holds exactly one of the two positional forms, the member `colony` or
the members `x`, `y`, `z` (never both, never neither), `x` and `y` being the stored
coordinates of the ship; `colony` is present if and only if some colony record of the
owning species resolves to a system with the coordinates `(x, y, z)` of the ship and the
first such record has a non-empty name, and `colony` is then that name. -/
theorem ship_location_one_form (env : Engine) (st : Store) (doc : json_value_t)
    (hdoc : exportDocument env st = some doc) (i : Nat) (sp : species_data)
    (hsp : st.spec_data[i]? = some sp) (t : Nat) (ship : ship_data)
    (ht : (exportedShips sp)[t]? = some ship) :
    ∃ snode shnode loc : json_value_t,
      (speciesNodes doc)[i]? = some snode ∧ (shipNodes snode)[t]? = some shnode ∧
      shnode.member "location" = some loc ∧
      ((loc.member "colony" ≠ none ∧ loc.member "x" = none ∧ loc.member "y" = none ∧
          loc.member "z" = none) ∨
        (loc.member "colony" = none ∧ loc.member "x" = some (json_number ship.x) ∧
          loc.member "y" = some (json_number ship.y) ∧ loc.member "z" ≠ none)) ∧
      (loc.member "colony" ≠ none ↔
        ∃ nampla : nampla_data,
          sp.namplas.find? (fun nampla =>
            nampla.resolvesAt st.star_base ship.x ship.y ship.z) = some nampla ∧
          nampla.name ≠ "") ∧
      (∀ nampla : nampla_data,
        sp.namplas.find? (fun nampla =>
          nampla.resolvesAt st.star_base ship.x ship.y ship.z) = some nampla →
        nampla.name ≠ "" → loc.member "colony" = some (json_string nampla.name)) := by
  obtain ⟨g, hg, rfl⟩ := exportDocument_some env st doc hdoc
  obtain ⟨snode, p, hs, hp, hsh⟩ := shipNodes_at env st g hg i sp hsp t ship ht
  have hcol := ship_location_colony env st g hg sp ship p hp
  obtain ⟨_, _, _, hrec⟩ := exportShip_some env _ ship p hp
  have hx : p.location.x = ship.x := by rw [hrec]
  have hy : p.location.y = ship.y := by rw [hrec]
  have hz : p.location.z = ship.z := by rw [hrec]
  refine ⟨snode, marshalShip env p, marshalLocation p.location, hs, hsh,
    member_location env p, ?_, ?_, ?_⟩
  · rw [location_member_colony, location_member_x, location_member_y, location_member_z,
      hx, hy, hz]
    by_cases he : p.location.colony = ""
    · right
      simp [he]
    · left
      simp [he]
  · rw [location_member_colony, hcol]
    cases hf : sp.namplas.find? (fun nampla =>
        nampla.resolvesAt st.star_base ship.x ship.y ship.z) with
    | none => simp
    | some nampla =>
      by_cases hn : nampla.name = "" <;> simp [hn]
  · intro nampla hf hn
    rw [location_member_colony, hcol, hf]
    simp [hn]

/-- Witness of C6 (amended) on the store of the examples: the ship of the first
species. -/
theorem ship_location_one_form_witness :
    ∃ snode shnode loc : json_value_t,
      (speciesNodes sampleDocument)[0]? = some snode ∧ (shipNodes snode)[0]? = some shnode ∧
      shnode.member "location" = some loc ∧
      ((loc.member "colony" ≠ none ∧ loc.member "x" = none ∧ loc.member "y" = none ∧
          loc.member "z" = none) ∨
        (loc.member "colony" = none ∧ loc.member "x" = some (json_number sampleScout.x) ∧
          loc.member "y" = some (json_number sampleScout.y) ∧ loc.member "z" ≠ none)) ∧
      (loc.member "colony" ≠ none ↔
        ∃ nampla : nampla_data,
          sampleSpecies1.namplas.find? (fun nampla =>
            nampla.resolvesAt sampleStore.star_base sampleScout.x sampleScout.y sampleScout.z)
            = some nampla ∧
          nampla.name ≠ "") ∧
      (∀ nampla : nampla_data,
        sampleSpecies1.namplas.find? (fun nampla =>
          nampla.resolvesAt sampleStore.star_base sampleScout.x sampleScout.y sampleScout.z)
          = some nampla →
        nampla.name ≠ "" → loc.member "colony" = some (json_string nampla.name)) :=
  ship_location_one_form sampleEngine sampleStore sampleDocument exportDocument_sampleStore
    0 sampleSpecies1 rfl 0 sampleScout rfl

/-! ## Loading and unloading points -/

/-- The member that a resolved loading or unloading point yields: none for the empty
buffer, the string otherwise. -/
theorem point_member_of_resolve (env : Engine) (systems : List global_system)
    (l : List nampla_data) (point : Int) (name : String) (m : Option json_value_t)
    (h : resolvePoint (exportColonies env systems 0 l) point = some name)
    (hm : m = if name = "" then none else some (json_string name)) :
    (point = 9999 → ∃ nampla : nampla_data, l[0]? = some nampla ∧
      m = if nampla.name = "" then none else some (json_string nampla.name)) ∧
    (point = 0 → m = none) ∧
    (0 < point → point ≠ 9999 → ∃ nampla : nampla_data, l[point.toNat]? = some nampla ∧
      m = if nampla.name = "" then none else some (json_string nampla.name)) := by
  obtain ⟨h1, h2, h3⟩ := resolvePoint_exportColonies env systems l point name h
  refine ⟨?_, ?_, ?_⟩
  · intro h9
    obtain ⟨nampla, hn, hname⟩ := h1 h9
    exact ⟨nampla, hn, by rw [hm, hname]⟩
  · intro h0
    have : name = "" := h3 (by omega) (by omega)
    rw [hm, this]
    rfl
  · intro hpos hne
    obtain ⟨nampla, hn, hname⟩ := h2 hne hpos
    exact ⟨nampla, hn, by rw [hm, hname]⟩

/-- C7 fails as stated: in the second store of the examples the ship has loading point
9999 and the species has a first colony, yet the ship node has no `loading_point`
member (and no `unloading_point` member), because the name of that colony is empty. -/
theorem loading_point_9999_counterexample :
    exportedShips namelessSpecies = [namelessShip] ∧
    namelessShip.loading_point = 9999 ∧ namelessShip.unloading_point = 9999 ∧
    (namelessSpecies.namplas[0]?).isSome = true ∧
    ∃ doc snode shnode : json_value_t,
      exportDocument sampleEngine namelessStore = some doc ∧
      (speciesNodes doc)[0]? = some snode ∧ (shipNodes snode)[0]? = some shnode ∧
      shnode.member "loading_point" = none ∧ shnode.member "unloading_point" = none :=
  ⟨rfl, rfl, rfl, rfl, namelessDocument, namelessSpeciesNode, namelessShipNode,
    exportDocument_namelessStore, rfl, rfl, rfl, rfl⟩

/-- C7, amended: for every exported ship of a store on which the export is defined: a
stored loading_point of 9999 yields a `loading_point` member equal to the name of the
first colony of the species when that name is not empty, and no member when it is empty;
a stored value of 0 yields no `loading_point` member; a stored value `v` with `0 < v`,
`v ≠ 9999` yields in the same way the name of the colony at index `v` of the colony
sequence of the species.  The same three rules hold for unloading_point and
`unloading_point`. -/
theorem loading_point_resolution (env : Engine) (st : Store) (doc : json_value_t)
    (hdoc : exportDocument env st = some doc) (i : Nat) (sp : species_data)
    (hsp : st.spec_data[i]? = some sp) (t : Nat) (ship : ship_data)
    (ht : (exportedShips sp)[t]? = some ship) :
    ∃ snode shnode : json_value_t,
      (speciesNodes doc)[i]? = some snode ∧ (shipNodes snode)[t]? = some shnode ∧
      ((ship.loading_point = 9999 → ∃ nampla : nampla_data, sp.namplas[0]? = some nampla ∧
          shnode.member "loading_point"
            = if nampla.name = "" then none else some (json_string nampla.name)) ∧
        (ship.loading_point = 0 → shnode.member "loading_point" = none) ∧
        (0 < ship.loading_point → ship.loading_point ≠ 9999 →
          ∃ nampla : nampla_data, sp.namplas[ship.loading_point.toNat]? = some nampla ∧
            shnode.member "loading_point"
              = if nampla.name = "" then none else some (json_string nampla.name))) ∧
      ((ship.unloading_point = 9999 → ∃ nampla : nampla_data, sp.namplas[0]? = some nampla ∧
          shnode.member "unloading_point"
            = if nampla.name = "" then none else some (json_string nampla.name)) ∧
        (ship.unloading_point = 0 → shnode.member "unloading_point" = none) ∧
        (0 < ship.unloading_point → ship.unloading_point ≠ 9999 →
          ∃ nampla : nampla_data, sp.namplas[ship.unloading_point.toNat]? = some nampla ∧
            shnode.member "unloading_point"
              = if nampla.name = "" then none else some (json_string nampla.name))) := by
  obtain ⟨g, hg, rfl⟩ := exportDocument_some env st doc hdoc
  obtain ⟨snode, p, hs, hp, hsh⟩ := shipNodes_at env st g hg i sp hsp t ship ht
  obtain ⟨hload, _, hunload, _⟩ := exportShip_some env _ ship p hp
  exact ⟨snode, marshalShip env p, hs, hsh,
    point_member_of_resolve env _ _ _ _ _ hload (member_loading_point env p),
    point_member_of_resolve env _ _ _ _ _ hunload (member_unloading_point env p)⟩

/-- Witness of C7 (amended) on the store of the examples: the ship of the first species,
whose loading point is 9999 and whose unloading point is 0. -/
theorem loading_point_resolution_witness :
    ∃ snode shnode : json_value_t,
      (speciesNodes sampleDocument)[0]? = some snode ∧ (shipNodes snode)[0]? = some shnode ∧
      ((sampleScout.loading_point = 9999 →
          ∃ nampla : nampla_data, sampleSpecies1.namplas[0]? = some nampla ∧
            shnode.member "loading_point"
              = if nampla.name = "" then none else some (json_string nampla.name)) ∧
        (sampleScout.loading_point = 0 → shnode.member "loading_point" = none) ∧
        (0 < sampleScout.loading_point → sampleScout.loading_point ≠ 9999 →
          ∃ nampla : nampla_data,
            sampleSpecies1.namplas[sampleScout.loading_point.toNat]? = some nampla ∧
            shnode.member "loading_point"
              = if nampla.name = "" then none else some (json_string nampla.name))) ∧
      ((sampleScout.unloading_point = 9999 →
          ∃ nampla : nampla_data, sampleSpecies1.namplas[0]? = some nampla ∧
            shnode.member "unloading_point"
              = if nampla.name = "" then none else some (json_string nampla.name)) ∧
        (sampleScout.unloading_point = 0 → shnode.member "unloading_point" = none) ∧
        (0 < sampleScout.unloading_point → sampleScout.unloading_point ≠ 9999 →
          ∃ nampla : nampla_data,
            sampleSpecies1.namplas[sampleScout.unloading_point.toNat]? = some nampla ∧
            shnode.member "unloading_point"
              = if nampla.name = "" then none else some (json_string nampla.name))) :=
  loading_point_resolution sampleEngine sampleStore sampleDocument exportDocument_sampleStore
    0 sampleSpecies1 rfl 0 sampleScout rfl

/-! ## Planet nodes -/

theorem member_planets (env : Engine) (s : global_system) :
    (marshalSystem env s).member "planets" = some (marshalPlanets s.planets) := by
  simp only [marshalSystem, json_value_t.member, List.append_assoc, lookupKey_add,
    lookupKey_add_if, lookupKey_add_opt]
  cases marshalFlags env s.visited_by <;> simp [lookupKey_add_last]

theorem planetNodes_marshalSystem (env : Engine) (s : global_system) :
    planetNodes (marshalSystem env s) = s.planets.map marshalPlanet := by
  simp [planetNodes, member_planets, marshalPlanets, json_value_t.elements]

/-- The planet node at position `q` of the system node at position `j` is the marshalled
planet built from the planet record at position `q` of the star at position `j`. -/
theorem planetNodes_at (env : Engine) (st : Store) (g : global_data)
    (hg : exportData env st = some g) (j : Nat) (star : star_data)
    (hstar : st.star_base[j]? = some star) (q : Nat) (planet : planet_data)
    (hq : star.planets[q]? = some planet) :
    ∃ snode : json_value_t,
      (systemNodes (marshalGlobals env g))[j]? = some snode ∧
      (planetNodes snode)[q]? = some (marshalPlanet (exportPlanet env planet)) := by
  obtain ⟨s, hs, _, hnode⟩ := systemNodes_at env st g hg j star hstar
  obtain ⟨hrec, _⟩ := exportSystem_some env st.num_species star s hs
  refine ⟨marshalSystem env s, hnode, ?_⟩
  rw [planetNodes_marshalSystem, hrec]
  simp [hq]

theorem member_ideal_home_planet (p : global_planet) :
    (marshalPlanet p).member "ideal_home_planet"
      = if p.idealHomePlanet = 0 then none else some (json_value_t.boolean true) := by
  by_cases h : p.idealHomePlanet = 0 <;>
    simp [marshalPlanet, json_value_t.member, lookupKey_add, lookupKey_add_if,
      lookupKey_add_last, json_boolean, h]

theorem member_ideal_colony_planet (p : global_planet) :
    (marshalPlanet p).member "ideal_colony_planet"
      = if p.idealColonyPlanet = 0 then none else some (json_value_t.boolean true) := by
  by_cases h : p.idealColonyPlanet = 0 <;>
    simp [marshalPlanet, json_value_t.member, lookupKey_add, lookupKey_add_if,
      lookupKey_add_last, json_boolean, h]

theorem member_radioactive_hell_hole (p : global_planet) :
    (marshalPlanet p).member "radioactive_hell_hole"
      = if p.radioactiveHellHole = 0 then none else some (json_value_t.boolean true) := by
  by_cases h : p.radioactiveHellHole = 0 <;>
    simp [marshalPlanet, json_value_t.member, lookupKey_add, lookupKey_add_if,
      lookupKey_add_last, json_boolean, h]

/-- C8: for every planet record of a store on which the export is defined, each of the
members `ideal_home_planet`, `ideal_colony_planet`, `radioactive_hell_hole` appears in the
document node of the planet exactly when the stored special code is 1, 2, 3
respectively, so at most one of the three appears; in particular a planet whose special
code is 3 has `radioactive_hell_hole` (true) and neither of the other two. -/
theorem planet_special_flags_exclusive (env : Engine) (st : Store) (doc : json_value_t)
    (hdoc : exportDocument env st = some doc) (j : Nat) (star : star_data)
    (hstar : st.star_base[j]? = some star) (q : Nat) (planet : planet_data)
    (hq : star.planets[q]? = some planet) :
    ∃ snode pnode : json_value_t,
      (systemNodes doc)[j]? = some snode ∧ (planetNodes snode)[q]? = some pnode ∧
      (pnode.member "ideal_home_planet" ≠ none ↔ planet.special = 1) ∧
      (pnode.member "ideal_colony_planet" ≠ none ↔ planet.special = 2) ∧
      (pnode.member "radioactive_hell_hole" ≠ none ↔ planet.special = 3) ∧
      ¬ (pnode.member "ideal_home_planet" ≠ none ∧ pnode.member "ideal_colony_planet" ≠ none) ∧
      ¬ (pnode.member "ideal_home_planet" ≠ none ∧
          pnode.member "radioactive_hell_hole" ≠ none) ∧
      ¬ (pnode.member "ideal_colony_planet" ≠ none ∧
          pnode.member "radioactive_hell_hole" ≠ none) ∧
      (planet.special = 3 →
        pnode.member "radioactive_hell_hole" = some (json_value_t.boolean true) ∧
        pnode.member "ideal_home_planet" = none ∧
        pnode.member "ideal_colony_planet" = none) := by
  obtain ⟨g, hg, rfl⟩ := exportDocument_some env st doc hdoc
  obtain ⟨snode, hs, hp⟩ := planetNodes_at env st g hg j star hstar q planet hq
  refine ⟨snode, _, hs, hp, ?_⟩
  rw [member_ideal_home_planet, member_ideal_colony_planet, member_radioactive_hell_hole]
  simp only [exportPlanet]
  by_cases h1 : planet.special = 1
  · simp [h1]
  · by_cases h2 : planet.special = 2
    · simp [h2]
    · by_cases h3 : planet.special = 3
      · simp [h3]
      · simp [h1, h2, h3]

/-- Witness of C8 on the store of the examples: the planet at orbit 2 of the star, whose
special code is 3. -/
theorem planet_special_flags_exclusive_witness :
    ∃ snode pnode : json_value_t,
      (systemNodes sampleDocument)[0]? = some snode ∧ (planetNodes snode)[1]? = some pnode ∧
      (pnode.member "ideal_home_planet" ≠ none ↔ sampleHellPlanet.special = 1) ∧
      (pnode.member "ideal_colony_planet" ≠ none ↔ sampleHellPlanet.special = 2) ∧
      (pnode.member "radioactive_hell_hole" ≠ none ↔ sampleHellPlanet.special = 3) ∧
      ¬ (pnode.member "ideal_home_planet" ≠ none ∧ pnode.member "ideal_colony_planet" ≠ none) ∧
      ¬ (pnode.member "ideal_home_planet" ≠ none ∧
          pnode.member "radioactive_hell_hole" ≠ none) ∧
      ¬ (pnode.member "ideal_colony_planet" ≠ none ∧
          pnode.member "radioactive_hell_hole" ≠ none) ∧
      (sampleHellPlanet.special = 3 →
        pnode.member "radioactive_hell_hole" = some (json_value_t.boolean true) ∧
        pnode.member "ideal_home_planet" = none ∧
        pnode.member "ideal_colony_planet" = none) :=
  planet_special_flags_exclusive sampleEngine sampleStore sampleDocument
    exportDocument_sampleStore 0 sampleStar rfl 1 sampleHellPlanet rfl

/-! ## The end-to-end scenario -/

theorem member_system (c : global_colony) :
    (marshalColony c).member "system"
      = c.location.system.map fun system => json_number system.id := by
  simp only [marshalColony, json_value_t.member, List.append_assoc, lookupKey_add]
  cases c.location.system <;> cases c.location.planet <;>
    simp [lookupKey, lookupKey_add, lookupKey_add_if, lookupKey_add_opt, lookupKey_add_last,
      lookupKey_add_if_last]

theorem member_orbit (c : global_colony) :
    (marshalColony c).member "orbit"
      = match c.location.system, c.location.planet with
        | some _, some planet => some (json_number planet.orbit)
        | _, _ => none := by
  simp only [marshalColony, json_value_t.member, List.append_assoc, lookupKey_add]
  cases c.location.system <;> cases c.location.planet <;>
    simp [lookupKey, lookupKey_add, lookupKey_add_if, lookupKey_add_opt, lookupKey_add_last,
      lookupKey_add_if_last]

/-- The location of the ship built from a ship record, field by field. -/
theorem exportShip_location (env : Engine) (colonies : List global_colony) (ship : ship_data)
    (p : global_ship) (h : exportShip env colonies ship = some p) :
    p.location
      = { x := ship.x, y := ship.y, z := ship.z, orbit := ship.pn,
          colony := p.location.colony,
          deep_space := if ship.status = env.IN_DEEP_SPACE then 1 else 0,
          in_orbit := if ship.status = env.IN_ORBIT then 1 else 0,
          on_surface := if ship.status = env.ON_SURFACE then 1 else 0,
          system := none, planet := none } := by
  obtain ⟨_, _, _, hrec⟩ := exportShip_some env colonies ship p h
  exact congrArg global_ship.location hrec

/-- The location node of a ship in deep space whose location resolved to a colony name,
and of one at orbit 0 whose location did not. -/
theorem marshalLocation_deep_space (env : Engine) (ship : ship_data) (colony : String)
    (hstatus : ship.status = env.IN_DEEP_SPACE)
    (hio : env.IN_ORBIT ≠ env.IN_DEEP_SPACE) (hos : env.ON_SURFACE ≠ env.IN_DEEP_SPACE) :
    (colony ≠ "" →
      marshalLocation
          { x := ship.x, y := ship.y, z := ship.z, orbit := ship.pn, colony := colony,
            deep_space := if ship.status = env.IN_DEEP_SPACE then 1 else 0,
            in_orbit := if ship.status = env.IN_ORBIT then 1 else 0,
            on_surface := if ship.status = env.ON_SURFACE then 1 else 0,
            system := none, planet := none }
        = json_value_t.map
            [("colony", json_string colony), ("deep_space", json_value_t.boolean true)]) ∧
    (colony = "" → ship.pn = 0 →
      marshalLocation
          { x := ship.x, y := ship.y, z := ship.z, orbit := ship.pn, colony := colony,
            deep_space := if ship.status = env.IN_DEEP_SPACE then 1 else 0,
            in_orbit := if ship.status = env.IN_ORBIT then 1 else 0,
            on_surface := if ship.status = env.ON_SURFACE then 1 else 0,
            system := none, planet := none }
        = json_value_t.map
            [("x", json_number ship.x), ("y", json_number ship.y), ("z", json_number ship.z),
             ("deep_space", json_value_t.boolean true)]) := by
  have h1 : ¬ env.IN_DEEP_SPACE = env.IN_ORBIT := fun h => hio h.symm
  have h2 : ¬ env.IN_DEEP_SPACE = env.ON_SURFACE := fun h => hos h.symm
  constructor
  · intro hc
    simp [marshalLocation, json_add, json_add_if, json_boolean, hc, hstatus, h1, h2]
  · intro hc hpn
    simp [marshalLocation, json_add, json_add_if, json_boolean, hc, hpn, hstatus, h1, h2]

/-- The colony nodes and the ship nodes of the species node built from a roster
record. -/
theorem species_children (env : Engine) (systems : List global_system) (n i : Nat)
    (sp : species_data) (s : global_species)
    (hs : exportSpecies env systems n i sp = some s) :
    (∀ (c : Nat) (nampla : nampla_data), sp.namplas[c]? = some nampla →
      (colonyNodes (marshalSpecie env s))[c]?
        = some (marshalColony (exportColony env systems c nampla))) ∧
    (∀ (t : Nat) (ship : ship_data), (exportedShips sp)[t]? = some ship →
      ∃ p : global_ship,
        exportShip env (exportColonies env systems 0 sp.namplas) ship = some p ∧
        (shipNodes (marshalSpecie env s))[t]? = some (marshalShip env p)) := by
  obtain ⟨hfields, hships, _⟩ := exportSpecies_some env systems n i sp s hs
  constructor
  · intro c nampla hc
    rw [colonyNodes_marshalSpecie, hfields]
    simp [exportColonies_getElem?, hc]
  · intro t ship ht
    obtain ⟨_, hidx⟩ := mapOpt_some _ _ _ hships
    obtain ⟨p, hp, hbuild⟩ := hidx t ship ht
    refine ⟨p, hbuild, ?_⟩
    rw [shipNodes_marshalSpecie]
    simp [hp]

/-- C9 fails as stated: in the store of the examples (one system at (10, 20, 30) with
planets at orbits 1 and 2, a species whose single colony "Homeworld" is at orbit 1 of
it) the ship of that species in deep space at (10, 20, 30) gets a location node that
carries `deep_space` next to `colony`, so the node is not the map that holds `colony`
alone. -/
theorem scenario_colony_form_counterexample :
    ∃ doc snode shnode loc : json_value_t,
      exportDocument sampleEngine sampleStore = some doc ∧
      (speciesNodes doc)[0]? = some snode ∧ (shipNodes snode)[0]? = some shnode ∧
      shnode.member "location" = some loc ∧
      loc.member "deep_space" = some (json_value_t.boolean true) ∧
      loc.keys = ["colony", "deep_space"] ∧
      loc ≠ json_value_t.map [("colony", json_string "Homeworld")] := by
  refine ⟨sampleDocument, sampleSpeciesNode1, sampleShipNode1, _,
    exportDocument_sampleStore, rfl, rfl, rfl, rfl, rfl, ?_⟩
  intro h
  have hk := congrArg json_value_t.keys h
  simp [json_value_t.keys] at hk

/-- C9, amended: for every store on which the export is defined that has one system, at
(10, 20, 30), holding planets at orbits 1 and 2, and a species whose single colony
"Homeworld" is at orbit 1 of that system: the colony node has `system` equal to the id
of the system and `orbit` equal to 1; a ship of that species in deep space at
(10, 20, 30) gets the location node that holds colony "Homeworld" and deep_space true;
and a ship in deep space at (10, 20, 30), orbit 0, owned by a species none of whose
colonies resolves at those coordinates gets the location node that holds x 10, y 20,
z 30 and deep_space true.  The status codes IN_ORBIT and ON_SURFACE differ from
IN_DEEP_SPACE. -/
theorem scenario_colony_and_ship_nodes (env : Engine) (st : Store) (doc : json_value_t)
    (hdoc : exportDocument env st = some doc)
    (hio : env.IN_ORBIT ≠ env.IN_DEEP_SPACE) (hos : env.ON_SURFACE ≠ env.IN_DEEP_SPACE)
    (star : star_data) (p1 p2 : planet_data) (hstars : st.star_base = [star])
    (hxyz : star.x = 10 ∧ star.y = 20 ∧ star.z = 30)
    (hplanets : star.planets = [p1, p2]) (horbits : p1.orbit = 1 ∧ p2.orbit = 2)
    (i : Nat) (sp : species_data) (hsp : st.spec_data[i]? = some sp)
    (nampla : nampla_data) (hnamplas : sp.namplas = [nampla])
    (hname : nampla.name = "Homeworld")
    (hnsys : nampla.system.x = 10 ∧ nampla.system.y = 20 ∧ nampla.system.z = 30)
    (hnorbit : nampla.planet.orbit = 1) :
    ∃ snode cnode : json_value_t,
      (speciesNodes doc)[i]? = some snode ∧ (colonyNodes snode)[0]? = some cnode ∧
      cnode.member "system" = some (json_number star.id) ∧
      cnode.member "orbit" = some (json_number 1) ∧
      (∀ (t : Nat) (ship : ship_data), (exportedShips sp)[t]? = some ship →
        ship.x = 10 → ship.y = 20 → ship.z = 30 → ship.status = env.IN_DEEP_SPACE →
        ∃ shnode : json_value_t, (shipNodes snode)[t]? = some shnode ∧
          shnode.member "location" = some (json_value_t.map
            [("colony", json_string "Homeworld"),
             ("deep_space", json_value_t.boolean true)])) ∧
      (∀ (i2 : Nat) (sp2 : species_data), st.spec_data[i2]? = some sp2 →
        (∀ other, other ∈ sp2.namplas → other.resolvesAt st.star_base 10 20 30 = false) →
        ∀ (t : Nat) (ship : ship_data), (exportedShips sp2)[t]? = some ship →
          ship.x = 10 → ship.y = 20 → ship.z = 30 → ship.pn = 0 →
          ship.status = env.IN_DEEP_SPACE →
          ∃ snode2 shnode : json_value_t,
            (speciesNodes doc)[i2]? = some snode2 ∧ (shipNodes snode2)[t]? = some shnode ∧
            shnode.member "location" = some (json_value_t.map
              [("x", json_number 10), ("y", json_number 20), ("z", json_number 30),
               ("deep_space", json_value_t.boolean true)])) := by
  obtain ⟨g, hg, rfl⟩ := exportDocument_some env st doc hdoc
  obtain ⟨hx, hy, hz⟩ := hxyz
  obtain ⟨ho1, ho2⟩ := horbits
  obtain ⟨hnx, hny, hnz⟩ := hnsys
  obtain ⟨s, hs, _, hnode⟩ := speciesNodes_at env st g hg i sp hsp
  obtain ⟨hcols, hshs⟩ := species_children env _ _ i sp s hs
  have hsys := (exportData_some env st g hg).2.2.2.2.1
  -- the single system of the cluster
  obtain ⟨sys, hbuild, hsys0, _⟩ := systemNodes_at env st g hg 0 star (by simp [hstars])
  obtain ⟨hlen, _⟩ := mapOpt_some _ _ _ hsys
  have hsystems : g.cluster.systems = [sys] := by
    rw [hstars] at hlen
    match hm : g.cluster.systems, hlen, hsys0 with
    | [a], _, h0 =>
      simp at h0
      rw [h0]
  obtain ⟨hrec, _⟩ := exportSystem_some env st.num_species star sys hbuild
  have hsx : sys.x = 10 := by rw [hrec]; exact hx
  have hsy : sys.y = 20 := by rw [hrec]; exact hy
  have hsz : sys.z = 30 := by rw [hrec]; exact hz
  have hsid : sys.id = star.id := by rw [hrec]
  have hspl : sys.planets = [exportPlanet env p1, exportPlanet env p2] := by
    rw [hrec]
    simp [hplanets]
  have hresolve : nampla.resolvesAt st.star_base 10 20 30 = true := by
    simp [nampla_data.resolvesAt, hstars, hx, hy, hz, hnx, hny, hnz]
  refine ⟨marshalSpecie env s, _, hnode, hcols 0 nampla (by simp [hnamplas]), ?_, ?_, ?_, ?_⟩
  · rw [member_system]
    simp [exportColony, findSystem, hsystems, hnx, hny, hnz, hsx, hsy, hsz, hsid]
  · rw [member_orbit]
    simp [exportColony, findSystem, findPlanet, hsystems, hnx, hny, hnz, hsx, hsy, hsz, hspl,
      exportPlanet, ho1, hnorbit]
  · intro t ship ht hsx' hsy' hsz' hstatus
    obtain ⟨p, hp, hshnode⟩ := hshs t ship ht
    have hcol := ship_location_colony env st g hg sp ship p hp
    rw [hnamplas, hsx', hsy', hsz'] at hcol
    simp [List.find?, hresolve, hname] at hcol
    refine ⟨marshalShip env p, hshnode, ?_⟩
    rw [member_location, exportShip_location env _ ship p hp, hcol]
    rw [(marshalLocation_deep_space env ship "Homeworld" hstatus hio hos).1 (by decide)]
  · intro i2 sp2 hsp2 hnone t ship ht hsx' hsy' hsz' hpn hstatus
    obtain ⟨s2, hs2, _, hnode2⟩ := speciesNodes_at env st g hg i2 sp2 hsp2
    obtain ⟨_, hshs2⟩ := species_children env _ _ i2 sp2 s2 hs2
    obtain ⟨p, hp, hshnode⟩ := hshs2 t ship ht
    have hcol := ship_location_colony env st g hg sp2 ship p hp
    have hfind : sp2.namplas.find? (fun other =>
        other.resolvesAt st.star_base ship.x ship.y ship.z) = none := by
      rw [List.find?_eq_none]
      intro other hmem
      rw [hsx', hsy', hsz', hnone other hmem]
      decide
    rw [hfind] at hcol
    simp at hcol
    refine ⟨marshalSpecie env s2, marshalShip env p, hnode2, hshnode, ?_⟩
    rw [member_location, exportShip_location env _ ship p hp, hcol]
    rw [(marshalLocation_deep_space env ship "" hstatus hio hos).2 rfl hpn, hsx', hsy', hsz']

/-- Witness of C9 (amended) on the store of the examples. -/
theorem scenario_colony_and_ship_nodes_witness :
    ∃ snode cnode : json_value_t,
      (speciesNodes sampleDocument)[0]? = some snode ∧ (colonyNodes snode)[0]? = some cnode ∧
      cnode.member "system" = some (json_number sampleStar.id) ∧
      cnode.member "orbit" = some (json_number 1) ∧
      (∀ (t : Nat) (ship : ship_data), (exportedShips sampleSpecies1)[t]? = some ship →
        ship.x = 10 → ship.y = 20 → ship.z = 30 → ship.status = sampleEngine.IN_DEEP_SPACE →
        ∃ shnode : json_value_t, (shipNodes snode)[t]? = some shnode ∧
          shnode.member "location" = some (json_value_t.map
            [("colony", json_string "Homeworld"),
             ("deep_space", json_value_t.boolean true)])) ∧
      (∀ (i2 : Nat) (sp2 : species_data), sampleStore.spec_data[i2]? = some sp2 →
        (∀ other, other ∈ sp2.namplas →
          other.resolvesAt sampleStore.star_base 10 20 30 = false) →
        ∀ (t : Nat) (ship : ship_data), (exportedShips sp2)[t]? = some ship →
          ship.x = 10 → ship.y = 20 → ship.z = 30 → ship.pn = 0 →
          ship.status = sampleEngine.IN_DEEP_SPACE →
          ∃ snode2 shnode : json_value_t,
            (speciesNodes sampleDocument)[i2]? = some snode2 ∧
            (shipNodes snode2)[t]? = some shnode ∧
            shnode.member "location" = some (json_value_t.map
              [("x", json_number 10), ("y", json_number 20), ("z", json_number 30),
               ("deep_space", json_value_t.boolean true)])) :=
  scenario_colony_and_ship_nodes sampleEngine sampleStore sampleDocument
    exportDocument_sampleStore (by decide) (by decide) sampleStar (samplePlanet 1 1)
    sampleHellPlanet rfl ⟨rfl, rfl, rfl⟩ rfl ⟨rfl, rfl⟩ 0 sampleSpecies1 rfl sampleHomeworld rfl
    rfl ⟨rfl, rfl, rfl⟩ rfl

/-! ## The presence rule for counters -/

theorem forallMembersIn_append (P : String → json_value_t → Bool)
    (a b : List (String × json_value_t)) :
    forallMembersIn P (a ++ b) = (forallMembersIn P a && forallMembersIn P b) := by
  induction a with
  | nil => simp [forallMembersIn]
  | cons p a ih =>
    obtain ⟨k, v⟩ := p
    simp [forallMembersIn, ih, Bool.and_assoc]

theorem forallMembersIn_add (P : String → json_value_t → Bool) (k : String)
    (v : json_value_t) :
    forallMembersIn P (json_add k v) = (P k v && v.forallMembers P) := by
  simp [json_add, forallMembersIn]

theorem forallMembersIn_add_if (P : String → json_value_t → Bool) (c : Bool) (k : String)
    (v : json_value_t) :
    forallMembersIn P (json_add_if c k v) = (!c || (P k v && v.forallMembers P)) := by
  cases c <;> simp [json_add_if, json_add, forallMembersIn]

theorem forallMembersIn_add_opt (P : String → json_value_t → Bool) (k : String)
    (o : Option json_value_t) :
    forallMembersIn P (json_add_opt k o)
      = match o with
        | none => true
        | some v => P k v && v.forallMembers P := by
  cases o <;> simp [json_add_opt, json_add, forallMembersIn]

theorem forallMembersAmong_map {α : Type} (P : String → json_value_t → Bool)
    (f : α → json_value_t) (l : List α) :
    forallMembersAmong P (l.map f) = l.all fun x => (f x).forallMembers P := by
  induction l with
  | nil => simp [forallMembersAmong]
  | cons a l ih => simp [forallMembersAmong, ih]

theorem forallMembers_list_map {α : Type} (P : String → json_value_t → Bool)
    (f : α → json_value_t) (l : List α) (h : ∀ x, x ∈ l → (f x).forallMembers P = true) :
    (json_value_t.list (l.map f)).forallMembers P = true := by
  simp only [json_value_t.forallMembers, forallMembersAmong_map, List.all_eq_true]
  exact h

theorem forallMembers_number (P : String → json_value_t → Bool) (n : Int) :
    (json_number n).forallMembers P = true := by
  simp [json_number, json_value_t.forallMembers]

theorem forallMembers_string (P : String → json_value_t → Bool) (x : String) :
    (json_string x).forallMembers P = true := by
  simp [json_string, json_value_t.forallMembers]

theorem forallMembers_boolean (P : String → json_value_t → Bool) (b : Int) :
    (json_boolean b).forallMembers P = true := by
  simp [json_boolean, json_value_t.forallMembers]

theorem zeroRule_string (k x : String) : zeroRule k (json_string x) = true := by
  simp [zeroRule, json_string, json_value_t.isZero]

theorem zeroRule_boolean (k : String) (b : Int) : zeroRule k (json_boolean b) = true := by
  simp [zeroRule, json_boolean, json_value_t.isZero]

theorem zeroRule_list (k : String) (xs : List json_value_t) :
    zeroRule k (json_value_t.list xs) = true := by
  simp [zeroRule, json_value_t.isZero]

theorem zeroRule_map (k : String) (ms : List (String × json_value_t)) :
    zeroRule k (json_value_t.map ms) = true := by
  simp [zeroRule, json_value_t.isZero]

theorem zeroRule_number (k : String) (n : Int) :
    zeroRule k (json_number n) = (n != 0 || unguardedKeys.contains k) := by
  simp [zeroRule, json_number, json_value_t.isZero, bne]

/-- A guarded `if (n != 0) json_add(j, k, json_number(n));` follows the rule. -/
theorem guarded_number_ok (k : String) (n : Int) :
    forallMembersIn zeroRule (json_add_if (n != 0) k (json_number n)) = true := by
  rw [forallMembersIn_add_if, zeroRule_number, forallMembers_number]
  cases h : (n != 0) <;> simp

/-- An unguarded `json_add(j, k, json_number(n));` follows the rule when `k` is one of
the unguarded keys. -/
theorem unguarded_number_ok (k : String) (n : Int) (hk : unguardedKeys.contains k = true) :
    forallMembersIn zeroRule (json_add k (json_number n)) = true := by
  rw [forallMembersIn_add, zeroRule_number, forallMembers_number, hk]
  simp

theorem string_ok (k x : String) :
    forallMembersIn zeroRule (json_add k (json_string x)) = true := by
  rw [forallMembersIn_add, zeroRule_string, forallMembers_string]
  rfl

theorem string_if_ok (c : Bool) (k x : String) :
    forallMembersIn zeroRule (json_add_if c k (json_string x)) = true := by
  rw [forallMembersIn_add_if, zeroRule_string, forallMembers_string]
  simp

theorem boolean_if_ok (c : Bool) (k : String) (b : Int) :
    forallMembersIn zeroRule (json_add_if c k (json_boolean b)) = true := by
  rw [forallMembersIn_add_if, zeroRule_boolean, forallMembers_boolean]
  simp

theorem marshalDevelop_ok (d : global_develop) :
    (marshalDevelop d).forallMembers zeroRule = true := by
  simp [marshalDevelop, json_value_t.forallMembers, forallMembersIn_append, guarded_number_ok,
    string_ok]

theorem marshalGas_ok (g : global_gas) : (marshalGas g).forallMembers zeroRule = true := by
  simp only [marshalGas, json_value_t.forallMembers, forallMembersIn_append, guarded_number_ok,
    string_ok, boolean_if_ok, Bool.and_true, Bool.true_and]
  split
  · rw [forallMembersIn_append,
      unguarded_number_ok "min_pct" g.min_pct (by decide),
      unguarded_number_ok "max_pct" g.max_pct (by decide)]
    rfl
  · rfl

theorem marshalGases_ok (g : List global_gas) :
    (marshalGases g).forallMembers zeroRule = true :=
  forallMembers_list_map zeroRule marshalGas g fun x _ => marshalGas_ok x

theorem marshalSkill_ok (s : global_skill) : (marshalSkill s).forallMembers zeroRule = true := by
  simp [marshalSkill, json_value_t.forallMembers, forallMembersIn_append, guarded_number_ok,
    string_ok, unguarded_number_ok "current_level" s.current_level (by decide),
    unguarded_number_ok "xps" s.xps (by decide)]

theorem marshalSkills_ok (s : List global_skill) :
    (marshalSkills s).forallMembers zeroRule = true :=
  forallMembers_list_map zeroRule marshalSkill s fun x _ => marshalSkill_ok x

theorem marshalLocation_ok (l : global_location) :
    (marshalLocation l).forallMembers zeroRule = true := by
  simp only [marshalLocation, json_value_t.forallMembers, forallMembersIn_append,
    boolean_if_ok, Bool.and_true]
  split
  · simp [forallMembersIn_append, guarded_number_ok,
      unguarded_number_ok "x" l.x (by decide), unguarded_number_ok "y" l.y (by decide),
      unguarded_number_ok "z" l.z (by decide)]
  · exact string_ok _ _

theorem marshalPlanet_ok (p : global_planet) :
    (marshalPlanet p).forallMembers zeroRule = true := by
  simp [marshalPlanet, json_value_t.forallMembers, forallMembersIn_append, guarded_number_ok,
    boolean_if_ok, forallMembersIn_add, marshalGases_ok, zeroRule_list, marshalGases,
    unguarded_number_ok "id" p.id (by decide),
    unguarded_number_ok "orbit" p.orbit (by decide),
    unguarded_number_ok "diameter" p.diameter (by decide),
    unguarded_number_ok "econ_efficiency" p.econ_efficiency (by decide),
    unguarded_number_ok "gravity" p.gravity (by decide),
    unguarded_number_ok "md_increase" p.md_increase (by decide),
    unguarded_number_ok "pressure_class" p.pressure_class (by decide),
    unguarded_number_ok "temperature_class" p.temperature_class (by decide)]
  exact marshalGases_ok p.gases

theorem marshalPlanets_ok (p : List global_planet) :
    (marshalPlanets p).forallMembers zeroRule = true :=
  forallMembers_list_map zeroRule marshalPlanet p fun x _ => marshalPlanet_ok x

theorem marshalInventory_ok (i : List global_item)
    (h : ∀ item, item ∈ i → item.quantity ≠ 0) :
    (marshalInventory i).forallMembers zeroRule = true := by
  unfold marshalInventory
  simp only [json_value_t.forallMembers]
  induction i with
  | nil => rfl
  | cons item i ih =>
    have h0 : item.quantity ≠ 0 := h item (List.mem_cons_self _ _)
    have hrest := ih fun x hx => h x (List.mem_cons_of_mem _ hx)
    simp [forallMembersIn, hrest, zeroRule_number, forallMembers_number, h0]

theorem appendCreating_foldl_some {α : Type} (f : α → json_value_t) (l : List α)
    (xs : List json_value_t) :
    l.foldl (fun v d => appendCreating v (f d)) (some (json_value_t.list xs))
      = some (json_value_t.list (xs ++ l.map f)) := by
  induction l generalizing xs with
  | nil => simp
  | cons a l ih =>
    rw [List.foldl_cons]
    have e : appendCreating (some (json_value_t.list xs)) (f a)
        = some (json_value_t.list (xs ++ [f a])) := rfl
    rw [e, ih]
    simp

/-- The optional list left by the loop over the development orders is NULL when there
is no order and is the list of the marshalled orders otherwise. -/
theorem marshalDevelopList_eq (ds : List global_develop) :
    marshalDevelopList ds
      = if ds.isEmpty then none else some (json_value_t.list (ds.map marshalDevelop)) := by
  unfold marshalDevelopList
  cases ds with
  | nil => rfl
  | cons d ds =>
    rw [List.foldl_cons]
    have e : appendCreating none (marshalDevelop d)
        = some (json_value_t.list ([] ++ [marshalDevelop d])) := rfl
    rw [e, appendCreating_foldl_some]
    simp

theorem marshalDevelopList_ok (ds : List global_develop) :
    forallMembersIn zeroRule (json_add_opt "develop" (marshalDevelopList ds)) = true := by
  rw [forallMembersIn_add_opt, marshalDevelopList_eq]
  cases h : ds.isEmpty with
  | true => rfl
  | false =>
    simp only [Bool.false_eq_true, if_false, zeroRule_list, Bool.true_and]
    exact forallMembers_list_map zeroRule marshalDevelop ds fun x _ => marshalDevelop_ok x

theorem marshalFlags_ok (env : Engine) (key : String) (flags : Nat → Int) :
    forallMembersIn zeroRule (json_add_opt key (marshalFlags env flags)) = true := by
  rw [forallMembersIn_add_opt, marshalFlags_eq]
  by_cases h : decodedIds env flags = []
  · simp [h]
  · simp only [h, if_false, idList, zeroRule_list, Bool.true_and]
    exact forallMembers_list_map zeroRule _ _ fun x _ => forallMembers_number zeroRule _

theorem inventory_if_ok (c : Bool) (i : List global_item)
    (h : ∀ item, item ∈ i → item.quantity ≠ 0) :
    forallMembersIn zeroRule (json_add_if c "inventory" (marshalInventory i)) = true := by
  rw [forallMembersIn_add_if, marshalInventory_ok i h]
  simp [marshalInventory, zeroRule_map]

theorem marshalColony_ok (c : global_colony)
    (h : ∀ item, item ∈ c.inventory → item.quantity ≠ 0) :
    (marshalColony c).forallMembers zeroRule = true := by
  have hsys : forallMembersIn zeroRule
      (match c.location.system with
       | none => []
       | some system =>
         json_add "system" (json_number system.id) ++
         (match c.location.planet with
          | none => []
          | some planet => json_add "orbit" (json_number planet.orbit))) = true := by
    cases c.location.system with
    | none => rfl
    | some system =>
      cases c.location.planet with
      | none =>
        simp only [List.append_nil]
        exact unguarded_number_ok "system" system.id (by decide)
      | some planet =>
        simp [forallMembersIn_append, unguarded_number_ok "system" system.id (by decide),
          unguarded_number_ok "orbit" planet.orbit (by decide)]
  simp only [marshalColony, json_value_t.forallMembers, forallMembersIn_append, hsys,
    guarded_number_ok, string_ok, boolean_if_ok, inventory_if_ok _ c.inventory h,
    marshalDevelopList_ok, unguarded_number_ok "ma_base" c.ma_base (by decide),
    unguarded_number_ok "mi_base" c.mi_base (by decide), Bool.and_true]

theorem marshalColonies_ok (c : List global_colony)
    (h : ∀ col, col ∈ c → ∀ item, item ∈ col.inventory → item.quantity ≠ 0) :
    (marshalColonies c).forallMembers zeroRule = true :=
  forallMembers_list_map zeroRule marshalColony c fun x hx => marshalColony_ok x (h x hx)

theorem marshalShip_ok (env : Engine) (s : global_ship)
    (h : ∀ item, item ∈ s.inventory → item.quantity ≠ 0) :
    (marshalShip env s).forallMembers zeroRule = true := by
  have hloc : forallMembersIn zeroRule (json_add "location" (marshalLocation s.location))
      = true := by
    rw [forallMembersIn_add, marshalLocation_ok]
    simp [marshalLocation, zeroRule_map]
  have hdest : forallMembersIn zeroRule
      (json_add_if (s.destination.x != 0) "destination" (marshalLocation s.destination))
      = true := by
    rw [forallMembersIn_add_if, marshalLocation_ok]
    simp [marshalLocation, zeroRule_map]
  simp only [marshalShip, json_value_t.forallMembers, forallMembersIn_append, hloc, hdest,
    guarded_number_ok, string_ok, string_if_ok, boolean_if_ok, inventory_if_ok _ s.inventory h,
    Bool.and_true]

theorem marshalShips_ok (env : Engine) (s : List global_ship)
    (h : ∀ ship, ship ∈ s → ∀ item, item ∈ ship.inventory → item.quantity ≠ 0) :
    (marshalShips env s).forallMembers zeroRule = true :=
  forallMembers_list_map zeroRule (marshalShip env) s fun x hx => marshalShip_ok env x (h x hx)

theorem node_member_ok (k : String) (v : json_value_t) (hv : v.forallMembers zeroRule = true)
    (hnum : v.isZero = false) :
    forallMembersIn zeroRule (json_add k v) = true := by
  rw [forallMembersIn_add, hv]
  simp [zeroRule, hnum]

theorem marshalSpecie_ok (env : Engine) (s : global_species)
    (hc : ∀ col, col ∈ s.colonies → ∀ item, item ∈ col.inventory → item.quantity ≠ 0)
    (hs : ∀ ship, ship ∈ s.ships → ∀ item, item ∈ ship.inventory → item.quantity ≠ 0) :
    (marshalSpecie env s).forallMembers zeroRule = true := by
  simp only [marshalSpecie, json_value_t.forallMembers, forallMembersIn_append,
    guarded_number_ok, string_ok, boolean_if_ok, marshalFlags_ok,
    unguarded_number_ok "sp" s.id (by decide),
    unguarded_number_ok "econ_units" s.econ_units (by decide),
    node_member_ok "skills" _ (marshalSkills_ok s.skills) rfl,
    node_member_ok "required_gases" _ (marshalGases_ok s.required_gases) rfl,
    node_member_ok "neutral_gases" _ (marshalGases_ok s.neutral_gases) rfl,
    node_member_ok "poison_gases" _ (marshalGases_ok s.poison_gases) rfl,
    node_member_ok "colonies" _ (marshalColonies_ok s.colonies hc) rfl,
    node_member_ok "ships" _ (marshalShips_ok env s.ships hs) rfl, Bool.and_true]

theorem marshalSystem_ok (env : Engine) (s : global_system) :
    (marshalSystem env s).forallMembers zeroRule = true := by
  simp only [marshalSystem, json_value_t.forallMembers, forallMembersIn_append,
    guarded_number_ok, boolean_if_ok, marshalFlags_ok,
    unguarded_number_ok "id" s.id (by decide),
    unguarded_number_ok "type" s.type (by decide),
    unguarded_number_ok "color" s.color (by decide),
    unguarded_number_ok "size" s.size (by decide),
    unguarded_number_ok "message" s.id (by decide),
    node_member_ok "coords" _ (marshalLocation_ok _) rfl,
    node_member_ok "planets" _ (marshalPlanets_ok s.planets) rfl, Bool.and_true]

theorem marshalGlobals_ok (env : Engine) (g : global_data)
    (h : ∀ s, s ∈ g.species →
      (∀ col, col ∈ s.colonies → ∀ item, item ∈ col.inventory → item.quantity ≠ 0) ∧
      (∀ ship, ship ∈ s.ships → ∀ item, item ∈ ship.inventory → item.quantity ≠ 0)) :
    (marshalGlobals env g).forallMembers zeroRule = true := by
  have hsystems : (marshalSystems env g.cluster.systems).forallMembers zeroRule = true :=
    forallMembers_list_map zeroRule (marshalSystem env) _ fun x _ => marshalSystem_ok env x
  have hcluster : (marshalCluster env g.cluster).forallMembers zeroRule = true := by
    simp only [marshalCluster, json_value_t.forallMembers, forallMembersIn_append,
      unguarded_number_ok "radius" g.cluster.radius (by decide),
      unguarded_number_ok "d_num_species" g.cluster.d_num_species (by decide),
      unguarded_number_ok "num_species" g.cluster.num_species (by decide),
      node_member_ok "systems" _ hsystems rfl, Bool.and_true]
  have hspecies : (marshalSpecies env g.species).forallMembers zeroRule = true :=
    forallMembers_list_map zeroRule (marshalSpecie env) _ fun x hx =>
      marshalSpecie_ok env x (h x hx).1 (h x hx).2
  simp only [marshalGlobals, json_value_t.forallMembers, forallMembersIn_append,
    unguarded_number_ok "turn" g.turn (by decide),
    node_member_ok "cluster" _ hcluster rfl,
    node_member_ok "species" _ hspecies rfl, Bool.and_true]

theorem exportInventory_nonzero (env : Engine) (q : Nat → Int) :
    ∀ item, item ∈ exportInventory env q → item.quantity ≠ 0 := by
  intro item hitem
  rw [exportInventory_eq] at hitem
  obtain ⟨k, hk, rfl⟩ := List.mem_map.mp hitem
  have := (List.mem_filter.mp hk).2
  simpa using this

theorem exportColonies_mem (env : Engine) (systems : List global_system) :
    ∀ (l : List nampla_data) (n : Nat) (c : global_colony),
      c ∈ exportColonies env systems n l →
      ∃ (k : Nat) (nampla : nampla_data), nampla ∈ l ∧ c = exportColony env systems k nampla := by
  intro l
  induction l with
  | nil =>
    intro n c hc
    simp [exportColonies] at hc
  | cons a l ih =>
    intro n c hc
    simp only [exportColonies, List.mem_cons] at hc
    rcases hc with rfl | hc
    · exact ⟨n, a, List.mem_cons_self _ _, rfl⟩
    · obtain ⟨k, nampla, hmem, rfl⟩ := ih (n + 1) c hc
      exact ⟨k, nampla, List.mem_cons_of_mem _ hmem, rfl⟩

/-- Every species of the export graph is built from a roster record. -/
theorem species_mem_export (env : Engine) (st : Store) (g : global_data)
    (hg : exportData env st = some g) (s : global_species) (hs : s ∈ g.species) :
    ∃ (i : Nat) (sp : species_data),
      st.spec_data[i]? = some sp ∧
      exportSpecies env g.cluster.systems st.num_species i sp = some s := by
  have hr := (exportData_some env st g hg).2.2.2.2.2
  obtain ⟨hlen, _⟩ := exportRoster_some env g.cluster.systems st.num_species st.spec_data 0
    g.species hr
  obtain ⟨i, hi, hget⟩ := List.getElem_of_mem hs
  have hi2 : i < st.spec_data.length := by rw [← hlen]; exact hi
  obtain ⟨s2, h1, h2, _⟩ := speciesNodes_at env st g hg i (st.spec_data[i])
    (List.getElem?_eq_getElem hi2)
  have e : g.species[i]? = some s := by rw [List.getElem?_eq_getElem hi, hget]
  rw [e] at h2
  injection h2 with h2
  subst h2
  exact ⟨i, st.spec_data[i], List.getElem?_eq_getElem hi2, h1⟩

/-- No inventory of the export graph holds an item with quantity zero. -/
theorem export_inventories_nonzero (env : Engine) (st : Store) (g : global_data)
    (hg : exportData env st = some g) (s : global_species) (hs : s ∈ g.species) :
    (∀ col, col ∈ s.colonies → ∀ item, item ∈ col.inventory → item.quantity ≠ 0) ∧
    (∀ ship, ship ∈ s.ships → ∀ item, item ∈ ship.inventory → item.quantity ≠ 0) := by
  obtain ⟨i, sp, _, hbuild⟩ := species_mem_export env st g hg s hs
  obtain ⟨hfields, hships, _⟩ := exportSpecies_some env _ _ i sp s hbuild
  constructor
  · intro col hcol item hitem
    rw [hfields] at hcol
    obtain ⟨k, nampla, _, rfl⟩ := exportColonies_mem env _ _ _ col hcol
    exact exportInventory_nonzero env nampla.item_quantity item hitem
  · intro p hp item hitem
    obtain ⟨_, hback⟩ := mapOpt_mem _ _ _ hships
    obtain ⟨ship, _, hbuildship⟩ := hback p hp
    obtain ⟨_, _, _, hrec⟩ := exportShip_some env _ ship p hbuildship
    have hinv : p.inventory = exportInventory env ship.item_quantity := by rw [hrec]
    rw [hinv] at hitem
    exact exportInventory_nonzero env ship.item_quantity item hitem

theorem colony_unguarded_members (c : global_colony) :
    (marshalColony c).member "ma_base" = some (json_number c.ma_base) ∧
    (marshalColony c).member "mi_base" = some (json_number c.mi_base) ∧
    (marshalColony c).member "message"
      = (if c.message = 0 then none else some (json_number c.message)) := by
  simp only [marshalColony, json_value_t.member, List.append_assoc, lookupKey_add,
    lookupKey_add_if, lookupKey_add_opt]
  cases c.location.system <;> cases c.location.planet <;>
    cases marshalDevelopList c.develop <;> by_cases hm : c.message = 0 <;>
    simp [lookupKey, lookupKey_add, lookupKey_add_if, lookupKey_add_opt, lookupKey_add_last,
      lookupKey_add_if_last, hm]

theorem skill_unguarded_members (s : global_skill) :
    (marshalSkill s).member "current_level" = some (json_number s.current_level) ∧
    (marshalSkill s).member "xps" = some (json_number s.xps) := by
  simp [marshalSkill, json_value_t.member, lookupKey_add, lookupKey_add_if, lookupKey_add_last]

theorem planet_unguarded_members (p : global_planet) :
    (marshalPlanet p).member "md_increase" = some (json_number p.md_increase) ∧
    (marshalPlanet p).member "message"
      = (if p.message = 0 then none else some (json_number p.message)) := by
  by_cases hm : p.message = 0 <;>
    simp [marshalPlanet, json_value_t.member, lookupKey_add, lookupKey_add_if,
      lookupKey_add_last, hm]

theorem species_unguarded_members (env : Engine) (s : global_species) :
    (marshalSpecie env s).member "econ_units" = some (json_number s.econ_units) := by
  simp [marshalSpecie, json_value_t.member, lookupKey_add, lookupKey_add_if]

/-- C10 fails as stated: the document of the store of the examples has map nodes with a
member whose value is the number 0; for one, the colony "Homeworld", whose stored
ma_base is zero, has the member `ma_base` with the value 0. -/
theorem no_zero_member_counterexample :
    ∃ doc snode cnode : json_value_t,
      exportDocument sampleEngine sampleStore = some doc ∧
      doc.forallMembers nonZeroMember = false ∧
      (speciesNodes doc)[0]? = some snode ∧ (colonyNodes snode)[0]? = some cnode ∧
      sampleHomeworld.ma_base = 0 ∧ cnode.member "ma_base" = some (json_number 0) :=
  ⟨sampleDocument, sampleSpeciesNode1, sampleColonyNode, exportDocument_sampleStore,
    by decide, rfl, rfl, rfl, rfl⟩

/-- C10, amended: for every store on which the export is defined, a member of a map node
of the document tree has the number 0 as its value only under one of the keys that the
marshaller adds without a guard (`unguardedKeys`); every other counter is omitted when
its stored value is zero, and so are the `message` of a colony and of a planet.  A
colony's ma_base and mi_base, a skill's current_level and xps, a planet's md_increase
and a species' econ_units are emitted whatever their value, as 0 when it is zero. -/
theorem zero_members_only_unguarded (env : Engine) (st : Store) (doc : json_value_t)
    (hdoc : exportDocument env st = some doc) :
    doc.forallMembers zeroRule = true ∧
    (∀ c : global_colony,
      (marshalColony c).member "ma_base" = some (json_number c.ma_base) ∧
      (marshalColony c).member "mi_base" = some (json_number c.mi_base) ∧
      (marshalColony c).member "message"
        = (if c.message = 0 then none else some (json_number c.message))) ∧
    (∀ s : global_skill,
      (marshalSkill s).member "current_level" = some (json_number s.current_level) ∧
      (marshalSkill s).member "xps" = some (json_number s.xps)) ∧
    (∀ p : global_planet,
      (marshalPlanet p).member "md_increase" = some (json_number p.md_increase) ∧
      (marshalPlanet p).member "message"
        = (if p.message = 0 then none else some (json_number p.message))) ∧
    (∀ s : global_species,
      (marshalSpecie env s).member "econ_units" = some (json_number s.econ_units)) := by
  obtain ⟨g, hg, rfl⟩ := exportDocument_some env st doc hdoc
  exact ⟨marshalGlobals_ok env g fun s hs => export_inventories_nonzero env st g hg s hs,
    colony_unguarded_members, skill_unguarded_members, planet_unguarded_members,
    species_unguarded_members env⟩

/-- Witness of C10 (amended) on the store of the examples. -/
theorem zero_members_only_unguarded_witness :
    sampleDocument.forallMembers zeroRule = true :=
  (zero_members_only_unguarded sampleEngine sampleStore sampleDocument
    exportDocument_sampleStore).1

/-! ## The presence rule for flags -/

theorem forallNodesIn_append (P : json_value_t → Bool) (a b : List (String × json_value_t)) :
    forallNodesIn P (a ++ b) = (forallNodesIn P a && forallNodesIn P b) := by
  induction a with
  | nil => simp [forallNodesIn]
  | cons p a ih =>
    obtain ⟨k, v⟩ := p
    simp [forallNodesIn, ih, Bool.and_assoc]

theorem forallNodesIn_add (P : json_value_t → Bool) (k : String) (v : json_value_t) :
    forallNodesIn P (json_add k v) = v.forallNodes P := by
  simp [json_add, forallNodesIn]

theorem forallNodesIn_add_if (P : json_value_t → Bool) (c : Bool) (k : String)
    (v : json_value_t) :
    forallNodesIn P (json_add_if c k v) = (!c || v.forallNodes P) := by
  cases c <;> simp [json_add_if, json_add, forallNodesIn]

theorem forallNodesIn_add_opt (P : json_value_t → Bool) (k : String)
    (o : Option json_value_t) :
    forallNodesIn P (json_add_opt k o)
      = match o with
        | none => true
        | some v => v.forallNodes P := by
  cases o <;> simp [json_add_opt, json_add, forallNodesIn]

theorem forallNodesAmong_map {α : Type} (P : json_value_t → Bool) (f : α → json_value_t)
    (l : List α) :
    forallNodesAmong P (l.map f) = l.all fun x => (f x).forallNodes P := by
  induction l with
  | nil => simp [forallNodesAmong]
  | cons a l ih => simp [forallNodesAmong, ih]

theorem forallNodes_map (P : json_value_t → Bool) (ms : List (String × json_value_t)) :
    (json_value_t.map ms).forallNodes P = (P (json_value_t.map ms) && forallNodesIn P ms) := by
  simp [json_value_t.forallNodes]

theorem forallNodes_list_map {α : Type} (P : json_value_t → Bool) (f : α → json_value_t)
    (l : List α) (hP : P (json_value_t.list (l.map f)) = true)
    (h : ∀ x, x ∈ l → (f x).forallNodes P = true) :
    (json_value_t.list (l.map f)).forallNodes P = true := by
  simp only [json_value_t.forallNodes, hP, forallNodesAmong_map, Bool.true_and,
    List.all_eq_true]
  exact h

theorem notFalse_number (n : Int) : (json_number n).forallNodes notFalse = true := rfl

theorem notFalse_string (x : String) : (json_string x).forallNodes notFalse = true := rfl

/-- Every boolean that the marshaller creates is `json_boolean(1)`, which is true. -/
theorem notFalse_boolean_one : (json_boolean 1).forallNodes notFalse = true := rfl

theorem notFalse_add_number (k : String) (n : Int) :
    forallNodesIn notFalse (json_add k (json_number n)) = true := by
  rw [forallNodesIn_add, notFalse_number]

theorem notFalse_add_string (k x : String) :
    forallNodesIn notFalse (json_add k (json_string x)) = true := by
  rw [forallNodesIn_add, notFalse_string]

theorem notFalse_add_if_number (c : Bool) (k : String) (n : Int) :
    forallNodesIn notFalse (json_add_if c k (json_number n)) = true := by
  rw [forallNodesIn_add_if, notFalse_number]
  simp

theorem notFalse_add_if_string (c : Bool) (k x : String) :
    forallNodesIn notFalse (json_add_if c k (json_string x)) = true := by
  rw [forallNodesIn_add_if, notFalse_string]
  simp

theorem notFalse_add_if_boolean (c : Bool) (k : String) :
    forallNodesIn notFalse (json_add_if c k (json_boolean 1)) = true := by
  rw [forallNodesIn_add_if, notFalse_boolean_one]
  simp

theorem notFalse_add_node (k : String) (v : json_value_t)
    (hv : v.forallNodes notFalse = true) : forallNodesIn notFalse (json_add k v) = true := by
  rw [forallNodesIn_add, hv]

theorem notFalse_add_if_node (c : Bool) (k : String) (v : json_value_t)
    (hv : v.forallNodes notFalse = true) :
    forallNodesIn notFalse (json_add_if c k v) = true := by
  rw [forallNodesIn_add_if, hv]
  simp

theorem notFalse_list_map {α : Type} (f : α → json_value_t) (l : List α)
    (h : ∀ x, (f x).forallNodes notFalse = true) :
    (json_value_t.list (l.map f)).forallNodes notFalse = true :=
  forallNodes_list_map notFalse f l rfl fun x _ => h x

theorem marshalDevelop_notFalse (d : global_develop) :
    (marshalDevelop d).forallNodes notFalse = true := by
  simp [marshalDevelop, forallNodes_map, notFalse, forallNodesIn_append, notFalse_add_string,
    notFalse_add_if_number]

theorem marshalGas_notFalse (g : global_gas) :
    (marshalGas g).forallNodes notFalse = true := by
  simp only [marshalGas, forallNodes_map, notFalse, forallNodesIn_append, notFalse_add_string,
    notFalse_add_if_number, notFalse_add_if_boolean, Bool.and_true, Bool.true_and]
  split
  · rw [forallNodesIn_append, notFalse_add_number, notFalse_add_number]
    rfl
  · rfl

theorem marshalGases_notFalse (g : List global_gas) :
    (marshalGases g).forallNodes notFalse = true :=
  notFalse_list_map marshalGas g marshalGas_notFalse

theorem marshalInventory_notFalse (i : List global_item) :
    (marshalInventory i).forallNodes notFalse = true := by
  unfold marshalInventory
  rw [forallNodes_map]
  simp only [notFalse, Bool.true_and]
  induction i with
  | nil => rfl
  | cons item i ih => simp [forallNodesIn, ih, notFalse_number]

theorem marshalLocation_notFalse (l : global_location) :
    (marshalLocation l).forallNodes notFalse = true := by
  simp only [marshalLocation, forallNodes_map, notFalse, forallNodesIn_append,
    notFalse_add_if_boolean, Bool.and_true, Bool.true_and]
  split
  · simp [forallNodesIn_append, notFalse_add_number, notFalse_add_if_number]
  · exact notFalse_add_string _ _

theorem marshalDevelopList_notFalse (ds : List global_develop) :
    forallNodesIn notFalse (json_add_opt "develop" (marshalDevelopList ds)) = true := by
  rw [forallNodesIn_add_opt, marshalDevelopList_eq]
  cases h : ds.isEmpty with
  | true => rfl
  | false =>
    simp only [Bool.false_eq_true, if_false]
    exact notFalse_list_map marshalDevelop ds marshalDevelop_notFalse

theorem marshalFlags_notFalse (env : Engine) (key : String) (flags : Nat → Int) :
    forallNodesIn notFalse (json_add_opt key (marshalFlags env flags)) = true := by
  rw [forallNodesIn_add_opt, marshalFlags_eq]
  by_cases h : decodedIds env flags = []
  · simp [h]
  · simp only [h, if_false, idList]
    exact notFalse_list_map _ _ fun x => notFalse_number _

theorem marshalColony_notFalse (c : global_colony) :
    (marshalColony c).forallNodes notFalse = true := by
  have hsys : forallNodesIn notFalse
      (match c.location.system with
       | none => []
       | some system =>
         json_add "system" (json_number system.id) ++
         (match c.location.planet with
          | none => []
          | some planet => json_add "orbit" (json_number planet.orbit))) = true := by
    cases c.location.system with
    | none => rfl
    | some system =>
      cases c.location.planet with
      | none =>
        simp only [List.append_nil]
        exact notFalse_add_number _ _
      | some planet => simp [forallNodesIn_append, notFalse_add_number]
  simp only [marshalColony, forallNodes_map, notFalse, forallNodesIn_append, hsys,
    notFalse_add_string, notFalse_add_number, notFalse_add_if_number, notFalse_add_if_boolean,
    notFalse_add_if_node _ "inventory" _ (marshalInventory_notFalse c.inventory),
    marshalDevelopList_notFalse, Bool.and_true]

theorem marshalPlanet_notFalse (p : global_planet) :
    (marshalPlanet p).forallNodes notFalse = true := by
  simp only [marshalPlanet, forallNodes_map, notFalse, forallNodesIn_append,
    notFalse_add_number, notFalse_add_if_number, notFalse_add_if_boolean,
    notFalse_add_node "gases" _ (marshalGases_notFalse p.gases), Bool.and_true]

theorem marshalShip_notFalse (env : Engine) (s : global_ship) :
    (marshalShip env s).forallNodes notFalse = true := by
  simp only [marshalShip, forallNodes_map, notFalse, forallNodesIn_append,
    notFalse_add_string, notFalse_add_if_string, notFalse_add_if_number,
    notFalse_add_if_boolean,
    notFalse_add_if_node _ "inventory" _ (marshalInventory_notFalse s.inventory),
    notFalse_add_node "location" _ (marshalLocation_notFalse s.location),
    notFalse_add_if_node _ "destination" _ (marshalLocation_notFalse s.destination),
    Bool.and_true]

theorem marshalSkill_notFalse (s : global_skill) :
    (marshalSkill s).forallNodes notFalse = true := by
  simp only [marshalSkill, forallNodes_map, notFalse, forallNodesIn_append,
    notFalse_add_string, notFalse_add_number, notFalse_add_if_number, Bool.and_true]

theorem marshalSpecie_notFalse (env : Engine) (s : global_species) :
    (marshalSpecie env s).forallNodes notFalse = true := by
  simp only [marshalSpecie, forallNodes_map, notFalse, forallNodesIn_append,
    notFalse_add_string, notFalse_add_number, notFalse_add_if_number, notFalse_add_if_boolean,
    marshalFlags_notFalse,
    notFalse_add_node "skills" (marshalSkills s.skills)
      (notFalse_list_map marshalSkill s.skills marshalSkill_notFalse),
    notFalse_add_node "required_gases" _ (marshalGases_notFalse s.required_gases),
    notFalse_add_node "neutral_gases" _ (marshalGases_notFalse s.neutral_gases),
    notFalse_add_node "poison_gases" _ (marshalGases_notFalse s.poison_gases),
    notFalse_add_node "colonies" (marshalColonies s.colonies)
      (notFalse_list_map marshalColony s.colonies marshalColony_notFalse),
    notFalse_add_node "ships" (marshalShips env s.ships)
      (notFalse_list_map (marshalShip env) s.ships (marshalShip_notFalse env)),
    Bool.and_true]

theorem marshalSystem_notFalse (env : Engine) (s : global_system) :
    (marshalSystem env s).forallNodes notFalse = true := by
  simp only [marshalSystem, forallNodes_map, notFalse, forallNodesIn_append,
    notFalse_add_number, notFalse_add_if_number, notFalse_add_if_boolean,
    marshalFlags_notFalse,
    notFalse_add_node "coords" _ (marshalLocation_notFalse _),
    notFalse_add_node "planets" (marshalPlanets s.planets)
      (notFalse_list_map marshalPlanet s.planets marshalPlanet_notFalse),
    Bool.and_true]

/-- No node of the document tree of an export graph is the boolean false. -/
theorem marshalGlobals_notFalse (env : Engine) (g : global_data) :
    (marshalGlobals env g).forallNodes notFalse = true := by
  have hcluster : (marshalCluster env g.cluster).forallNodes notFalse = true := by
    simp only [marshalCluster, forallNodes_map, notFalse, forallNodesIn_append,
      notFalse_add_number,
      notFalse_add_node "systems" (marshalSystems env g.cluster.systems)
        (notFalse_list_map (marshalSystem env) g.cluster.systems (marshalSystem_notFalse env)),
      Bool.and_true]
  simp only [marshalGlobals, forallNodes_map, notFalse, forallNodesIn_append,
    notFalse_add_number, notFalse_add_node "cluster" _ hcluster,
    notFalse_add_node "species" (marshalSpecies env g.species)
      (notFalse_list_map (marshalSpecie env) g.species (marshalSpecie_notFalse env)),
    Bool.and_true]

theorem colony_flag_members (c : global_colony) :
    (marshalColony c).member "homeworld" = flagMember (c.homeworld != 0) ∧
    (marshalColony c).member "hidden" = flagMember (c.hidden != 0) ∧
    (marshalColony c).member "hiding" = flagMember (c.hiding_ != 0) ∧
    (marshalColony c).member "siege_eff" = flagMember (c.siege_eff != 0) ∧
    (marshalColony c).member "use_on_ambush" = flagMember (c.use_on_ambush != 0) := by
  simp only [marshalColony, json_value_t.member, List.append_assoc, lookupKey_add,
    lookupKey_add_if, lookupKey_add_opt, flagMember]
  cases c.location.system <;> cases c.location.planet <;>
    cases marshalDevelopList c.develop <;>
    simp [lookupKey, lookupKey_add, lookupKey_add_if, lookupKey_add_opt, lookupKey_add_last,
      lookupKey_add_if_last, json_boolean]

theorem gas_flag_members (g : global_gas) :
    (marshalGas g).member "required" = flagMember (g.required != 0) := by
  by_cases hm : (g.min_pct != 0 || g.max_pct != 0) = true <;>
    by_cases hr : g.required = 0 <;>
    simp [marshalGas, json_value_t.member, lookupKey, lookupKey_add, lookupKey_add_if,
      lookupKey_add_last, lookupKey_add_if_last, json_boolean, flagMember, hm, hr]

theorem location_flag_members (l : global_location) :
    (marshalLocation l).member "deep_space" = flagMember (l.deep_space != 0) ∧
    (marshalLocation l).member "in_orbit" = flagMember (l.in_orbit != 0) ∧
    (marshalLocation l).member "on_surface" = flagMember (l.on_surface != 0) := by
  simp only [marshalLocation, json_value_t.member, List.append_assoc, lookupKey_add,
    lookupKey_add_if, flagMember]
  split <;>
    simp [lookupKey, lookupKey_add, lookupKey_add_if, lookupKey_add_last,
      lookupKey_add_if_last, json_boolean]

theorem planet_flag_members (p : global_planet) :
    (marshalPlanet p).member "ideal_home_planet" = flagMember (p.idealHomePlanet != 0) ∧
    (marshalPlanet p).member "ideal_colony_planet" = flagMember (p.idealColonyPlanet != 0) ∧
    (marshalPlanet p).member "radioactive_hell_hole"
      = flagMember (p.radioactiveHellHole != 0) := by
  simp [marshalPlanet, json_value_t.member, lookupKey_add, lookupKey_add_if,
    lookupKey_add_last, json_boolean, flagMember]

theorem ship_flag_members (env : Engine) (s : global_ship) :
    (marshalShip env s).member "arrived_via_wormhole"
      = flagMember (s.arrived_via_wormhole != 0) ∧
    (marshalShip env s).member "forced_jump" = flagMember (s.status == env.FORCED_JUMP) ∧
    (marshalShip env s).member "jumped_in_combat"
      = flagMember (s.status == env.JUMPED_IN_COMBAT) ∧
    (marshalShip env s).member "just_jumped" = flagMember (s.just_jumped != 0) ∧
    (marshalShip env s).member "under_construction"
      = flagMember (s.status == env.UNDER_CONSTRUCTION) := by
  simp [marshalShip, json_value_t.member, lookupKey_add, lookupKey_add_if,
    lookupKey_add_if_last, json_boolean, flagMember]

theorem species_flag_members (env : Engine) (s : global_species) :
    (marshalSpecie env s).member "auto_orders" = flagMember (s.auto_orders != 0) := by
  simp only [marshalSpecie, json_value_t.member, List.append_assoc, lookupKey_add,
    lookupKey_add_if, lookupKey_add_opt, flagMember]
  cases marshalFlags env s.contacts <;> cases marshalFlags env s.allies <;>
    cases marshalFlags env s.enemies <;> by_cases ha : s.auto_orders = 0 <;>
    simp [lookupKey, lookupKey_add, lookupKey_add_if, lookupKey_add_opt, lookupKey_add_last,
      json_boolean, ha]

theorem system_flag_members (env : Engine) (s : global_system) :
    (marshalSystem env s).member "home_system" = flagMember (s.home_system != 0) := by
  simp only [marshalSystem, json_value_t.member, List.append_assoc, lookupKey_add,
    lookupKey_add_if, lookupKey_add_opt, flagMember]
  cases marshalFlags env s.visited_by <;>
    simp [lookupKey, lookupKey_add, lookupKey_add_if, lookupKey_add_opt, lookupKey_add_last,
      json_boolean]

/-- C11: for every store on which the export is defined, no node of the document tree is
the boolean false, so every boolean leaf is true; and each flag member (`homeworld`,
`hidden`, `hiding`, `siege_eff`, `use_on_ambush` of a colony, `required` of a gas,
`deep_space`, `in_orbit`, `on_surface` of a location, `ideal_home_planet`,
`ideal_colony_planet`, `radioactive_hell_hole` of a planet, `arrived_via_wormhole`,
`forced_jump`, `jumped_in_combat`, `just_jumped`, `under_construction` of a ship,
`auto_orders` of a species, `home_system` of a system) is the boolean true when its
stored flag is set and is absent from its node when the flag is not set. -/
theorem flags_true_or_absent (env : Engine) (st : Store) (doc : json_value_t)
    (hdoc : exportDocument env st = some doc) :
    doc.forallNodes notFalse = true ∧
    (∀ c : global_colony,
      (marshalColony c).member "homeworld" = flagMember (c.homeworld != 0) ∧
      (marshalColony c).member "hidden" = flagMember (c.hidden != 0) ∧
      (marshalColony c).member "hiding" = flagMember (c.hiding_ != 0) ∧
      (marshalColony c).member "siege_eff" = flagMember (c.siege_eff != 0) ∧
      (marshalColony c).member "use_on_ambush" = flagMember (c.use_on_ambush != 0)) ∧
    (∀ g : global_gas, (marshalGas g).member "required" = flagMember (g.required != 0)) ∧
    (∀ l : global_location,
      (marshalLocation l).member "deep_space" = flagMember (l.deep_space != 0) ∧
      (marshalLocation l).member "in_orbit" = flagMember (l.in_orbit != 0) ∧
      (marshalLocation l).member "on_surface" = flagMember (l.on_surface != 0)) ∧
    (∀ p : global_planet,
      (marshalPlanet p).member "ideal_home_planet" = flagMember (p.idealHomePlanet != 0) ∧
      (marshalPlanet p).member "ideal_colony_planet"
        = flagMember (p.idealColonyPlanet != 0) ∧
      (marshalPlanet p).member "radioactive_hell_hole"
        = flagMember (p.radioactiveHellHole != 0)) ∧
    (∀ s : global_ship,
      (marshalShip env s).member "arrived_via_wormhole"
        = flagMember (s.arrived_via_wormhole != 0) ∧
      (marshalShip env s).member "forced_jump" = flagMember (s.status == env.FORCED_JUMP) ∧
      (marshalShip env s).member "jumped_in_combat"
        = flagMember (s.status == env.JUMPED_IN_COMBAT) ∧
      (marshalShip env s).member "just_jumped" = flagMember (s.just_jumped != 0) ∧
      (marshalShip env s).member "under_construction"
        = flagMember (s.status == env.UNDER_CONSTRUCTION)) ∧
    (∀ s : global_species,
      (marshalSpecie env s).member "auto_orders" = flagMember (s.auto_orders != 0)) ∧
    (∀ s : global_system,
      (marshalSystem env s).member "home_system" = flagMember (s.home_system != 0)) := by
  obtain ⟨g, _, rfl⟩ := exportDocument_some env st doc hdoc
  exact ⟨marshalGlobals_notFalse env g, colony_flag_members, gas_flag_members,
    location_flag_members, planet_flag_members, ship_flag_members env,
    species_flag_members env, system_flag_members env⟩

/-- Witness of C11 on the store of the examples. -/
theorem flags_true_or_absent_witness :
    sampleDocument.forallNodes notFalse = true :=
  (flags_true_or_absent sampleEngine sampleStore sampleDocument exportDocument_sampleStore).1

/-! ## Collections of a node -/

/-- The export of the third store of the examples is defined and is the expected
document. -/
theorem exportDocument_bareStore :
    exportDocument sampleEngine bareStore = some bareDocument := by
  rfl

/-- The export of the fourth store of the examples is defined and is the expected
document. -/
theorem exportDocument_orbitStore :
    exportDocument sampleEngine orbitStore = some orbitDocument := by
  rfl

theorem member_skills (env : Engine) (s : global_species) :
    (marshalSpecie env s).member "skills" = some (marshalSkills s.skills) := by
  simp [marshalSpecie, json_value_t.member, lookupKey_add, lookupKey_add_if]

theorem member_neutral_gases (env : Engine) (s : global_species) :
    (marshalSpecie env s).member "neutral_gases" = some (marshalGases s.neutral_gases) := by
  simp [marshalSpecie, json_value_t.member, lookupKey_add, lookupKey_add_if]

theorem member_poison_gases (env : Engine) (s : global_species) :
    (marshalSpecie env s).member "poison_gases" = some (marshalGases s.poison_gases) := by
  simp [marshalSpecie, json_value_t.member, lookupKey_add, lookupKey_add_if]

theorem member_gases (p : global_planet) :
    (marshalPlanet p).member "gases" = some (marshalGases p.gases) := by
  simp [marshalPlanet, json_value_t.member, lookupKey_add, lookupKey_add_if]

theorem exportGasList_nil (env : Engine) (slots : Nat → Int) (h : slots 0 = 0) :
    exportGasList env slots = [] := by
  simp [exportGasList, List.range_succ_eq_map, List.takeWhile, h]

/-- C12 fails as stated: the species of the third store of the examples has no neutral
gas, no poison gas, no colony and no ship, yet its node has the four members
`neutral_gases`, `poison_gases`, `colonies` and `ships`, each an empty list. -/
theorem empty_collections_omitted_counterexample :
    bareSpecies.neutral_gas 0 = 0 ∧ bareSpecies.poison_gas 0 = 0 ∧
    bareSpecies.namplas.length = 0 ∧ bareSpecies.ships.length = 0 ∧
    ∃ doc snode : json_value_t,
      exportDocument sampleEngine bareStore = some doc ∧
      (speciesNodes doc)[0]? = some snode ∧
      snode.member "neutral_gases" = some (json_value_t.list []) ∧
      snode.member "poison_gases" = some (json_value_t.list []) ∧
      snode.member "colonies" = some (json_value_t.list []) ∧
      snode.member "ships" = some (json_value_t.list []) :=
  ⟨rfl, rfl, rfl, rfl, bareDocument, bareSpeciesNode, exportDocument_bareStore, rfl, rfl, rfl,
    rfl, rfl⟩

/-- C12, amended: for every species of a store on which the export is defined, each of
the members `neutral_gases`, `poison_gases`, `colonies` and `ships` is present in the
species node whatever the sequence holds: a list with one node per gas slot before the
first empty slot, per colony record, per ship record that is not named "Unused"; when
the sequence is empty the member is the empty list. -/
theorem optional_collections_always_emitted (env : Engine) (st : Store) (doc : json_value_t)
    (hdoc : exportDocument env st = some doc) (i : Nat) (sp : species_data)
    (hsp : st.spec_data[i]? = some sp) :
    ∃ snode : json_value_t, (speciesNodes doc)[i]? = some snode ∧
      (∃ xs : List json_value_t, snode.member "neutral_gases" = some (json_value_t.list xs) ∧
        xs.length = ((List.range 6).takeWhile fun g => sp.neutral_gas g != 0).length ∧
        (sp.neutral_gas 0 = 0 → xs = [])) ∧
      (∃ xs : List json_value_t, snode.member "poison_gases" = some (json_value_t.list xs) ∧
        xs.length = ((List.range 6).takeWhile fun g => sp.poison_gas g != 0).length ∧
        (sp.poison_gas 0 = 0 → xs = [])) ∧
      (∃ xs : List json_value_t, snode.member "colonies" = some (json_value_t.list xs) ∧
        xs.length = sp.namplas.length) ∧
      (∃ xs : List json_value_t, snode.member "ships" = some (json_value_t.list xs) ∧
        xs.length = (exportedShips sp).length) := by
  obtain ⟨g, hg, rfl⟩ := exportDocument_some env st doc hdoc
  obtain ⟨s, hs, _, hnode⟩ := speciesNodes_at env st g hg i sp hsp
  obtain ⟨hfields, hships, _⟩ := exportSpecies_some env _ _ i sp s hs
  have hn : s.neutral_gases = exportGasList env sp.neutral_gas := by rw [hfields]
  have hp : s.poison_gases = exportGasList env sp.poison_gas := by rw [hfields]
  have hc : s.colonies = exportColonies env g.cluster.systems 0 sp.namplas := by rw [hfields]
  refine ⟨marshalSpecie env s, hnode, ?_, ?_, ?_, ?_⟩
  · refine ⟨_, by rw [member_neutral_gases, hn]; rfl, by simp [exportGasList], ?_⟩
    intro h0
    rw [exportGasList_nil env _ h0]
    rfl
  · refine ⟨_, by rw [member_poison_gases, hp]; rfl, by simp [exportGasList], ?_⟩
    intro h0
    rw [exportGasList_nil env _ h0]
    rfl
  · refine ⟨_, by rw [member_colonies, hc]; rfl, ?_⟩
    simp [exportColonies_length]
  · refine ⟨_, by rw [member_ships]; rfl, ?_⟩
    have hlen := (mapOpt_some _ _ _ hships).1
    simp only [List.length_map]
    exact hlen

/-- Witness of C12 (amended) on the third store of the examples. -/
theorem optional_collections_always_emitted_witness :
    ∃ snode : json_value_t, (speciesNodes bareDocument)[0]? = some snode ∧
      (∃ xs : List json_value_t, snode.member "neutral_gases" = some (json_value_t.list xs) ∧
        xs.length = ((List.range 6).takeWhile fun g => bareSpecies.neutral_gas g != 0).length ∧
        (bareSpecies.neutral_gas 0 = 0 → xs = [])) ∧
      (∃ xs : List json_value_t, snode.member "poison_gases" = some (json_value_t.list xs) ∧
        xs.length = ((List.range 6).takeWhile fun g => bareSpecies.poison_gas g != 0).length ∧
        (bareSpecies.poison_gas 0 = 0 → xs = [])) ∧
      (∃ xs : List json_value_t, snode.member "colonies" = some (json_value_t.list xs) ∧
        xs.length = bareSpecies.namplas.length) ∧
      (∃ xs : List json_value_t, snode.member "ships" = some (json_value_t.list xs) ∧
        xs.length = (exportedShips bareSpecies).length) :=
  optional_collections_always_emitted sampleEngine bareStore bareDocument
    exportDocument_bareStore 0 bareSpecies rfl

/-- C13: for every store on which the export is defined, the four structural
collections are always emitted: the root has a `species` list with one node per species
of the roster; every system node has a `planets` list with one node per planet of the
star; every planet node has a `gases` list with one node per non-empty gas slot; every
species node has a `skills` list with six nodes.  Each is present even when the
sequence is empty, then as the empty list. -/
theorem structural_collections_always_emitted (env : Engine) (st : Store)
    (doc : json_value_t) (hdoc : exportDocument env st = some doc) :
    (∃ xs : List json_value_t, doc.member "species" = some (json_value_t.list xs) ∧
      xs.length = st.spec_data.length) ∧
    (∀ (i : Nat) (sp : species_data), st.spec_data[i]? = some sp →
      ∃ snode : json_value_t, (speciesNodes doc)[i]? = some snode ∧
        ∃ xs : List json_value_t, snode.member "skills" = some (json_value_t.list xs) ∧
          xs.length = 6) ∧
    (∀ (j : Nat) (star : star_data), st.star_base[j]? = some star →
      ∃ node : json_value_t, (systemNodes doc)[j]? = some node ∧
        (∃ xs : List json_value_t, node.member "planets" = some (json_value_t.list xs) ∧
          xs.length = star.planets.length) ∧
        ∀ (q : Nat) (planet : planet_data), star.planets[q]? = some planet →
          ∃ pnode : json_value_t, (planetNodes node)[q]? = some pnode ∧
            ∃ xs : List json_value_t, pnode.member "gases" = some (json_value_t.list xs) ∧
              xs.length = ((List.range 4).filter fun g => planet.gas g != 0).length) := by
  obtain ⟨g, hg, rfl⟩ := exportDocument_some env st doc hdoc
  refine ⟨?_, ?_, ?_⟩
  · have hr := (exportData_some env st g hg).2.2.2.2.2
    obtain ⟨hlen, _⟩ := exportRoster_some env _ _ _ 0 _ hr
    refine ⟨g.species.map (marshalSpecie env), ?_, by simpa using hlen⟩
    simp [marshalGlobals, json_value_t.member, lookupKey, json_add, marshalSpecies]
  · intro i sp hsp
    obtain ⟨s, hs, _, hnode⟩ := speciesNodes_at env st g hg i sp hsp
    obtain ⟨hfields, _⟩ := exportSpecies_some env _ _ i sp s hs
    have hsk : s.skills = exportSkills env sp := by rw [hfields]
    refine ⟨marshalSpecie env s, hnode, _, by rw [member_skills, hsk]; rfl, ?_⟩
    simp [exportSkills]
  · intro j star hstar
    obtain ⟨s, hs, _, hnode⟩ := systemNodes_at env st g hg j star hstar
    obtain ⟨hrec, _⟩ := exportSystem_some env st.num_species star s hs
    have hpl : s.planets = star.planets.map (exportPlanet env) := by rw [hrec]
    refine ⟨marshalSystem env s, hnode, ⟨_, by rw [member_planets, hpl]; rfl, by simp⟩, ?_⟩
    intro q planet hq
    refine ⟨marshalPlanet (exportPlanet env planet), ?_, ?_⟩
    · rw [planetNodes_marshalSystem, hpl]
      simp [hq]
    · refine ⟨_, by rw [member_gases]; rfl, ?_⟩
      have hgas : (exportPlanet env planet).gases
          = ((List.range 4).filter fun g => planet.gas g != 0).map fun g =>
              ({ code := env.gas_string (planet.gas g), atmos_pct := planet.gas_percent g,
                 min_pct := 0, max_pct := 0, required := 0 } : global_gas) :=
        filterMap_ite_eq (fun g => planet.gas g != 0) _ _
      rw [hgas]
      simp

/-- Witness of C13 on the third store of the examples, whose star has no planet. -/
theorem structural_collections_always_emitted_witness :
    ∃ node : json_value_t, (systemNodes bareDocument)[0]? = some node ∧
      (∃ xs : List json_value_t, node.member "planets" = some (json_value_t.list xs) ∧
        xs.length = bareStar.planets.length) ∧
      ∀ (q : Nat) (planet : planet_data), bareStar.planets[q]? = some planet →
        ∃ pnode : json_value_t, (planetNodes node)[q]? = some pnode ∧
          ∃ xs : List json_value_t, pnode.member "gases" = some (json_value_t.list xs) ∧
            xs.length = ((List.range 4).filter fun g => planet.gas g != 0).length :=
  (structural_collections_always_emitted sampleEngine bareStore bareDocument
    exportDocument_bareStore).2.2 0 bareStar rfl

/-! ## The root of the document -/

theorem member_system_id (env : Engine) (s : global_system) :
    (marshalSystem env s).member "id" = some (json_number s.id) := by
  simp [marshalSystem, json_value_t.member, lookupKey_add]

theorem member_species_name (env : Engine) (s : global_species) :
    (marshalSpecie env s).member "name" = some (json_string s.name) := by
  simp [marshalSpecie, json_value_t.member, lookupKey_add]

/-- C14: for every store on which the export is defined, the root of the document tree
is a map whose members are exactly `turn` (the turn number of the store), `cluster` and
`species`, in that order; `cluster` is a map with exactly the members `radius`,
`d_num_species`, `num_species` and `systems`, holding the values of the galaxy record
and a list with one node per star, in store order; `species` is a list with one node
per species, in roster order. -/
theorem root_layout (env : Engine) (st : Store) (doc : json_value_t)
    (hdoc : exportDocument env st = some doc) :
    doc.keys = ["turn", "cluster", "species"] ∧
    doc.member "turn" = some (json_number st.galaxy.turn_number) ∧
    (∃ (cluster : json_value_t) (systems : List json_value_t),
      doc.member "cluster" = some cluster ∧
      cluster.keys = ["radius", "d_num_species", "num_species", "systems"] ∧
      cluster.member "radius" = some (json_number st.galaxy.radius) ∧
      cluster.member "d_num_species" = some (json_number st.galaxy.d_num_species) ∧
      cluster.member "num_species" = some (json_number st.num_species) ∧
      cluster.member "systems" = some (json_value_t.list systems) ∧
      systems.length = st.star_base.length ∧
      ∀ (j : Nat) (star : star_data), st.star_base[j]? = some star →
        ∃ node : json_value_t, systems[j]? = some node ∧
          node.member "id" = some (json_number star.id)) ∧
    (∃ species : List json_value_t,
      doc.member "species" = some (json_value_t.list species) ∧
      species.length = st.spec_data.length ∧
      ∀ (i : Nat) (sp : species_data), st.spec_data[i]? = some sp →
        ∃ snode : json_value_t, species[i]? = some snode ∧
          snode.member "sp" = some (json_number sp.id) ∧
          snode.member "name" = some (json_string sp.name)) := by
  obtain ⟨g, hg, rfl⟩ := exportDocument_some env st doc hdoc
  obtain ⟨hturn, hrad, hdnum, hnum, hsys, hros⟩ := exportData_some env st g hg
  refine ⟨rfl, ?_, ?_, ?_⟩
  · simp [marshalGlobals, json_value_t.member, lookupKey, json_add, hturn]
  · refine ⟨marshalCluster env g.cluster, g.cluster.systems.map (marshalSystem env), ?_, rfl,
      ?_, ?_, ?_, ?_, ?_, ?_⟩
    · simp [marshalGlobals, json_value_t.member, lookupKey, json_add]
    · simp [marshalCluster, json_value_t.member, lookupKey, json_add, hrad]
    · simp [marshalCluster, json_value_t.member, lookupKey, json_add, hdnum]
    · simp [marshalCluster, json_value_t.member, lookupKey, json_add, hnum]
    · simp [marshalCluster, json_value_t.member, lookupKey, json_add, marshalSystems]
    · simpa using (mapOpt_some _ _ _ hsys).1
    · intro j star hstar
      obtain ⟨s, hs, hget, _⟩ := systemNodes_at env st g hg j star hstar
      obtain ⟨hrec, _⟩ := exportSystem_some env st.num_species star s hs
      refine ⟨marshalSystem env s, by simp [hget], ?_⟩
      rw [member_system_id, hrec]
  · refine ⟨g.species.map (marshalSpecie env), ?_, ?_, ?_⟩
    · simp [marshalGlobals, json_value_t.member, lookupKey, json_add, marshalSpecies]
    · simpa using (exportRoster_some env _ _ _ 0 _ hros).1
    · intro i sp hsp
      obtain ⟨s, hs, hget, _⟩ := speciesNodes_at env st g hg i sp hsp
      obtain ⟨hfields, _⟩ := exportSpecies_some env _ _ i sp s hs
      refine ⟨marshalSpecie env s, by simp [hget], ?_, ?_⟩
      · rw [member_sp, hfields]
      · rw [member_species_name, hfields]

/-- Witness of C14 on the store of the examples. -/
theorem root_layout_witness :
    sampleDocument.keys = ["turn", "cluster", "species"] ∧
    sampleDocument.member "turn" = some (json_number sampleStore.galaxy.turn_number) :=
  ⟨(root_layout sampleEngine sampleStore sampleDocument exportDocument_sampleStore).1,
   (root_layout sampleEngine sampleStore sampleDocument exportDocument_sampleStore).2.1⟩

/-! ## `set species N govt-type V` -/

/-- What `set species N govt-type V` does once the test that the code makes on the
species number has passed (`N` is not a help flag, `1 ≤ atoi N ≤ galaxy.num_species`, and
the slot `data_in_memory[atoi N]` that line 85 reads is set): it returns 0 and leaves
the `govt_type` of the species equal to `V` exactly when `strlen V` is between 1 and 31
(the other records are unchanged and `save_species_data` is called once); when `V` is
empty or `strlen V` is 32 or more, and when `V` is missing, it returns 2 and leaves the
globals, so `govt_type`, unchanged. -/
theorem set_govt_type (ext : SetEnv) (st : set_store) (cmd N V : String)
    (hN : N ≠ "--help" ∧ N ≠ "-h" ∧ N ≠ "-?")
    (hvalid : 1 ≤ ext.atoi N ∧ ext.atoi N ≤ st.num_species)
    (hloaded : st.data_in_memory (ext.atoi N).toNat ≠ 0) :
    ((1 ≤ strlen V ∧ strlen V ≤ 31) →
      ∃ st' : set_store,
        setCommand ext [cmd, "species", N, "govt-type", V] st = some (0, st') ∧
        (st'.spec_data (ext.atoi N - 1).toNat).govt_type = V ∧
        (∀ j, j ≠ (ext.atoi N - 1).toNat → st'.spec_data j = st.spec_data j) ∧
        st'.saves = st.saves + 1) ∧
    (¬ (1 ≤ strlen V ∧ strlen V ≤ 31) →
      setCommand ext [cmd, "species", N, "govt-type", V] st = some (2, st)) ∧
    setCommand ext [cmd, "species", N, "govt-type"] st = some (2, st) := by
  obtain ⟨h1, h2, h3⟩ := hN
  obtain ⟨hlo, hhi⟩ := hvalid
  have hne0 : ext.atoi N ≠ 0 := by omega
  have hlo' : ¬ ext.atoi N < 1 := by omega
  have hhi' : ¬ ext.atoi N > st.num_species := by omega
  refine ⟨?_, ?_, ?_⟩
  · rintro ⟨hv1, hv2⟩
    have hv0 : strlen V ≠ 0 := by omega
    have hv32 : strlen V < 32 := by omega
    refine ⟨{ ((st.update (ext.atoi N - 1).toNat fun r =>
        { r with govt_type := V }).markModified (ext.atoi N - 1)) with
          saves := st.saves + 1 }, ?_, ?_, ?_, ?_⟩
    · simp [setCommand, setSpecies, setSpeciesLoop, setSpeciesFinish, h1, h2, h3, hne0, hlo',
        hhi', hloaded, hv0, hv32, set_store.markModified, set_store.update]
    · simp [set_store.markModified, set_store.update]
    · intro j hj
      show (if j = (ext.atoi N - 1).toNat then _ else st.spec_data j) = st.spec_data j
      rw [if_neg hj]
    · rfl
  · intro hv
    by_cases hv0 : strlen V = 0
    · simp [setCommand, setSpecies, setSpeciesLoop, h1, h2, h3, hne0, hlo', hhi', hloaded, hv0]
    · have hv32 : ¬ strlen V < 32 := by omega
      simp [setCommand, setSpecies, setSpeciesLoop, h1, h2, h3, hne0, hlo', hhi', hloaded, hv0,
        hv32]
  · simp [setCommand, setSpecies, setSpeciesLoop, h1, h2, h3, hne0, hlo', hhi', hloaded]

/-- The command refuses every species number whose following slot of `data_in_memory` is
clear, whatever the slot of the species itself holds: line 85 tests
`data_in_memory[spno]`, while the record and the flag `data_modified` of the species
are at index `spno - 1`. -/
theorem set_species_refused (ext : SetEnv) (st : set_store) (cmd N : String)
    (rest : List String) (hvalid : 1 ≤ ext.atoi N ∧ ext.atoi N ≤ st.num_species)
    (hnext : st.data_in_memory (ext.atoi N).toNat = 0) :
    setCommand ext (cmd :: "species" :: N :: rest) st = some (2, st) := by
  obtain ⟨hlo, hhi⟩ := hvalid
  have hlo' : ¬ ext.atoi N < 1 := by omega
  have hhi' : ¬ ext.atoi N > st.num_species := by omega
  by_cases hh : (decide (N = "--help") || decide (N = "-h") || decide (N = "-?")) = true
  · simp only [setCommand, setSpecies, List.drop_succ_cons, List.drop_zero]
    rw [setSpeciesLoop.eq_def]
    simp [hh]
  · simp only [setCommand, setSpecies, List.drop_succ_cons, List.drop_zero]
    rw [setSpeciesLoop.eq_def]
    simp [hh, hlo', hhi', hnext]

/-- C18 (divergence of the code): in the globals `loadedSetStore` the roster holds two
species and both are loaded (the slots 0 and 1 of `data_in_memory`, the ones of species 1
and 2, are set).  The value "Monarchy" has 8 characters, yet
`set species 2 govt-type Monarchy` returns 2 and leaves the globals unchanged: the
code tests `data_in_memory[spno]`, the slot after the one of the species (line 85), which
is clear for the last species of a roster.  For species 1 the same command returns 0,
sets `govt_type` to "Monarchy" and saves. -/
theorem set_govt_type_last_species_refused :
    (loadedSetStore.num_species = 2 ∧ sampleSetEnv.atoi "2" = 2 ∧
      loadedSetStore.data_in_memory 0 ≠ 0 ∧ loadedSetStore.data_in_memory 1 ≠ 0) ∧
    strlen "Monarchy" = 8 ∧
    setCommand sampleSetEnv ["set", "species", "2", "govt-type", "Monarchy"] loadedSetStore
      = some (2, loadedSetStore) ∧
    (setCommand sampleSetEnv ["set", "species", "1", "govt-type", "Monarchy"]
      loadedSetStore).map Prod.fst = some 0 ∧
    (setCommand sampleSetEnv ["set", "species", "1", "govt-type", "Monarchy"]
      loadedSetStore).map (fun q => ((q.2.spec_data 0).govt_type, q.2.saves))
      = some ("Monarchy", 1) :=
  ⟨⟨rfl, rfl, by decide, by decide⟩, by decide,
    set_species_refused sampleSetEnv loadedSetStore "set" "2" ["govt-type", "Monarchy"]
      ⟨by decide, by decide⟩ (by decide),
    by decide, by decide⟩

/-- An instance of `set_govt_type` on the globals of the examples, in which the slot
tested for species 1 is set: species 1 and the value "Monarchy". -/
theorem set_govt_type_witness :
    ((1 ≤ strlen "Monarchy" ∧ strlen "Monarchy" ≤ 31) →
      ∃ st' : set_store,
        setCommand sampleSetEnv ["set", "species", "1", "govt-type", "Monarchy"] sampleSetStore
          = some (0, st') ∧
        (st'.spec_data (sampleSetEnv.atoi "1" - 1).toNat).govt_type = "Monarchy" ∧
        (∀ j, j ≠ (sampleSetEnv.atoi "1" - 1).toNat →
          st'.spec_data j = sampleSetStore.spec_data j) ∧
        st'.saves = sampleSetStore.saves + 1) ∧
    (¬ (1 ≤ strlen "Monarchy" ∧ strlen "Monarchy" ≤ 31) →
      setCommand sampleSetEnv ["set", "species", "1", "govt-type", "Monarchy"] sampleSetStore
        = some (2, sampleSetStore)) ∧
    setCommand sampleSetEnv ["set", "species", "1", "govt-type"] sampleSetStore
      = some (2, sampleSetStore) :=
  set_govt_type sampleSetEnv sampleSetStore "set" "1" "Monarchy" (by decide) (by decide)
    (by decide)

/-- The length test of `govt-type` counts bytes: a value of 16 letters of two bytes each
has `strlen` 32 and is refused. -/
theorem set_govt_type_counts_bytes :
    "éééééééééééééééé".length = 16 ∧ strlen "éééééééééééééééé" = 32 ∧
    setCommand sampleSetEnv ["set", "species", "1", "govt-type", "éééééééééééééééé"]
      sampleSetStore = some (2, sampleSetStore) :=
  ⟨by decide, by decide,
    (set_govt_type sampleSetEnv sampleSetStore "set" "1" "éééééééééééééééé" (by decide)
      (by decide) (by decide)).2.1 (by decide)⟩

/-! ## The orbit of a location -/

/-- C15 (divergence of the code): `marshalLocation` never adds a member named `orbit`.
For the location `orbitLocation`, whose colony name is empty and whose orbit is 3, the
node is `orbitLocationNode`: its keys are `x`, `y`, `z`, `z`, `in_orbit`, the orbit
being added under the key `z` a second time (line 617), and it has no member `orbit`.
When the orbit is zero the node has `x`, `y`, `z` once each and no `orbit`, as
claimed. -/
theorem location_orbit_never_emitted :
    (∀ l : global_location, (marshalLocation l).member "orbit" = none) ∧
    (orbitLocation.colony = "" ∧ orbitLocation.orbit = 3) ∧
    marshalLocation orbitLocation = orbitLocationNode ∧
    (marshalLocation orbitLocation).keys = ["x", "y", "z", "z", "in_orbit"] ∧
    (marshalLocation orbitLocation).member "orbit" = none ∧
    (marshalLocation { orbitLocation with orbit := 0 }).keys = ["x", "y", "z", "in_orbit"] := by
  refine ⟨?_, ⟨rfl, rfl⟩, rfl, rfl, rfl, rfl⟩
  intro l
  simp only [marshalLocation, json_value_t.member]
  split <;>
    simp [lookupKey, lookupKey_add, lookupKey_add_if, lookupKey_add_last,
      lookupKey_add_if_last]

/-! ## Distinct keys -/

/-- C16 (divergence of the code): with the engine `compactEngine`, whose item codes are
pairwise distinct, the export of `orbitStore` (one species that owns a ship in orbit 3
and has no colony) is defined and is `orbitDocument`, in which the location node of the
ship was given the key `z` twice: not every map node of the tree has pairwise distinct
keys. -/
theorem location_key_added_twice :
    ((List.range compactEngine.MAX_ITEMS).map compactEngine.item_abbr).Nodup ∧
    exportDocument compactEngine orbitStore = some orbitDocument ∧
    orbitDocument.forallNodes distinctKeys = false ∧
    ∃ snode shnode loc,
      (speciesNodes orbitDocument)[0]? = some snode ∧
      (shipNodes snode)[0]? = some shnode ∧
      shnode.member "location" = some loc ∧
      loc.keys = ["x", "y", "z", "z", "in_orbit"] ∧
      distinctKeys loc = false := by
  refine ⟨by decide, rfl, by decide, orbitSpeciesNode, orbitShipNode, orbitLocationNode,
    rfl, rfl, rfl, rfl, by decide⟩

/-! ## A colony that matches no system -/

/-- C17 (divergence of the code): in `strandedStore` the only colony, stored at
(1, 2, 3), matches no star of the store (the only star is at (10, 20, 30)) and its
species owns one ship.  The scan of the colonies for the location of the ship (lines
431-437) reads the coordinates through the unset system reference of the colony, so the
export has no defined result.  Without the ship the export is defined and the colony node
lacks `system` and `orbit`. -/
theorem unresolved_colony_breaks_ship_scan :
    (∀ star ∈ strandedStore.star_base,
      ¬ (star.x = strandedNampla.system.x ∧ star.y = strandedNampla.system.y ∧
         star.z = strandedNampla.system.z)) ∧
    exportData sampleEngine strandedStore = none ∧
    exportDocument sampleEngine strandedStore = none ∧
    ∃ doc snode,
      exportDocument sampleEngine strandedStoreNoShips = some doc ∧
      (speciesNodes doc)[0]? = some snode ∧
      (colonyNodes snode)[0]? = some strandedColonyNode ∧
      strandedColonyNode.member "system" = none ∧
      strandedColonyNode.member "orbit" = none := by
  refine ⟨by decide, rfl, rfl, _, _, rfl, rfl, rfl, rfl, rfl⟩

/-! ## Resolution of a colony to its system and planet -/

theorem mapOpt_find? {α β : Type} (f : α → Option β) (p : α → Bool) (q : β → Bool)
    (hpq : ∀ a b, f a = some b → q b = p a) :
    ∀ (l : List α) (r : List β), mapOpt f l = some r →
      r.find? q = (l.find? p).bind f := by
  intro l
  induction l with
  | nil =>
    intro r h
    simp [mapOpt] at h
    subst h
    simp
  | cons a l ih =>
    intro r h
    unfold mapOpt at h
    cases hfa : f a with
    | none => simp [hfa] at h
    | some b =>
      cases hrest : mapOpt f l with
      | none => simp [hfa, hrest] at h
      | some bs =>
        simp [hfa, hrest] at h
        subst h
        simp only [List.find?_cons, hpq a b hfa]
        cases p a with
        | true => simp [hfa]
        | false => exact ih bs hrest

/-- The system that a colony is resolved to is the one built from the first star at the
coordinates of the colony. -/
theorem findSystem_mapOpt (env : Engine) (n : Nat) (stars : List star_data)
    (systems : List global_system) (hsys : mapOpt (exportSystem env n) stars = some systems)
    (x y z : Int) :
    findSystem systems x y z = (firstStarAt stars x y z).bind (exportSystem env n) := by
  unfold findSystem firstStarAt
  apply mapOpt_find? _ _ _ _ stars systems hsys
  intro star sys hbuild
  obtain ⟨hrec, _⟩ := exportSystem_some env n star sys hbuild
  rw [hrec]

/-- The planet that a colony is resolved to, among the planets built for a star, is the
one built from the first planet of the star at the orbit of the colony. -/
theorem findPlanet_map (env : Engine) (planets : List planet_data) (orbit : Int) :
    findPlanet (planets.map (exportPlanet env)) orbit
      = (firstPlanetAt planets orbit).map (exportPlanet env) := by
  unfold findPlanet firstPlanetAt
  induction planets with
  | nil => rfl
  | cons a l ih =>
    simp only [List.map_cons, List.find?_cons]
    have h : (exportPlanet env a).orbit = a.orbit := rfl
    rw [h]
    cases orbit == a.orbit with
    | true => rfl
    | false => exact ih

/-- The system and planet references of a colony built against the systems of the
store, in terms of the star and planet records. -/
theorem exportColony_references (env : Engine) (n : Nat) (stars : List star_data)
    (systems : List global_system) (hsys : mapOpt (exportSystem env n) stars = some systems)
    (c : Nat) (nampla : nampla_data) :
    ((exportColony env systems c nampla).location.system.map fun system => system.id)
      = ((firstStarAt stars nampla.system.x nampla.system.y nampla.system.z).map
          fun star => star.id) ∧
    ((exportColony env systems c nampla).location.planet.map fun planet => planet.orbit)
      = ((firstStarAt stars nampla.system.x nampla.system.y nampla.system.z).bind
          fun star => (firstPlanetAt star.planets nampla.planet.orbit).map
            fun planet => planet.orbit) ∧
    ((exportColony env systems c nampla).location.system = none →
      (exportColony env systems c nampla).location.planet = none) := by
  have hloc : (exportColony env systems c nampla).location.system
      = findSystem systems nampla.system.x nampla.system.y nampla.system.z := rfl
  have hpl : (exportColony env systems c nampla).location.planet
      = match findSystem systems nampla.system.x nampla.system.y nampla.system.z with
        | none => none
        | some sys => findPlanet sys.planets nampla.planet.orbit := rfl
  rw [hloc, hpl, findSystem_mapOpt env n stars systems hsys]
  cases hf : firstStarAt stars nampla.system.x nampla.system.y nampla.system.z with
  | none => simp
  | some star =>
    have hmem : star ∈ stars := List.mem_of_find?_eq_some hf
    obtain ⟨sys, _, hbuild⟩ := (mapOpt_mem _ _ _ hsys).1 star hmem
    obtain ⟨hrec, _⟩ := exportSystem_some env n star sys hbuild
    have hid : sys.id = star.id := by rw [hrec]
    have hplanets : sys.planets = star.planets.map (exportPlanet env) := by rw [hrec]
    have hb : (some star).bind (exportSystem env n) = some sys := hbuild
    rw [hb]
    refine ⟨by simp [hid], ?_, ?_⟩
    · simp only [hplanets, findPlanet_map, Option.some_bind]
      cases firstPlanetAt star.planets nampla.planet.orbit <;> rfl
    · intro h
      cases h

/-- C19: for every store on which the export is defined and every colony record of a
species, the colony node has the member `system` exactly when some star of the store has
the stored coordinates of the colony, and it is then the id of the first such star in
store order (the order of the systems of the cluster); it has the member `orbit` exactly
when, in addition, a planet of that first star has the stored orbit of the colony, and
it is then the orbit of the first such planet.  When the first matching star has no such
planet the node has no `orbit` (no later star is consulted), and when no star matches
it has neither member. -/
theorem colony_resolution_first_match (env : Engine) (st : Store) (doc : json_value_t)
    (hdoc : exportDocument env st = some doc) (i : Nat) (sp : species_data)
    (hsp : st.spec_data[i]? = some sp) (c : Nat) (nampla : nampla_data)
    (hc : sp.namplas[c]? = some nampla) :
    ∃ snode cnode : json_value_t,
      (speciesNodes doc)[i]? = some snode ∧ (colonyNodes snode)[c]? = some cnode ∧
      cnode.member "system"
        = ((firstStarAt st.star_base nampla.system.x nampla.system.y nampla.system.z).map
            fun star => json_number star.id) ∧
      cnode.member "orbit"
        = ((firstStarAt st.star_base nampla.system.x nampla.system.y nampla.system.z).bind
            fun star => (firstPlanetAt star.planets nampla.planet.orbit).map
              fun planet => json_number planet.orbit) := by
  obtain ⟨g, hg, rfl⟩ := exportDocument_some env st doc hdoc
  obtain ⟨snode, hs, hcn⟩ := colonyNodes_at env st g hg i sp hsp c nampla hc
  have hsys := (exportData_some env st g hg).2.2.2.2.1
  obtain ⟨h1, h2, h3⟩ := exportColony_references env st.num_species st.star_base
    g.cluster.systems hsys c nampla
  refine ⟨snode, _, hs, hcn, ?_, ?_⟩
  · rw [member_system]
    generalize (exportColony env g.cluster.systems c nampla).location.system = a at h1
    generalize firstStarAt st.star_base nampla.system.x nampla.system.y nampla.system.z = s
      at h1
    cases a <;> cases s <;> simp_all
  · rw [member_orbit]
    generalize (exportColony env g.cluster.systems c nampla).location.system = a at h1 h3
    generalize (exportColony env g.cluster.systems c nampla).location.planet = b at h2 h3
    generalize firstStarAt st.star_base nampla.system.x nampla.system.y nampla.system.z = s
      at h1 h2
    cases a with
    | none =>
      have hb := h3 rfl
      subst hb
      cases s with
      | none => rfl
      | some star =>
        cases hfp : firstPlanetAt star.planets nampla.planet.orbit <;> simp_all
    | some sys =>
      cases s with
      | none => simp at h1
      | some star =>
        cases hfp : firstPlanetAt star.planets nampla.planet.orbit <;>
          cases b <;> simp_all

/-- Witness of C19 on the store of the examples: the colony of the first species. -/
theorem colony_resolution_first_match_witness :
    ∃ snode cnode : json_value_t,
      (speciesNodes sampleDocument)[0]? = some snode ∧
      (colonyNodes snode)[0]? = some cnode ∧
      cnode.member "system"
        = ((firstStarAt sampleStore.star_base sampleHomeworld.system.x
            sampleHomeworld.system.y sampleHomeworld.system.z).map
            fun star => json_number star.id) ∧
      cnode.member "orbit"
        = ((firstStarAt sampleStore.star_base sampleHomeworld.system.x
            sampleHomeworld.system.y sampleHomeworld.system.z).bind
            fun star => (firstPlanetAt star.planets sampleHomeworld.planet.orbit).map
              fun planet => json_number planet.orbit) :=
  colony_resolution_first_match sampleEngine sampleStore sampleDocument
    exportDocument_sampleStore 0 sampleSpecies1 rfl 0 sampleHomeworld rfl

/-! ## Resolution of a ship to a colony -/

/-- The colony name shown by the location node of a ship of the export graph is the
name copied into its location. -/
theorem locationColony_marshalLocation (l : global_location) :
    locationColony (marshalLocation l) = l.colony := by
  unfold locationColony
  rw [location_member_colony]
  by_cases h : l.colony = ""
  · simp [h]
  · simp [h, json_string]

/-- C20: for every store on which the export is defined and every exported ship of a
species, the colony name shown by the location node of the ship (the string under
`colony`, the empty string when the node has no such member) is the name of the first
colony record of the species, in store order, that resolves to a system with the
coordinates `(x, y, z)` of the ship, and the empty string when there is none: neither
the orbit `pn` of the ship nor the planet of the colony takes part.  Hence every
exported ship of the species with the same coordinates shows the same colony name. -/
theorem ship_colony_first_match (env : Engine) (st : Store) (doc : json_value_t)
    (hdoc : exportDocument env st = some doc) (i : Nat) (sp : species_data)
    (hsp : st.spec_data[i]? = some sp) (t : Nat) (ship : ship_data)
    (ht : (exportedShips sp)[t]? = some ship) :
    ∃ snode shnode loc : json_value_t,
      (speciesNodes doc)[i]? = some snode ∧ (shipNodes snode)[t]? = some shnode ∧
      shnode.member "location" = some loc ∧
      locationColony loc
        = ((sp.namplas.find? fun nampla =>
              nampla.resolvesAt st.star_base ship.x ship.y ship.z).map
            fun nampla => nampla.name).getD "" ∧
      ∀ (u : Nat) (other : ship_data), (exportedShips sp)[u]? = some other →
        other.x = ship.x → other.y = ship.y → other.z = ship.z →
        ∃ shnode2 loc2 : json_value_t,
          (shipNodes snode)[u]? = some shnode2 ∧ shnode2.member "location" = some loc2 ∧
          locationColony loc2 = locationColony loc := by
  obtain ⟨g, hg, rfl⟩ := exportDocument_some env st doc hdoc
  obtain ⟨snode, p, hs, hp, hsh⟩ := shipNodes_at env st g hg i sp hsp t ship ht
  have hcol := ship_location_colony env st g hg sp ship p hp
  refine ⟨snode, marshalShip env p, marshalLocation p.location, hs, hsh,
    member_location env p, ?_, ?_⟩
  · rw [locationColony_marshalLocation, hcol]
  · intro u other hu hx hy hz
    obtain ⟨snode2, p2, hs2, hp2, hsh2⟩ := shipNodes_at env st g hg i sp hsp u other hu
    have hsame : snode2 = snode := by
      rw [hs] at hs2
      injection hs2 with hs2
      exact hs2.symm
    subst hsame
    have hcol2 := ship_location_colony env st g hg sp other p2 hp2
    refine ⟨marshalShip env p2, marshalLocation p2.location, hsh2, member_location env p2, ?_⟩
    rw [locationColony_marshalLocation, locationColony_marshalLocation, hcol, hcol2, hx, hy, hz]

/-- Witness of C20 on the sixth store of the examples, whose species has two colonies in
one system: the ship in deep space shows the name of the first colony, and so does the
ship in orbit 2, the orbit of the second colony. -/
theorem ship_colony_first_match_witness :
    ∃ doc snode shnode loc : json_value_t,
      exportDocument sampleEngine twinStore = some doc ∧
      (speciesNodes doc)[0]? = some snode ∧ (shipNodes snode)[0]? = some shnode ∧
      shnode.member "location" = some loc ∧
      locationColony loc = "Homeworld" ∧
      ∀ (u : Nat) (other : ship_data), (exportedShips twinSpecies)[u]? = some other →
        other.x = sampleDrifter.x → other.y = sampleDrifter.y → other.z = sampleDrifter.z →
        ∃ shnode2 loc2 : json_value_t,
          (shipNodes snode)[u]? = some shnode2 ∧ shnode2.member "location" = some loc2 ∧
          locationColony loc2 = locationColony loc := by
  cases h : exportDocument sampleEngine twinStore with
  | none => exact absurd (congrArg Option.isSome h) (by decide)
  | some doc =>
    obtain ⟨snode, shnode, loc, h1, h2, h3, h4, h5⟩ :=
      ship_colony_first_match sampleEngine twinStore doc h 0 twinSpecies rfl 0 sampleDrifter
        rfl
    exact ⟨doc, snode, shnode, loc, rfl, h1, h2, h3, h4, h5⟩

/-! ## Gas lists -/

/-- The document node of a gas entry that carries a code and a percentage only. -/
theorem marshalGas_planet (code : String) (pct : Int) :
    marshalGas { code := code, atmos_pct := pct, min_pct := 0, max_pct := 0, required := 0 }
      = json_value_t.map
          (json_add "code" (json_string code) ++
            json_add_if (pct != 0) "atmos_pct" (json_number pct)) := by
  simp [marshalGas, json_add_if]

/-- The gas list of the planet node built from a planet record. -/
theorem planet_gases_node (env : Engine) (planet : planet_data) :
    (marshalPlanet (exportPlanet env planet)).member "gases"
      = some (json_value_t.list
          (((List.range 4).filter fun g => planet.gas g != 0).map fun g =>
            json_value_t.map
              (json_add "code" (json_string (env.gas_string (planet.gas g))) ++
                json_add_if (planet.gas_percent g != 0) "atmos_pct"
                  (json_number (planet.gas_percent g))))) := by
  rw [member_gases]
  have hg : (exportPlanet env planet).gases = exportPlanetGases env planet := rfl
  rw [hg, exportPlanetGases, filterMap_ite_eq, marshalGases, List.map_map]
  congr 2
  apply List.map_congr_left
  intro g _
  exact marshalGas_planet _ _

/-- C21 fails as stated: the first gas slot of `thinPlanet` holds gas 7 with a stored
percentage of zero; the planet node of the seventh store of the examples lists an
entry for that slot with the code "O2", and this entry has no member `atmos_pct`. -/
theorem planet_gas_percent_counterexample :
    thinPlanet.gas 0 = 7 ∧ thinPlanet.gas_percent 0 = 0 ∧
    ∃ doc snode pnode entry : json_value_t, ∃ gases : List json_value_t,
      exportDocument sampleEngine thinStore = some doc ∧
      (systemNodes doc)[0]? = some snode ∧ (planetNodes snode)[0]? = some pnode ∧
      pnode.member "gases" = some (json_value_t.list gases) ∧
      gases[0]? = some entry ∧
      entry.member "code" = some (json_string "O2") ∧
      entry.member "atmos_pct" = none :=
  ⟨rfl, rfl, _, _, _, _, _, rfl, rfl, rfl, rfl, rfl, rfl, rfl⟩

/-- C21, amended: for every planet record of a store on which the export is defined, the
`gases` list of the planet node has exactly one entry per slot `g` in 0..3 with
`gas[g] != 0`, in increasing slot order (the slots may be sparse); the entry of slot `g`
has the member `code` equal to `gas_string[gas[g]]`, followed by the member `atmos_pct`
equal to `gas_percent[g]` when that percentage is not zero, and it has no other member
(no `atmos_pct` when the percentage is zero). -/
theorem planet_gases_exact (env : Engine) (st : Store) (doc : json_value_t)
    (hdoc : exportDocument env st = some doc) (j : Nat) (star : star_data)
    (hstar : st.star_base[j]? = some star) (q : Nat) (planet : planet_data)
    (hq : star.planets[q]? = some planet) :
    ∃ snode pnode : json_value_t,
      (systemNodes doc)[j]? = some snode ∧ (planetNodes snode)[q]? = some pnode ∧
      pnode.member "gases"
        = some (json_value_t.list
            (((List.range 4).filter fun g => planet.gas g != 0).map fun g =>
              json_value_t.map
                (json_add "code" (json_string (env.gas_string (planet.gas g))) ++
                  json_add_if (planet.gas_percent g != 0) "atmos_pct"
                    (json_number (planet.gas_percent g))))) := by
  obtain ⟨g, hg, rfl⟩ := exportDocument_some env st doc hdoc
  obtain ⟨snode, hs, hp⟩ := planetNodes_at env st g hg j star hstar q planet hq
  exact ⟨snode, _, hs, hp, planet_gases_node env planet⟩

/-- Witness of C21 (amended) on the seventh store of the examples: the planet with
sparse gas slots. -/
theorem planet_gases_exact_witness :
    ∃ doc snode pnode : json_value_t,
      exportDocument sampleEngine thinStore = some doc ∧
      (systemNodes doc)[0]? = some snode ∧ (planetNodes snode)[0]? = some pnode ∧
      pnode.member "gases"
        = some (json_value_t.list
            [json_value_t.map [("code", json_string "O2")],
             json_value_t.map [("code", json_string "N2"), ("atmos_pct", json_number 30)]]) := by
  cases h : exportDocument sampleEngine thinStore with
  | none => exact absurd (congrArg Option.isSome h) (by decide)
  | some doc =>
    obtain ⟨snode, pnode, h1, h2, h3⟩ :=
      planet_gases_exact sampleEngine thinStore doc h 0 thinStar rfl 0 thinPlanet rfl
    exact ⟨doc, snode, pnode, rfl, h1, h2, h3⟩

/-- The longest prefix of `0 .. n - 1` whose indices satisfy `p` stops before every index
that does not satisfy `p`. -/
theorem takeWhile_range_length_le (p : Nat → Bool) (n g : Nat) (hp : p g = false) :
    ((List.range n).takeWhile p).length ≤ g := by
  by_contra hlt
  have hlt : g < ((List.range n).takeWhile p).length := by omega
  have hpre : (List.range n).takeWhile p <+: List.range n := List.takeWhile_prefix p
  have hmem : ((List.range n).takeWhile p)[g] ∈ (List.range n).takeWhile p :=
    List.getElem_mem _
  have hval : ((List.range n).takeWhile p)[g] = g := by
    have hlen : g < (List.range n).length := lt_of_lt_of_le hlt hpre.length_le
    rw [hpre.getElem hlt]
    simp
  rw [hval] at hmem
  have := List.mem_takeWhile_imp hmem
  rw [hp] at this
  cases this

/-- The document node of a gas list read from the six slots of a species. -/
theorem species_gas_list_node (env : Engine) (slots : Nat → Int) :
    marshalGases (exportGasList env slots)
      = json_value_t.list
          (((List.range 6).takeWhile fun g => slots g != 0).map fun g =>
            json_value_t.map (json_add "code" (json_string (env.gas_string (slots g))))) := by
  rw [marshalGases, exportGasList, List.map_map]
  rfl

/-- C22: for every species record of a store on which the export is defined, the list
`neutral_gases` (resp. `poison_gases`) of the species node is exactly the longest prefix
of the six stored `neutral_gas` (resp. `poison_gas`) slots that contains no zero, each
slot mapped to a node whose only member is `code`, the gas code of the slot, in slot
order; the list stops before the first zero slot, so a non-zero slot after it is not
exported. -/
theorem species_gas_lists_prefix (env : Engine) (st : Store) (doc : json_value_t)
    (hdoc : exportDocument env st = some doc) (i : Nat) (sp : species_data)
    (hsp : st.spec_data[i]? = some sp) :
    ∃ (snode : json_value_t) (neutral poison : List json_value_t),
      (speciesNodes doc)[i]? = some snode ∧
      snode.member "neutral_gases" = some (json_value_t.list neutral) ∧
      neutral = (((List.range 6).takeWhile fun g => sp.neutral_gas g != 0).map fun g =>
        json_value_t.map (json_add "code" (json_string (env.gas_string (sp.neutral_gas g))))) ∧
      (∀ g, sp.neutral_gas g = 0 → neutral.length ≤ g) ∧
      snode.member "poison_gases" = some (json_value_t.list poison) ∧
      poison = (((List.range 6).takeWhile fun g => sp.poison_gas g != 0).map fun g =>
        json_value_t.map (json_add "code" (json_string (env.gas_string (sp.poison_gas g))))) ∧
      (∀ g, sp.poison_gas g = 0 → poison.length ≤ g) := by
  obtain ⟨g, hg, rfl⟩ := exportDocument_some env st doc hdoc
  obtain ⟨s, hs, _, hnode⟩ := speciesNodes_at env st g hg i sp hsp
  obtain ⟨hfields, _⟩ := exportSpecies_some env _ _ i sp s hs
  have hn : s.neutral_gases = exportGasList env sp.neutral_gas := by rw [hfields]
  have hp : s.poison_gases = exportGasList env sp.poison_gas := by rw [hfields]
  refine ⟨marshalSpecie env s, _, _, hnode, ?_, rfl, ?_, ?_, rfl, ?_⟩
  · rw [member_neutral_gases, hn, species_gas_list_node]
  · intro k hk
    rw [List.length_map]
    exact takeWhile_range_length_le _ 6 k (by simp [hk])
  · rw [member_poison_gases, hp, species_gas_list_node]
  · intro k hk
    rw [List.length_map]
    exact takeWhile_range_length_le _ 6 k (by simp [hk])

/-- Witness of C22 on the eighth store of the examples: the neutral gas slots 1, 2, 0, 3,
0, 0 give the two codes of the slots before the gap. -/
theorem species_gas_lists_prefix_witness :
    ∃ (doc snode : json_value_t) (neutral poison : List json_value_t),
      exportDocument sampleEngine gapStore = some doc ∧
      (speciesNodes doc)[0]? = some snode ∧
      snode.member "neutral_gases" = some (json_value_t.list neutral) ∧
      neutral = [json_value_t.map [("code", json_string "H2")],
                 json_value_t.map [("code", json_string "CH4")]] ∧
      (∀ g, gapSpecies.neutral_gas g = 0 → neutral.length ≤ g) ∧
      snode.member "poison_gases" = some (json_value_t.list poison) ∧
      poison = [] ∧
      (∀ g, gapSpecies.poison_gas g = 0 → poison.length ≤ g) := by
  cases h : exportDocument sampleEngine gapStore with
  | none => exact absurd (congrArg Option.isSome h) (by decide)
  | some doc =>
    obtain ⟨snode, neutral, poison, h1, h2, h3, h4, h5, h6, h7⟩ :=
      species_gas_lists_prefix sampleEngine gapStore doc h 0 gapSpecies rfl
    exact ⟨doc, snode, neutral, poison, rfl, h1, h2, h3, h4, h5, h6, h7⟩

/-! ## Travel status -/

theorem flagMember_beq_ne_none (a b : Int) : flagMember (a == b) ≠ none ↔ a = b := by
  by_cases h : a = b
  · simp [flagMember, h]
  · have hb : (a == b) = false := beq_eq_false_iff_ne.mpr h
    simp [flagMember, hb, h]

/-- C23: for every exported ship of a store on which the export is defined, the engine
constants IN_DEEP_SPACE, IN_ORBIT and ON_SURFACE being pairwise distinct, each of the
members `deep_space`, `in_orbit`, `on_surface` of the location node of the ship is the
boolean true when the stored status code is the matching constant and is absent
otherwise, so at most one of the three appears. -/
theorem travel_status_flags_exclusive (env : Engine)
    (hdistinct : env.IN_DEEP_SPACE ≠ env.IN_ORBIT ∧ env.IN_DEEP_SPACE ≠ env.ON_SURFACE ∧
      env.IN_ORBIT ≠ env.ON_SURFACE)
    (st : Store) (doc : json_value_t)
    (hdoc : exportDocument env st = some doc) (i : Nat) (sp : species_data)
    (hsp : st.spec_data[i]? = some sp) (t : Nat) (ship : ship_data)
    (ht : (exportedShips sp)[t]? = some ship) :
    ∃ snode shnode loc : json_value_t,
      (speciesNodes doc)[i]? = some snode ∧ (shipNodes snode)[t]? = some shnode ∧
      shnode.member "location" = some loc ∧
      loc.member "deep_space" = flagMember (ship.status == env.IN_DEEP_SPACE) ∧
      loc.member "in_orbit" = flagMember (ship.status == env.IN_ORBIT) ∧
      loc.member "on_surface" = flagMember (ship.status == env.ON_SURFACE) ∧
      ¬ (loc.member "deep_space" ≠ none ∧ loc.member "in_orbit" ≠ none) ∧
      ¬ (loc.member "deep_space" ≠ none ∧ loc.member "on_surface" ≠ none) ∧
      ¬ (loc.member "in_orbit" ≠ none ∧ loc.member "on_surface" ≠ none) := by
  obtain ⟨h1, h2, h3⟩ := hdistinct
  obtain ⟨g, hg, rfl⟩ := exportDocument_some env st doc hdoc
  obtain ⟨snode, p, hs, hp, hsh⟩ := shipNodes_at env st g hg i sp hsp t ship ht
  have hloc := exportShip_location env _ ship p hp
  obtain ⟨hd, ho, hf⟩ := location_flag_members p.location
  have hd2 : (marshalLocation p.location).member "deep_space"
      = flagMember (ship.status == env.IN_DEEP_SPACE) := by
    rw [hd, hloc]
    by_cases h : ship.status = env.IN_DEEP_SPACE
    · simp [h]
    · have hb : (ship.status == env.IN_DEEP_SPACE) = false := beq_eq_false_iff_ne.mpr h
      simp [h, hb]
  have ho2 : (marshalLocation p.location).member "in_orbit"
      = flagMember (ship.status == env.IN_ORBIT) := by
    rw [ho, hloc]
    by_cases h : ship.status = env.IN_ORBIT
    · simp [h]
    · have hb : (ship.status == env.IN_ORBIT) = false := beq_eq_false_iff_ne.mpr h
      simp [h, hb]
  have hf2 : (marshalLocation p.location).member "on_surface"
      = flagMember (ship.status == env.ON_SURFACE) := by
    rw [hf, hloc]
    by_cases h : ship.status = env.ON_SURFACE
    · simp [h]
    · have hb : (ship.status == env.ON_SURFACE) = false := beq_eq_false_iff_ne.mpr h
      simp [h, hb]
  refine ⟨snode, marshalShip env p, marshalLocation p.location, hs, hsh,
    member_location env p, hd2, ho2, hf2, ?_, ?_, ?_⟩
  · rw [hd2, ho2, flagMember_beq_ne_none, flagMember_beq_ne_none]
    rintro ⟨ha, hb⟩
    exact h1 (ha.symm.trans hb)
  · rw [hd2, hf2, flagMember_beq_ne_none, flagMember_beq_ne_none]
    rintro ⟨ha, hb⟩
    exact h2 (ha.symm.trans hb)
  · rw [ho2, hf2, flagMember_beq_ne_none, flagMember_beq_ne_none]
    rintro ⟨ha, hb⟩
    exact h3 (ha.symm.trans hb)

/-- Witness of C23 on the fourth store of the examples: the ship in orbit. -/
theorem travel_status_flags_exclusive_witness :
    ∃ snode shnode loc : json_value_t,
      (speciesNodes orbitDocument)[0]? = some snode ∧ (shipNodes snode)[0]? = some shnode ∧
      shnode.member "location" = some loc ∧
      loc.member "deep_space" = flagMember (orbitShip.status == sampleEngine.IN_DEEP_SPACE) ∧
      loc.member "in_orbit" = flagMember (orbitShip.status == sampleEngine.IN_ORBIT) ∧
      loc.member "on_surface" = flagMember (orbitShip.status == sampleEngine.ON_SURFACE) ∧
      ¬ (loc.member "deep_space" ≠ none ∧ loc.member "in_orbit" ≠ none) ∧
      ¬ (loc.member "deep_space" ≠ none ∧ loc.member "on_surface" ≠ none) ∧
      ¬ (loc.member "in_orbit" ≠ none ∧ loc.member "on_surface" ≠ none) :=
  travel_status_flags_exclusive sampleEngine ⟨by decide, by decide, by decide⟩ orbitStore
    orbitDocument exportDocument_orbitStore 0 orbitSpecies rfl 0 orbitShip rfl

/-! ## Development orders -/

theorem member_develop (c : global_colony) :
    (marshalColony c).member "develop" = marshalDevelopList c.develop := by
  simp only [marshalColony, json_value_t.member, List.append_assoc, lookupKey_add]
  cases c.location.system <;> cases c.location.planet <;> cases marshalDevelopList c.develop <;>
    simp [lookupKey, lookupKey_add, lookupKey_add_if, lookupKey_add_opt, lookupKey_add_last,
      lookupKey_add_if_last]

/-- C24: for every colony record of a store on which the export is defined, the colony
node has the member `develop` exactly when at least one of the six development fields of
the record is non-zero; the member is then the list that holds the "AU" order if and
only if one of `auto_AUs`, `AUs_needed`, `AUs_to_install` is non-zero, followed by the
"IU" order if and only if one of `auto_IUs`, `IUs_needed`, `IUs_to_install` is
non-zero: at most two orders, "AU" before "IU". -/
theorem develop_orders_exact (env : Engine) (st : Store) (doc : json_value_t)
    (hdoc : exportDocument env st = some doc) (i : Nat) (sp : species_data)
    (hsp : st.spec_data[i]? = some sp) (c : Nat) (nampla : nampla_data)
    (hc : sp.namplas[c]? = some nampla) :
    ∃ snode cnode : json_value_t,
      (speciesNodes doc)[i]? = some snode ∧ (colonyNodes snode)[c]? = some cnode ∧
      cnode.member "develop"
        = (if (nampla.auto_AUs != 0 || nampla.AUs_needed != 0 || nampla.AUs_to_install != 0) ||
              (nampla.auto_IUs != 0 || nampla.IUs_needed != 0 || nampla.IUs_to_install != 0)
           then
            some (json_value_t.list
              ((if nampla.auto_AUs != 0 || nampla.AUs_needed != 0 ||
                    nampla.AUs_to_install != 0 then
                  [marshalDevelop
                    { code := "AU", auto_install := nampla.auto_AUs,
                      units_needed := nampla.AUs_needed,
                      units_to_install := nampla.AUs_to_install }]
                else []) ++
               (if nampla.auto_IUs != 0 || nampla.IUs_needed != 0 ||
                    nampla.IUs_to_install != 0 then
                  [marshalDevelop
                    { code := "IU", auto_install := nampla.auto_IUs,
                      units_needed := nampla.IUs_needed,
                      units_to_install := nampla.IUs_to_install }]
                else [])))
           else none) := by
  obtain ⟨g, hg, rfl⟩ := exportDocument_some env st doc hdoc
  obtain ⟨snode, hs, hcn⟩ := colonyNodes_at env st g hg i sp hsp c nampla hc
  refine ⟨snode, _, hs, hcn, ?_⟩
  rw [member_develop, marshalDevelopList_eq]
  have hd : (exportColony env g.cluster.systems c nampla).develop = exportDevelop nampla := rfl
  rw [hd, exportDevelop]
  cases ha : (nampla.auto_AUs != 0 || nampla.AUs_needed != 0 || nampla.AUs_to_install != 0) <;>
    cases hi : (nampla.auto_IUs != 0 || nampla.IUs_needed != 0 ||
      nampla.IUs_to_install != 0) <;>
    simp

/-- Witness of C24 on the ninth store of the examples: the colony with 3 units needed
for "AU" and automatic installation for "IU" has both orders, "AU" first. -/
theorem develop_orders_exact_witness :
    ∃ doc snode cnode : json_value_t,
      exportDocument sampleEngine builderStore = some doc ∧
      (speciesNodes doc)[0]? = some snode ∧
      (colonyNodes snode)[0]? = some cnode ∧
      cnode.member "develop"
        = some (json_value_t.list
            [json_value_t.map [("code", json_string "AU"), ("units_needed", json_number 3)],
             json_value_t.map [("code", json_string "IU"), ("auto_install", json_number 1)]]) := by
  cases h : exportDocument sampleEngine builderStore with
  | none => exact absurd (congrArg Option.isSome h) (by decide)
  | some doc =>
    obtain ⟨snode, cnode, h1, h2, h3⟩ :=
      develop_orders_exact sampleEngine builderStore doc h 0 builderSpecies rfl 0
        builderNampla rfl
    exact ⟨doc, snode, cnode, rfl, h1, h2, h3⟩

/-! ## The homeworld -/

/-- C25: for every species of a store on which the export is defined, the `colonies`
list of the species node has one node per colony record; its first node, which exists
when the species has at least one colony, has the member `homeworld` (the boolean true),
and no later node has a member `homeworld`. -/
theorem homeworld_is_first_colony (env : Engine) (st : Store) (doc : json_value_t)
    (hdoc : exportDocument env st = some doc) (i : Nat) (sp : species_data)
    (hsp : st.spec_data[i]? = some sp) :
    ∃ snode : json_value_t,
      (speciesNodes doc)[i]? = some snode ∧
      (colonyNodes snode).length = sp.namplas.length ∧
      (∀ cnode, (colonyNodes snode)[0]? = some cnode →
        cnode.member "homeworld" = some (json_value_t.boolean true)) ∧
      (∀ c cnode, 0 < c → (colonyNodes snode)[c]? = some cnode →
        cnode.member "homeworld" = none) := by
  obtain ⟨g, hg, rfl⟩ := exportDocument_some env st doc hdoc
  obtain ⟨s, hs, _, hnode⟩ := speciesNodes_at env st g hg i sp hsp
  obtain ⟨hfields, _⟩ := exportSpecies_some env _ _ i sp s hs
  have hcols : s.colonies = exportColonies env g.cluster.systems 0 sp.namplas := by
    rw [hfields]
  have hflag : ∀ c cnode, (colonyNodes (marshalSpecie env s))[c]? = some cnode →
      cnode.member "homeworld" = flagMember (c == 0) := by
    intro c cnode hcn
    rw [colonyNodes_marshalSpecie, hcols, List.getElem?_map, exportColonies_getElem?] at hcn
    cases hn : sp.namplas[c]? with
    | none => simp [hn] at hcn
    | some nampla =>
      simp only [hn, Option.map_some', Option.some.injEq] at hcn
      subst hcn
      rw [(colony_flag_members _).1]
      have hh : (exportColony env g.cluster.systems (0 + c) nampla).homeworld
          = if 0 + c = 0 then 1 else 0 := rfl
      rw [hh]
      cases c <;> simp
  refine ⟨marshalSpecie env s, hnode, ?_, ?_, ?_⟩
  · rw [colonyNodes_marshalSpecie, hcols, List.length_map, exportColonies_length]
  · intro cnode hcn
    rw [hflag 0 cnode hcn]
    rfl
  · intro c cnode hpos hcn
    rw [hflag c cnode hcn]
    have hc0 : (c == 0) = false := by
      cases c with
      | zero => omega
      | succ c => rfl
    rw [hc0]
    rfl

/-- Witness of C25 on the sixth store of the examples: the species with two colonies. -/
theorem homeworld_is_first_colony_witness :
    ∃ doc snode : json_value_t,
      exportDocument sampleEngine twinStore = some doc ∧
      (speciesNodes doc)[0]? = some snode ∧
      (colonyNodes snode).length = 2 ∧
      (∀ cnode, (colonyNodes snode)[0]? = some cnode →
        cnode.member "homeworld" = some (json_value_t.boolean true)) ∧
      (∀ c cnode, 0 < c → (colonyNodes snode)[c]? = some cnode →
        cnode.member "homeworld" = none) := by
  cases h : exportDocument sampleEngine twinStore with
  | none => exact absurd (congrArg Option.isSome h) (by decide)
  | some doc =>
    obtain ⟨snode, h1, h2, h3, h4⟩ :=
      homeworld_is_first_colony sampleEngine twinStore doc h 0 twinSpecies rfl
    exact ⟨doc, snode, rfl, h1, h2, h3, h4⟩

/-! ## Loading and unloading points: where the lookup is defined -/

theorem resolvePoint_ne_none (cols : List global_colony) (v : Int) :
    resolvePoint cols v ≠ none ↔
      (v ≤ 0 ∨ (v = 9999 ∧ 1 ≤ cols.length) ∨ (0 < v ∧ v < cols.length)) := by
  unfold resolvePoint
  by_cases h9 : v = 9999
  · rw [if_pos h9]
    cases hc : cols[0]? with
    | none =>
      have hlen : cols.length ≤ 0 := List.getElem?_eq_none_iff.mp hc
      simp only [ne_eq, not_true_eq_false, false_iff]
      omega
    | some c =>
      have hlen : 0 < cols.length := by
        by_contra hle
        have : cols[0]? = none := List.getElem?_eq_none_iff.mpr (by omega)
        rw [this] at hc
        cases hc
      simp only [ne_eq, reduceCtorEq, not_false_eq_true, true_iff]
      omega
  · rw [if_neg h9]
    by_cases hpos : v > 0
    · rw [if_pos hpos]
      cases hc : cols[v.toNat]? with
      | none =>
        have hlen : cols.length ≤ v.toNat := List.getElem?_eq_none_iff.mp hc
        simp only [ne_eq, not_true_eq_false, false_iff]
        omega
      | some c =>
        have hlen : v.toNat < cols.length := by
          by_contra hle
          have : cols[v.toNat]? = none := List.getElem?_eq_none_iff.mpr (by omega)
          rw [this] at hc
          cases hc
        simp only [ne_eq, reduceCtorEq, not_false_eq_true, true_iff]
        omega
    · rw [if_neg hpos]
      simp only [ne_eq, reduceCtorEq, not_false_eq_true, true_iff]
      omega

theorem exportShip_ne_none (env : Engine) (cols : List global_colony) (ship : ship_data) :
    exportShip env cols ship ≠ none ↔
      (resolvePoint cols ship.loading_point ≠ none ∧
        findColonyName cols ship.x ship.y ship.z ≠ none ∧
        resolvePoint cols ship.unloading_point ≠ none) := by
  unfold exportShip
  cases resolvePoint cols ship.loading_point <;>
    cases findColonyName cols ship.x ship.y ship.z <;>
    cases resolvePoint cols ship.unloading_point <;> simp

/-- C26: for a species with the colony records `namplas` (`c` of them) and a stored
loading or unloading point `v`, the lookup of the colony name is defined (it reads no
missing colony) exactly when `v <= 0`, or `v = 9999` and `c >= 1`, or `0 < v < c`; for
`v <= 0`, negative values included, the name stays empty.  A ship is built without
undefined behaviour exactly when its two lookups and the scan for its location are
defined, and a ship whose stored point is zero or negative has no `loading_point`
(resp. `unloading_point`) member. -/
theorem point_lookup_defined (env : Engine) (systems : List global_system)
    (namplas : List nampla_data) (v : Int) :
    (resolvePoint (exportColonies env systems 0 namplas) v ≠ none ↔
      (v ≤ 0 ∨ (v = 9999 ∧ 1 ≤ namplas.length) ∨ (0 < v ∧ v < namplas.length))) ∧
    (v ≤ 0 → resolvePoint (exportColonies env systems 0 namplas) v = some "") ∧
    (∀ ship : ship_data,
      exportShip env (exportColonies env systems 0 namplas) ship ≠ none ↔
        (resolvePoint (exportColonies env systems 0 namplas) ship.loading_point ≠ none ∧
          findColonyName (exportColonies env systems 0 namplas) ship.x ship.y ship.z ≠ none ∧
          resolvePoint (exportColonies env systems 0 namplas) ship.unloading_point ≠ none)) ∧
    (∀ (ship : ship_data) (p : global_ship),
      exportShip env (exportColonies env systems 0 namplas) ship = some p →
      (ship.loading_point ≤ 0 → (marshalShip env p).member "loading_point" = none) ∧
      (ship.unloading_point ≤ 0 → (marshalShip env p).member "unloading_point" = none)) := by
  refine ⟨?_, ?_, fun ship => exportShip_ne_none env _ ship, ?_⟩
  · rw [resolvePoint_ne_none, exportColonies_length]
  · intro hv
    have h9 : ¬ v = 9999 := by omega
    have hpos : ¬ v > 0 := by omega
    simp [resolvePoint, h9, hpos]
  · intro ship p hp
    obtain ⟨hl, _, hu, _⟩ := exportShip_some env _ ship p hp
    constructor
    · intro hv
      have h9 : ¬ ship.loading_point = 9999 := by omega
      have hpos : ¬ ship.loading_point > 0 := by omega
      have he : p.loading_point = "" := by
        simpa [resolvePoint, h9, hpos] using hl.symm
      rw [member_loading_point, if_pos he]
    · intro hv
      have h9 : ¬ ship.unloading_point = 9999 := by omega
      have hpos : ¬ ship.unloading_point > 0 := by omega
      have he : p.unloading_point = "" := by
        simpa [resolvePoint, h9, hpos] using hu.symm
      rw [member_unloading_point, if_pos he]

/-- An instance of C26 on the colony of the examples: with one colony the lookup is
defined for -3, 0 and 9999 and is not defined for 1 and 2. -/
theorem point_lookup_defined_witness :
    resolvePoint (exportColonies sampleEngine [] 0 [sampleHomeworld]) (-3) = some "" ∧
    resolvePoint (exportColonies sampleEngine [] 0 [sampleHomeworld]) 0 = some "" ∧
    resolvePoint (exportColonies sampleEngine [] 0 [sampleHomeworld]) 9999 ≠ none ∧
    resolvePoint (exportColonies sampleEngine [] 0 [sampleHomeworld]) 1 = none ∧
    resolvePoint (exportColonies sampleEngine [] 0 [sampleHomeworld]) 2 = none ∧
    resolvePoint (exportColonies sampleEngine [] 0 []) 9999 = none :=
  ⟨(point_lookup_defined sampleEngine [] [sampleHomeworld] (-3)).2.1 (by decide),
   (point_lookup_defined sampleEngine [] [sampleHomeworld] 0).2.1 (by decide),
   (point_lookup_defined sampleEngine [] [sampleHomeworld] 9999).1.mpr
     (Or.inr (Or.inl ⟨rfl, by decide⟩)),
   rfl, rfl, rfl⟩

/-! ## The destination of a ship -/

theorem member_destination (env : Engine) (s : global_ship) :
    (marshalShip env s).member "destination"
      = if s.destination.x = 0 then none else some (marshalLocation s.destination) := by
  by_cases h : s.destination.x = 0 <;>
    simp [marshalShip, json_value_t.member, lookupKey_add, lookupKey_add_if,
      lookupKey_add_if_last, h]

/-- C27: for every exported ship of a store on which the export is defined, the ship
node has the member `destination` if and only if the stored `dest_x` is not zero,
whatever `dest_y` and `dest_z` are; the member is then the map whose members are exactly
`x`, `y`, `z`, in this order, equal to `dest_x`, `dest_y`, `dest_z` (no `colony`, no
orbit, no travel-status member). -/
theorem destination_member (env : Engine) (st : Store) (doc : json_value_t)
    (hdoc : exportDocument env st = some doc) (i : Nat) (sp : species_data)
    (hsp : st.spec_data[i]? = some sp) (t : Nat) (ship : ship_data)
    (ht : (exportedShips sp)[t]? = some ship) :
    ∃ snode shnode : json_value_t,
      (speciesNodes doc)[i]? = some snode ∧ (shipNodes snode)[t]? = some shnode ∧
      (shnode.member "destination" ≠ none ↔ ship.dest_x ≠ 0) ∧
      shnode.member "destination"
        = (if ship.dest_x = 0 then none
           else some (json_value_t.map
             [("x", json_number ship.dest_x), ("y", json_number ship.dest_y),
              ("z", json_number ship.dest_z)])) := by
  obtain ⟨g, hg, rfl⟩ := exportDocument_some env st doc hdoc
  obtain ⟨snode, p, hs, hp, hsh⟩ := shipNodes_at env st g hg i sp hsp t ship ht
  obtain ⟨_, _, _, hrec⟩ := exportShip_some env _ ship p hp
  have hdest : p.destination
      = { x := ship.dest_x, y := ship.dest_y, z := ship.dest_z, orbit := 0,
          colony := "", deep_space := 0, in_orbit := 0, on_surface := 0,
          system := none, planet := none } := by rw [hrec]
  have hm : (marshalShip env p).member "destination"
      = (if ship.dest_x = 0 then none
         else some (json_value_t.map
           [("x", json_number ship.dest_x), ("y", json_number ship.dest_y),
            ("z", json_number ship.dest_z)])) := by
    rw [member_destination, hdest]
    rfl
  refine ⟨snode, marshalShip env p, hs, hsh, ?_, hm⟩
  rw [hm]
  by_cases h : ship.dest_x = 0 <;> simp [h]

/-- Witness of C27 on the tenth store of the examples: the ship with the destination
(7, 0, 9). -/
theorem destination_member_witness :
    ∃ doc snode shnode : json_value_t,
      exportDocument sampleEngine fleetStore = some doc ∧
      (speciesNodes doc)[0]? = some snode ∧ (shipNodes snode)[0]? = some shnode ∧
      (shnode.member "destination" ≠ none ↔ boundShip.dest_x ≠ 0) ∧
      shnode.member "destination"
        = some (json_value_t.map
            [("x", json_number 7), ("y", json_number 0), ("z", json_number 9)]) := by
  cases h : exportDocument sampleEngine fleetStore with
  | none => exact absurd (congrArg Option.isSome h) (by decide)
  | some doc =>
    obtain ⟨snode, shnode, h1, h2, h3, h4⟩ :=
      destination_member sampleEngine fleetStore doc h 0 fleetSpecies rfl 0 boundShip rfl
    exact ⟨doc, snode, shnode, rfl, h1, h2, h3, h4⟩

/-! ## The ships of a species -/

theorem member_ship_name (env : Engine) (s : global_ship) :
    (marshalShip env s).member "name" = some (json_string s.name) := by
  simp [marshalShip, json_value_t.member, lookupKey_add]

/-- C28: for every species of a store on which the export is defined, the `ships` list
of the species node has exactly one node per stored ship record whose name is not the
string "Unused", in the order of the store: the node at position `t` is the one built
from the record at position `t` among those records (it carries the display name of
that record), and a record named "Unused" contributes no node and leaves no gap. -/
theorem ships_list_skips_unused (env : Engine) (st : Store) (doc : json_value_t)
    (hdoc : exportDocument env st = some doc) (i : Nat) (sp : species_data)
    (hsp : st.spec_data[i]? = some sp) :
    ∃ (snode : json_value_t) (nodes : List json_value_t) (systems : List global_system),
      (speciesNodes doc)[i]? = some snode ∧
      snode.member "ships" = some (json_value_t.list nodes) ∧
      nodes.length = (sp.ships.filter fun ship => ship.name != "Unused").length ∧
      mapOpt (exportSystem env st.num_species) st.star_base = some systems ∧
      ∀ (t : Nat) (ship : ship_data),
        (sp.ships.filter fun ship => ship.name != "Unused")[t]? = some ship →
        ∃ p : global_ship,
          exportShip env (exportColonies env systems 0 sp.namplas) ship = some p ∧
          nodes[t]? = some (marshalShip env p) ∧
          (marshalShip env p).member "name" = some (json_string (env.shipDisplayName ship)) := by
  obtain ⟨g, hg, rfl⟩ := exportDocument_some env st doc hdoc
  obtain ⟨s, hs, _, hnode⟩ := speciesNodes_at env st g hg i sp hsp
  obtain ⟨_, hships, _⟩ := exportSpecies_some env g.cluster.systems st.num_species i sp s hs
  obtain ⟨hlen, hidx⟩ := mapOpt_some _ _ _ hships
  have hsys := (exportData_some env st g hg).2.2.2.2.1
  refine ⟨marshalSpecie env s, s.ships.map (marshalShip env), g.cluster.systems, hnode, ?_, ?_,
    hsys, ?_⟩
  · rw [member_ships]
    rfl
  · rw [List.length_map, hlen]
  · intro t ship ht
    obtain ⟨p, hp, hbuild⟩ := hidx t ship ht
    refine ⟨p, hbuild, by simp [hp], ?_⟩
    obtain ⟨_, _, _, hrec⟩ := exportShip_some env _ ship p hbuild
    rw [member_ship_name, hrec]

/-- Witness of C28 on the tenth store of the examples: the species owns three ship
records, the second named "Unused", and its node lists two ships. -/
theorem ships_list_skips_unused_witness :
    fleetSpecies.ships.length = 3 ∧
    ∃ (doc snode : json_value_t) (nodes : List json_value_t) (systems : List global_system),
      exportDocument sampleEngine fleetStore = some doc ∧
      (speciesNodes doc)[0]? = some snode ∧
      snode.member "ships" = some (json_value_t.list nodes) ∧
      nodes.length = 2 ∧
      mapOpt (exportSystem sampleEngine fleetStore.num_species) fleetStore.star_base
        = some systems ∧
      ∀ (t : Nat) (ship : ship_data),
        (fleetSpecies.ships.filter fun ship => ship.name != "Unused")[t]? = some ship →
        ∃ p : global_ship,
          exportShip sampleEngine (exportColonies sampleEngine systems 0 fleetSpecies.namplas)
            ship = some p ∧
          nodes[t]? = some (marshalShip sampleEngine p) ∧
          (marshalShip sampleEngine p).member "name"
            = some (json_string (sampleEngine.shipDisplayName ship)) := by
  refine ⟨rfl, ?_⟩
  cases h : exportDocument sampleEngine fleetStore with
  | none => exact absurd (congrArg Option.isSome h) (by decide)
  | some doc =>
    obtain ⟨snode, nodes, systems, h1, h2, h3, h4, h5⟩ :=
      ships_list_skips_unused sampleEngine fleetStore doc h 0 fleetSpecies rfl
    exact ⟨doc, snode, nodes, systems, rfl, h1, h2, h3, h4, h5⟩

/-! ## The message of a system -/

theorem member_system_message (env : Engine) (s : global_system) :
    (marshalSystem env s).member "message" = some (json_number s.id) := by
  by_cases h : s.home_system = 0 <;>
    simp [marshalSystem, json_value_t.member, lookupKey_add, lookupKey_add_if, h]

theorem mapOpt_map {α β γ : Type} (f : β → Option γ) (g : α → β) (l : List α) :
    mapOpt f (l.map g) = mapOpt (fun a => f (g a)) l := by
  induction l with
  | nil => rfl
  | cons a l ih => simp only [List.map_cons, mapOpt, ih]

/-- The export graph does not depend on the stored messages of the stars. -/
theorem exportData_star_message (env : Engine) (st : Store) (f : star_data → Int) :
    exportData env { st with star_base := st.star_base.map fun s => { s with message := f s } }
      = exportData env st := by
  have hsys : ∀ n : Nat, mapOpt (exportSystem env n)
        (st.star_base.map fun s => { s with message := f s })
      = mapOpt (exportSystem env n) st.star_base := by
    intro n
    rw [mapOpt_map]
    rfl
  dsimp only [exportData, Store.num_species]
  rw [hsys]

/-- C29: for every star record of a store on which the export is defined, the system
node always has the member `message`, and its value is the id of the star, which is
also the value of the member `id` of the node; the stored message of the star is not
read: replacing the messages of all the stars by any other values gives the same
document. -/
theorem system_message_is_id (env : Engine) (st : Store) (doc : json_value_t)
    (hdoc : exportDocument env st = some doc) (j : Nat) (star : star_data)
    (hstar : st.star_base[j]? = some star) :
    (∃ node : json_value_t,
      (systemNodes doc)[j]? = some node ∧
      node.member "message" = some (json_number star.id) ∧
      node.member "message" = node.member "id") ∧
    ∀ f : star_data → Int,
      exportDocument env
          { st with star_base := st.star_base.map fun s => { s with message := f s } }
        = some doc := by
  obtain ⟨g, hg, rfl⟩ := exportDocument_some env st doc hdoc
  obtain ⟨s, hs, _, hnode⟩ := systemNodes_at env st g hg j star hstar
  obtain ⟨hrec, _⟩ := exportSystem_some env st.num_species star s hs
  have hid : s.id = star.id := by rw [hrec]
  refine ⟨⟨marshalSystem env s, hnode, ?_, ?_⟩, ?_⟩
  · rw [member_system_message, hid]
  · rw [member_system_message, member_system_id]
  · intro f
    unfold exportDocument
    rw [exportData_star_message, hg]
    rfl

/-- Witness of C29 on the store of the examples: the star with id 7 and stored
message 0. -/
theorem system_message_is_id_witness :
    sampleStar.message = 0 ∧
    (∃ node : json_value_t,
      (systemNodes sampleDocument)[0]? = some node ∧
      node.member "message" = some (json_number 7) ∧
      node.member "message" = node.member "id") ∧
    ∀ f : star_data → Int,
      exportDocument sampleEngine
          { sampleStore with
            star_base := sampleStore.star_base.map fun s => { s with message := f s } }
        = some sampleDocument :=
  ⟨rfl, system_message_is_id sampleEngine sampleStore sampleDocument exportDocument_sampleStore
    0 sampleStar rfl⟩

/-! ## `setSpecies`: when the species data is saved -/

/-- One iteration of the loop of `setSpecies` once the species number has been read: it
returns 2 with the globals as they are, or it stores one field through `sp`, marks the
species as modified and goes on after the value. -/
theorem setSpeciesLoop_step (ext : SetEnv) (arg : String) (rest : List String)
    (spno spidx : Int) (idx : Nat) (st : set_store) (hspno : spno ≠ 0) :
    setSpeciesLoop ext (arg :: rest) spno spidx (some idx) st = some (2, st) ∨
    ∃ (v : String) (rest' : List String) (f : species_data → species_data),
      rest = v :: rest' ∧
      setSpeciesLoop ext (arg :: rest) spno spidx (some idx) st
        = setSpeciesLoop ext rest' spno spidx (some idx)
            ((st.update idx f).markModified spidx) := by
  rw [setSpeciesLoop.eq_def]
  dsimp only
  by_cases hh : (decide (arg = "--help") || decide (arg = "-h") || decide (arg = "-?")) = true
  · left
    rw [if_pos hh]
  rw [if_neg hh, if_neg hspno]
  by_cases ht : (decide (arg = "bi") || decide (arg = "gv") || decide (arg = "ls") ||
      decide (arg = "ma") || decide (arg = "mi") || decide (arg = "ml")) = true
  · rw [if_pos ht]
    cases rest with
    | nil => exact Or.inl rfl
    | cons v rest' =>
      dsimp only
      by_cases hv : strlen v = 0
      · left
        rw [if_pos hv]
      rw [if_neg hv]
      by_cases ha : ext.atoi v < 0
      · left
        rw [if_pos ha]
      rw [if_neg ha]
      exact Or.inr ⟨v, rest', _, rfl, rfl⟩
  rw [if_neg ht]
  by_cases he : arg = "eu"
  · rw [if_pos he]
    cases rest with
    | nil => exact Or.inl rfl
    | cons v rest' =>
      dsimp only
      by_cases hv : strlen v = 0
      · left
        rw [if_pos hv]
      rw [if_neg hv]
      by_cases ha : ext.atoi v < 0
      · left
        rw [if_pos ha]
      rw [if_neg ha]
      exact Or.inr ⟨v, rest', _, rfl, rfl⟩
  rw [if_neg he]
  by_cases hg : arg = "govt-type"
  · rw [if_pos hg]
    cases rest with
    | nil => exact Or.inl rfl
    | cons v rest' =>
      dsimp only
      by_cases hv : strlen v = 0
      · left
        rw [if_pos hv]
      rw [if_neg hv]
      by_cases ha : (!decide (strlen v < 32)) = true
      · left
        rw [if_pos ha]
      rw [if_neg ha]
      exact Or.inr ⟨v, rest', _, rfl, rfl⟩
  rw [if_neg hg]
  by_cases hp : arg = "hp"
  · rw [if_pos hp]
    cases rest with
    | nil => exact Or.inl rfl
    | cons v rest' =>
      dsimp only
      by_cases hv : strlen v = 0
      · left
        rw [if_pos hv]
      rw [if_neg hv]
      by_cases ha : ext.atoi v < 0
      · left
        rw [if_pos ha]
      rw [if_neg ha]
      exact Or.inr ⟨v, rest', _, rfl, rfl⟩
  rw [if_neg hp]
  exact Or.inl rfl


/-- The loop of `setSpecies` once the species number has been read, on any arguments: it
returns 0 or 2; on 2 `save_species_data` was not called; on 0 it was called once if an
argument was left to read or the species was already marked as modified, and not at all
otherwise. -/
theorem setSpeciesLoop_pairs (ext : SetEnv) (spno spidx : Int) (idx : Nat) (hspno : spno ≠ 0)
    (hidx : idx = spidx.toNat) :
    ∀ (n : Nat) (args : List String) (st : set_store), args.length ≤ n →
      ∃ (r : Int) (st' : set_store),
        setSpeciesLoop ext args spno spidx (some idx) st = some (r, st') ∧
        (r = 0 ∨ r = 2) ∧
        (r = 2 → st'.saves = st.saves) ∧
        (r = 0 → (st'.saves = st.saves + 1 ↔ (args ≠ [] ∨ st.data_modified idx ≠ 0)) ∧
          (st'.saves = st.saves ∨ st'.saves = st.saves + 1)) ∧
        (args = [] → st'.spec_data = st.spec_data) := by
  intro n
  induction n with
  | zero =>
    intro args st hlen
    have hnil : args = [] := List.length_eq_zero.mp (by omega)
    subst hnil
    rw [setSpeciesLoop.eq_def]
    dsimp only [setSpeciesFinish]
    by_cases hm : st.data_modified spidx.toNat = 0
    · rw [if_pos hm]
      refine ⟨0, st, rfl, Or.inl rfl, fun _ => rfl, fun _ => ⟨?_, Or.inl rfl⟩, fun _ => rfl⟩
      rw [hidx]
      simp [hm]
    · rw [if_neg hm]
      refine ⟨0, _, rfl, Or.inl rfl, fun h => absurd h (by decide),
        fun _ => ⟨?_, Or.inr rfl⟩, fun _ => rfl⟩
      rw [hidx]
      simp [hm]
  | succ n ih =>
    intro args st hlen
    cases args with
    | nil => exact ih [] st (by simp)
    | cons arg rest =>
      rcases setSpeciesLoop_step ext arg rest spno spidx idx st hspno with h | ⟨v, rest', f, hrest, h⟩
      · exact ⟨2, st, h, Or.inr rfl, fun _ => rfl, fun h0 => absurd h0 (by decide),
          fun hnil => by cases hnil⟩
      · have hlen2 : rest'.length ≤ n := by
          subst hrest
          simp only [List.length_cons] at hlen
          omega
        obtain ⟨r, st', hr, hval, h2, h0, _⟩ :=
          ih rest' ((st.update idx f).markModified spidx) hlen2
        have hmod : ((st.update idx f).markModified spidx).data_modified idx ≠ 0 := by
          simp [set_store.markModified, hidx]
        have hsaves : ((st.update idx f).markModified spidx).saves = st.saves := rfl
        refine ⟨r, st', h.trans hr, hval, ?_, ?_, fun hnil => by cases hnil⟩
        · intro hr2
          rw [h2 hr2, hsaves]
        · intro hr0
          obtain ⟨hiff, _⟩ := h0 hr0
          have hs : st'.saves = st.saves + 1 := by
            rw [← hsaves]
            exact hiff.mpr (Or.inr hmod)
          exact ⟨⟨fun _ => Or.inl (by simp), fun _ => hs⟩, Or.inr hs⟩

/-- C30: on every argument list and every state of the globals `setSpecies` returns, and
it returns 0 or 2.  When it returns 2, `save_species_data` was not called, whatever
fields were stored before the failing argument.  When it returns 0, from globals in
which no species is marked as modified (as the load leaves them), `save_species_data`
was called, once, if and only if the argument list holds at least one field after the
word "species" and the species number, that is, has at least three entries; with
fewer entries no record was changed. -/
theorem set_species_saves (ext : SetEnv) (argv : List String) (st : set_store) :
    ∃ (r : Int) (st' : set_store),
      setSpecies ext argv st = some (r, st') ∧
      (r = 0 ∨ r = 2) ∧
      (r = 2 → st'.saves = st.saves) ∧
      (r = 0 → (∀ j, st.data_modified j = 0) →
        (st'.saves = st.saves + 1 ↔ 3 ≤ argv.length) ∧
        (st'.saves = st.saves ∨ st'.saves = st.saves + 1) ∧
        (argv.length < 3 → st'.spec_data = st.spec_data)) := by
  unfold setSpecies
  cases hargs : argv.drop 1 with
  | nil =>
    have hlen : argv.length ≤ 1 := by
      have := congrArg List.length hargs
      simp only [List.length_drop, List.length_nil] at this
      omega
    refine ⟨0, st, rfl, Or.inl rfl, fun _ => rfl, fun _ _ => ⟨?_, Or.inl rfl, fun _ => rfl⟩⟩
    constructor
    · intro h
      omega
    · intro h
      omega
  | cons arg rest =>
    have hlen : argv.length = rest.length + 2 := by
      have := congrArg List.length hargs
      simp only [List.length_drop, List.length_cons] at this
      omega
    rw [setSpeciesLoop.eq_def]
    dsimp only
    by_cases hh : (decide (arg = "--help") || decide (arg = "-h") || decide (arg = "-?")) = true
    · rw [if_pos hh]
      exact ⟨2, st, rfl, Or.inr rfl, fun _ => rfl, fun h => absurd h (by decide)⟩
    rw [if_neg hh, if_pos rfl]
    by_cases hv : (decide (ext.atoi arg < 1) || decide (ext.atoi arg > st.num_species)) = true
    · rw [if_pos hv]
      exact ⟨2, st, rfl, Or.inr rfl, fun _ => rfl, fun h => absurd h (by decide)⟩
    rw [if_neg hv]
    by_cases hl : st.data_in_memory (ext.atoi arg).toNat = 0
    · rw [if_pos hl]
      exact ⟨2, st, rfl, Or.inr rfl, fun _ => rfl, fun h => absurd h (by decide)⟩
    rw [if_neg hl]
    have hspno : ext.atoi arg ≠ 0 := by
      intro h0
      apply hv
      simp [h0]
    obtain ⟨r, st', hr, hval, h2, h0, hnil⟩ :=
      setSpeciesLoop_pairs ext (ext.atoi arg) (ext.atoi arg - 1) (ext.atoi arg - 1).toNat hspno
        rfl rest.length rest st (le_refl _)
    refine ⟨r, st', hr, hval, h2, ?_⟩
    intro hr0 hclean
    obtain ⟨hiff, hor⟩ := h0 hr0
    refine ⟨?_, hor, ?_⟩
    · rw [hiff]
      constructor
      · rintro (hne | hm)
        · cases rest with
          | nil => exact absurd rfl hne
          | cons a b =>
            simp only [List.length_cons] at hlen
            omega
        · exact absurd (hclean _) hm
      · intro h3
        left
        intro hnil
        rw [hnil] at hlen
        simp at hlen
        omega
    · intro hlt
      apply hnil
      cases rest with
      | nil => rfl
      | cons a b =>
        simp only [List.length_cons] at hlen
        omega

/-- Witness of C30 on the globals of the examples: `species 1 govt-type Monarchy bogus`
stores the government type of species 1, then fails on the unknown option: it returns 2
and `save_species_data` is not called. -/
theorem set_species_saves_witness :
    (setSpecies sampleSetEnv ["species", "1", "govt-type", "Monarchy", "bogus"]
      sampleSetStore).map Prod.fst = some 2 ∧
    (setSpecies sampleSetEnv ["species", "1", "govt-type", "Monarchy", "bogus"]
      sampleSetStore).map (fun q => (q.2.spec_data 0).govt_type) = some "Monarchy" ∧
    (sampleSetStore.spec_data 0).govt_type = "" ∧
    ∃ (r : Int) (st' : set_store),
      setSpecies sampleSetEnv ["species", "1", "govt-type", "Monarchy", "bogus"] sampleSetStore
        = some (r, st') ∧
      (r = 0 ∨ r = 2) ∧
      (r = 2 → st'.saves = sampleSetStore.saves) ∧
      (r = 0 → (∀ j, sampleSetStore.data_modified j = 0) →
        (st'.saves = sampleSetStore.saves + 1
          ↔ 3 ≤ ["species", "1", "govt-type", "Monarchy", "bogus"].length) ∧
        (st'.saves = sampleSetStore.saves ∨ st'.saves = sampleSetStore.saves + 1) ∧
        (["species", "1", "govt-type", "Monarchy", "bogus"].length < 3 →
          st'.spec_data = sampleSetStore.spec_data)) :=
  ⟨by decide, rfl, rfl,
    set_species_saves sampleSetEnv ["species", "1", "govt-type", "Monarchy", "bogus"]
      sampleSetStore⟩

end FarHorizons
